import Mathlib

/-!
# Alumni management server: batch lifecycle and role transition

A shallow embedding of the request handlers of `server/routes/admin.js`,
`server/routes/auth.js`, `server/routes/students.js` and of the schema method
`updateStudentCount` of `server/models/Batch.js`, and of the upload handlers
of `server/routes/upload.js`.

Modelling conventions.

* The database is a `Store`: one list of documents per collection, in natural
  order.  `_id` is the primary key of a collection; `save` writes a document
  back at its `_id`, `findById` returns the first document with that `_id`.
* An `ObjectId` is a natural number, a `Date` is a number of milliseconds.
  `new Date()` and the `_id` of a freshly constructed document are supplied to
  a handler as arguments (`now`, `newId`).
* A request body is a record of optional values (`none` is an absent key).
  JavaScript truthiness of such a value is `truthyS`/`truthyN`: a present
  non-empty string, a present non-zero number; an array or an id that is
  present is truthy.
* Only the paths declared in the schemas are modelled; the bookkeeping paths
  `createdAt`/`updatedAt` added by the `timestamps` option are not.
* The handlers that write a path with a setter (`trim`, `lowercase`) or a
  Number path from the body are given twice.  `createBatch`, `createStudent`,
  `updateStudent`, `register` and `updateProfile` take a body in stored form:
  a string is as the setters leave it, a number is a number.  `createBatchRaw`,
  `createStudentRaw`, `updateStudentRaw`, `registerRaw` and `updateProfileRaw`
  take the body as it is sent: the validation chain and the `if (v)` guards
  look at the submitted value (a number may come as a string), the setters and
  the cast run on assignment and on the conditions of a query.  On a body in
  stored form the two agree (`createBatchRaw_of_stored_form` and its four
  siblings).
* Documents held by a `Store` were validated when they were written.  Saving
  a loaded document checks the validators of the paths the handler assigned;
  saving a new document checks every validator and the unique indexes.  A
  failed save throws, and the handler answers 500 from its `catch`.
* The collaborators that are not part of the handlers (the bcrypt hash and
  comparison, the token signer, the e-mail and number checks of the request
  validator, `trim`, `toLowerCase` and `Number` of JavaScript, the
  regular-expression constructor and the authentication middleware) are
  arguments of the handler that uses them.
* `.sort(...)` orders the documents of a query by the named path of the stored
  document, whether or not `.select(...)` keeps that path in the answer;
  documents that compare equal stay in natural order.
-/

namespace Arjun

abbrev ObjectId := Nat
abbrev Date := Nat

/-- Values of the `role` path of the user schema. -/
inductive Role
  | student
  | admin
  deriving DecidableEq, Repr

/-- One element of the `achievements` array of the user schema. -/
structure Achievement where
  title : String
  description : String
  date : Option Date
  deriving DecidableEq, Repr

/-- A document of `batchSchema` (models/Batch.js). -/
structure Batch where
  _id : ObjectId
  batchName : String
  year : Int
  course : String
  department : String
  startDate : Date
  endDate : Date
  isCompleted : Bool
  completedDate : Option Date
  totalStudents : Nat
  description : Option String
  deriving DecidableEq, Repr

/-- A document of `userSchema` (models/User.js). -/
structure User where
  _id : ObjectId
  name : String
  email : String
  password : String
  role : Role
  studentId : Option String
  batch : Option ObjectId
  phone : Option String
  profilePicture : String
  resume : String
  course : Option String
  department : Option String
  year : Option Int
  isAlumni : Bool
  jobRole : String
  company : String
  workLocation : String
  salary : Int
  experience : String
  skills : List String
  achievements : List Achievement
  linkedinProfile : String
  githubProfile : String
  portfolioWebsite : String
  currentStatus : String
  deriving DecidableEq, Repr

/-- One element of `sharedStudentLists` of the company schema. -/
structure SharedStudentList where
  batch : ObjectId
  sharedDate : Date
  students : List ObjectId
  message : String
  deriving DecidableEq, Repr

/-- A document of `companySchema` (models/Company.js). -/
structure Company where
  _id : ObjectId
  companyName : String
  contactEmail : String
  contactPerson : String
  contactPhone : Option String
  website : Option String
  description : Option String
  industry : Option String
  location : Option String
  sharedStudentLists : List SharedStudentList
  deriving DecidableEq, Repr

/-- The three collections of the database. -/
structure Store where
  batches : List Batch
  users : List User
  companies : List Company
  deriving DecidableEq, Repr

/-! ## Collection primitives -/

/-- `Batch.findById(id)`. -/
def Batch.findById (s : Store) (id : ObjectId) : Option Batch :=
  s.batches.find? (fun b => b._id == id)

/-- `batch.save()` of a loaded batch document: the document stored under its
`_id` becomes the in-memory document. -/
def Batch.save (s : Store) (this : Batch) : Store :=
  { s with batches := s.batches.map (fun b => if b._id = this._id then this else b) }

/-- `User.findById(id)`. -/
def User.findById (s : Store) (id : ObjectId) : Option User :=
  s.users.find? (fun u => u._id == id)

/-- `user.save()` of a loaded user document. -/
def User.save (s : Store) (this : User) : Store :=
  { s with users := s.users.map (fun u => if u._id = this._id then this else u) }

/-- `user.save()` of a newly constructed user document. -/
def User.insert (s : Store) (this : User) : Store :=
  { s with users := s.users ++ [this] }

/-- `User.countDocuments(filter)`. -/
def User.countDocuments (s : Store) (filter : User → Bool) : Nat :=
  (s.users.filter filter).length

/-- `User.updateMany(filter, { $set: { isAlumni: true } })`. -/
def User.updateManySetAlumni (s : Store) (filter : User → Bool) : Store :=
  { s with users := s.users.map (fun u => if filter u then { u with isAlumni := true } else u) }

/-- `User.findByIdAndDelete(id)`. -/
def User.findByIdAndDelete (s : Store) (id : ObjectId) : Store :=
  { s with users := s.users.eraseP (fun u => u._id == id) }

/-- The schema method `updateStudentCount` (models/Batch.js, lines 50-55):
count the users whose `batch` is this batch, store the count in
`totalStudents`, save. -/
def Batch.updateStudentCount (s : Store) (this : Batch) : Store :=
  let count := User.countDocuments s (fun u => u.batch == some this._id)
  let this := { this with totalStudents := count }
  Batch.save s this

/-! ## Responses -/

/-- A user as serialised after `.select('-password').populate('batch')`. -/
structure UserView where
  _id : ObjectId
  name : String
  email : String
  role : Role
  studentId : Option String
  batchRef : Option ObjectId
  batch : Option Batch
  phone : Option String
  profilePicture : String
  resume : String
  course : Option String
  department : Option String
  year : Option Int
  isAlumni : Bool
  jobRole : String
  company : String
  workLocation : String
  salary : Int
  experience : String
  skills : List String
  achievements : List Achievement
  linkedinProfile : String
  githubProfile : String
  portfolioWebsite : String
  currentStatus : String
  deriving DecidableEq, Repr

/-- The `user` object of the register response (auth.js, lines 79-87). -/
structure RegisteredUser where
  id : ObjectId
  name : String
  email : String
  role : Role
  studentId : Option String
  batch : Option ObjectId
  isAlumni : Bool
  deriving DecidableEq, Repr

/-- The body of the answer of `GET /dashboard/stats` (admin.js, lines 408-416). -/
structure DashboardStats where
  totalStudents : Int
  currentStudents : Int
  totalAlumni : Int
  totalBatches : Int
  activeBatches : Int
  completedBatches : Int
  totalCompanies : Int
  deriving DecidableEq, Repr

/-- The `user` object of the login response (auth.js, lines 132-141); its
`batch` is populated. -/
structure LoginUser where
  id : ObjectId
  name : String
  email : String
  role : Role
  studentId : Option String
  batch : Option Batch
  isAlumni : Bool
  profilePicture : String
  deriving DecidableEq, Repr

/-- A batch as populated by `.populate('batch', 'batchName year course department')`
or by `.populate('batch', 'batchName year course')` (no `department`). -/
structure BatchSummary where
  _id : ObjectId
  batchName : String
  year : Int
  course : String
  department : Option String
  deriving DecidableEq, Repr

/-- A user as serialised after `.select('-password -email')` with a partly
populated batch. -/
structure PublicView where
  _id : ObjectId
  name : String
  role : Role
  studentId : Option String
  batch : Option BatchSummary
  phone : Option String
  profilePicture : String
  resume : String
  course : Option String
  department : Option String
  year : Option Int
  isAlumni : Bool
  jobRole : String
  company : String
  workLocation : String
  salary : Int
  experience : String
  skills : List String
  achievements : List Achievement
  linkedinProfile : String
  githubProfile : String
  portfolioWebsite : String
  currentStatus : String
  deriving DecidableEq, Repr

/-- One element of the answer of `GET /batch-mates`: the mate and the added
`connectionStatus` (students.js, lines 384-387). -/
structure MateView where
  mate : PublicView
  connectionStatus : String
  deriving DecidableEq, Repr

/-- JSON bodies the handlers send. -/
inductive Payload
  | message (m : String)
  | errors (es : List String)
  | batch (b : Batch)
  | messageBatch (m : String) (b : Batch)
  | user (u : Option UserView)
  | tokenUser (token : String) (u : RegisteredUser)
  | company (c : Company)
  | shared (m : String) (sharedStudents : Nat)
  | messagePath (m : String) (path : String)
  | stats (st : DashboardStats)
  | batches (bs : List Batch)
  | login (token : String) (u : LoginUser)
  | users (us : List UserView)
  | publicUser (u : PublicView)
  | publicUsers (us : List PublicView)
  | mates (ms : List MateView)
  deriving DecidableEq, Repr

/-- An HTTP response: status code and JSON body. -/
structure Response where
  status : Nat
  body : Payload
  deriving DecidableEq, Repr

/-- `User.findById(id).select('-password').populate('batch')`. -/
def User.view (s : Store) (u : User) : UserView :=
  { _id := u._id, name := u.name, email := u.email, role := u.role,
    studentId := u.studentId, batchRef := u.batch,
    batch := u.batch.bind (Batch.findById s),
    phone := u.phone, profilePicture := u.profilePicture, resume := u.resume,
    course := u.course, department := u.department, year := u.year,
    isAlumni := u.isAlumni, jobRole := u.jobRole, company := u.company,
    workLocation := u.workLocation, salary := u.salary, experience := u.experience,
    skills := u.skills, achievements := u.achievements,
    linkedinProfile := u.linkedinProfile, githubProfile := u.githubProfile,
    portfolioWebsite := u.portfolioWebsite, currentStatus := u.currentStatus }

/-- The populated batch of `.populate('batch', fields)`. -/
def Batch.summary (withDepartment : Bool) (b : Batch) : BatchSummary :=
  { _id := b._id, batchName := b.batchName, year := b.year, course := b.course,
    department := if withDepartment then some b.department else none }

/-- A user after `.select('-password -email').populate('batch', fields)`. -/
def User.publicView (s : Store) (withDepartment : Bool) (u : User) : PublicView :=
  { _id := u._id, name := u.name, role := u.role, studentId := u.studentId,
    batch := (u.batch.bind (Batch.findById s)).map (Batch.summary withDepartment),
    phone := u.phone, profilePicture := u.profilePicture, resume := u.resume,
    course := u.course, department := u.department, year := u.year,
    isAlumni := u.isAlumni, jobRole := u.jobRole, company := u.company,
    workLocation := u.workLocation, salary := u.salary, experience := u.experience,
    skills := u.skills, achievements := u.achievements,
    linkedinProfile := u.linkedinProfile, githubProfile := u.githubProfile,
    portfolioWebsite := u.portfolioWebsite, currentStatus := u.currentStatus }

/-! ## PUT /api/admin/batches/:id/complete -/

/-- The handler of `PUT /batches/:id/complete` (admin.js, lines 70-94). -/
def completeBatch (now : Date) (id : ObjectId) (s : Store) : Response × Store :=
  match Batch.findById s id with
  | none => (⟨404, .message "Batch not found"⟩, s)
  | some batch =>
    let batch := { batch with isCompleted := true, completedDate := some now }
    let s := Batch.save s batch
    let s := User.updateManySetAlumni s
      (fun u => u.batch == some batch._id && u.role == Role.student)
    (⟨200, .messageBatch "Batch marked as completed and students converted to alumni" batch⟩, s)

/-! ## Request bodies and JavaScript truthiness -/

/-- Truthiness of an optional string: present and not empty. -/
def truthyS (v : Option String) : Bool :=
  match v with
  | some x => x != ""
  | none => false

/-- Truthiness of an optional number: present and not zero. -/
def truthyN (v : Option Int) : Bool :=
  match v with
  | some x => x != 0
  | none => false

/-- `if (v) doc.path = v` on a string path. -/
def assignS (v : Option String) (old : String) : String :=
  match v with
  | some x => if x != "" then x else old
  | none => old

/-- `if (v) doc.path = v` on an optional string path. -/
def assignOS (v : Option String) (old : Option String) : Option String :=
  match v with
  | some x => if x != "" then some x else old
  | none => old

/-- `if (v) doc.path = v` on a number path. -/
def assignN (v : Option Int) (old : Int) : Int :=
  match v with
  | some x => if x != 0 then x else old
  | none => old

/-- `if (v) doc.path = v` on an optional number path. -/
def assignON (v : Option Int) (old : Option Int) : Option Int :=
  match v with
  | some x => if x != 0 then some x else old
  | none => old

/-- `if (v) doc.path = v` where every present value is truthy (arrays). -/
def assignA {α : Type} (v : Option α) (old : α) : α :=
  match v with
  | some x => x
  | none => old

/-- `if (v) doc.path = v` on an optional reference path. -/
def assignOA {α : Type} (v : Option α) (old : Option α) : Option α :=
  match v with
  | some x => some x
  | none => old

/-- The collaborators of the handlers that live outside the route files:
the e-mail and number checks of the request validator, the bcrypt hash, the
token signer, and the JavaScript functions the schema calls on a submitted
value (`String.prototype.trim`, `String.prototype.toLowerCase`, and
`Number(x)` on a string, `none` when the result is `NaN`). -/
structure Env where
  isEmail : String → Bool
  hash : String → String
  sign : ObjectId → Role → String
  trim : String → String
  toLowerCase : String → String
  toNumber : String → Option Int
  isNumeric : String → Bool

/-- The setters of the `email` path of the user schema, `trim` and
`lowercase`; the two commute. -/
def Env.email (env : Env) (x : String) : String := env.toLowerCase (env.trim x)

/-- White space and line terminators of ECMAScript. -/
def isWhiteSpace (c : Char) : Bool :=
  [9, 10, 11, 12, 13, 32, 160, 5760, 8232, 8233, 8239, 8287, 12288, 65279].contains c.toNat ||
    (decide (8192 ≤ c.toNat) && decide (c.toNat ≤ 8202))

/-- `x.trim()`. -/
def sampleTrim (x : String) : String :=
  String.mk ((x.toList.dropWhile isWhiteSpace).reverse.dropWhile isWhiteSpace).reverse

/-- `x.toLowerCase()` on the letters of ASCII. -/
def sampleToLowerCase (x : String) : String := String.mk (x.toList.map Char.toLower)

/-- The value of a non-empty run of decimal digits. -/
def digitsValue (cs : List Char) : Option Nat :=
  if cs ≠ [] ∧ cs.all Char.isDigit then some (cs.foldl (fun a c => 10 * a + (c.toNat - 48)) 0)
  else none

/-- `Number(x)` on the strings that denote a decimal integer (white space
around it is dropped, white space alone gives 0). -/
def sampleToNumber (x : String) : Option Int :=
  match (sampleTrim x).toList with
  | [] => some 0
  | '-' :: cs => (digitsValue cs).map (fun n => - (n : Int))
  | '+' :: cs => (digitsValue cs).map (fun n => (n : Int))
  | cs => (digitsValue cs).map (fun n => (n : Int))

/-- The check `isNumeric` on the strings that denote a decimal integer. -/
def sampleIsNumeric (x : String) : Bool :=
  match x.toList with
  | '-' :: cs => (digitsValue cs).isSome
  | '+' :: cs => (digitsValue cs).isSome
  | cs => (digitsValue cs).isSome

/-- A concrete choice of collaborators, used to evaluate the handlers. -/
def Env.sample : Env :=
  { isEmail := fun e => e.toList.any (fun c => c == '@')
    hash := fun p => "$2a$10$" ++ p
    sign := fun id _ => "jwt-" ++ toString id
    trim := sampleTrim
    toLowerCase := sampleToLowerCase
    toNumber := sampleToNumber
    isNumeric := sampleIsNumeric }

/-- The 500 answer of every `catch` block. -/
def serverError : Response := ⟨500, .message "Server error"⟩

/-- The values of the `enum` of `currentStatus`. -/
def currentStatusEnum : List String :=
  ["studying", "job_searching", "employed", "entrepreneur", "higher_studies"]

/-- A `required` validator on a string path. -/
def requiredS (v : Option String) : Bool := truthyS v

/-- The validators of `userSchema` on a new document: `required` on name,
email and password, `minlength` on password, the role-dependent `required`
on batch, course, department and year, and the `enum` of `currentStatus`. -/
def User.validate (u : User) : Bool :=
  u.name != "" && u.email != "" && decide (6 ≤ u.password.length) &&
  (u.role != Role.student ||
    (u.batch.isSome && requiredS u.course && requiredS u.department && u.year.isSome)) &&
  currentStatusEnum.contains u.currentStatus

/-- The unique index on `email` and the sparse unique index on `studentId`
reject a new document. -/
def User.indexConflict (s : Store) (u : User) : Bool :=
  s.users.any (fun v => v.email == u.email || (u.studentId.isSome && v.studentId == u.studentId))

/-- `new User(data).save()`: validators, unique indexes, then the pre-save
hook hashes the password and the document is inserted. -/
def User.create (env : Env) (s : Store) (u : User) : Option Store :=
  if User.validate u && !User.indexConflict s u then
    some (User.insert s { u with password := env.hash u.password })
  else none

/-- The schema defaults of a new user document. -/
def User.defaults (newId : ObjectId) (name email password : String) (role : Role) : User :=
  { _id := newId, name := name, email := email, password := password, role := role,
    studentId := none, batch := none, phone := none, profilePicture := "", resume := "",
    course := none, department := none, year := none, isAlumni := false,
    jobRole := "", company := "", workLocation := "", salary := 0, experience := "",
    skills := [], achievements := [], linkedinProfile := "", githubProfile := "",
    portfolioWebsite := "", currentStatus := "studying" }

/-! ## POST /api/admin/batches -/

/-- The body of `POST /batches`. -/
structure CreateBatchBody where
  batchName : Option String
  year : Option Int
  course : Option String
  department : Option String
  startDate : Option Date
  endDate : Option Date
  description : Option String
  deriving DecidableEq, Repr

/-- The validation chain of `POST /batches` (admin.js, lines 14-19): the
messages of the checks that fail, in order. -/
def createBatchErrors (b : CreateBatchBody) : List String :=
  (if truthyS b.batchName then [] else ["Batch name is required"]) ++
  (if b.year.isSome then [] else ["Year must be a number"]) ++
  (if truthyS b.course then [] else ["Course is required"]) ++
  (if truthyS b.department then [] else ["Department is required"]) ++
  (if b.startDate.isSome then [] else ["Valid start date is required"]) ++
  (if b.endDate.isSome then [] else ["Valid end date is required"])

/-- The handler of `POST /batches` (admin.js, lines 20-52). -/
def createBatch (newId : ObjectId) (body : CreateBatchBody) (s : Store) : Response × Store :=
  if createBatchErrors body ≠ [] then
    (⟨400, .errors (createBatchErrors body)⟩, s)
  else
    match body.batchName, body.year, body.course, body.department,
        body.startDate, body.endDate with
    | some batchName, some year, some course, some department, some startDate, some endDate =>
      match s.batches.find? (fun b => b.batchName == batchName) with
      | some _ => (⟨400, .message "Batch with this name already exists"⟩, s)
      | none =>
        let batch : Batch :=
          { _id := newId, batchName := batchName, year := year, course := course,
            department := department, startDate := startDate, endDate := endDate,
            isCompleted := false, completedDate := none, totalStudents := 0,
            description := body.description }
        (⟨201, .batch batch⟩, { s with batches := s.batches ++ [batch] })
    | _, _, _, _, _, _ => (serverError, s)

/-! ## POST /api/admin/students -/

/-- The body of `POST /students` and of `POST /register`. -/
structure StudentBody where
  name : Option String
  email : Option String
  password : Option String
  role : Option Role
  studentId : Option String
  batch : Option ObjectId
  course : Option String
  department : Option String
  year : Option Int
  phone : Option String
  deriving DecidableEq, Repr

/-- The validation chain of `POST /students` (admin.js, lines 100-107). -/
def createStudentErrors (env : Env) (b : StudentBody) : List String :=
  (if truthyS b.name then [] else ["Name is required"]) ++
  (if (b.email.map env.isEmail).getD false then [] else ["Please provide a valid email"]) ++
  (if (b.password.map (fun p => decide (6 ≤ p.length))).getD false then []
    else ["Password must be at least 6 characters"]) ++
  (if truthyS b.studentId then [] else ["Student ID is required"]) ++
  (if b.batch.isSome then [] else ["Batch is required"]) ++
  (if truthyS b.course then [] else ["Course is required"]) ++
  (if truthyS b.department then [] else ["Department is required"]) ++
  (if b.year.isSome then [] else ["Year must be a number"])

/-- The handler of `POST /students` (admin.js, lines 108-162). -/
def createStudent (env : Env) (newId : ObjectId) (body : StudentBody) (s : Store) :
    Response × Store :=
  if createStudentErrors env body ≠ [] then
    (⟨400, .errors (createStudentErrors env body)⟩, s)
  else
    match body.name, body.email, body.password, body.studentId, body.batch with
    | some name, some email, some password, some studentId, some batch =>
      match s.users.find? (fun u => u.email == email || u.studentId == some studentId) with
      | some existingUser =>
        (⟨400, .message (if existingUser.email = email then "Email already exists"
            else "Student ID already exists")⟩, s)
      | none =>
        match Batch.findById s batch with
        | none => (⟨400, .message "Batch not found"⟩, s)
        | some batchDoc =>
          let student : User :=
            { User.defaults newId name email password Role.student with
              studentId := some studentId, batch := some batch, course := body.course,
              department := body.department, year := body.year, phone := body.phone,
              isAlumni := batchDoc.isCompleted }
          match User.create env s student with
          | none => (serverError, s)
          | some s =>
            let s := Batch.updateStudentCount s batchDoc
            let populatedStudent := (User.findById s newId).map (User.view s)
            (⟨201, .user populatedStudent⟩, s)
    | _, _, _, _, _ => (serverError, s)

/-! ## PUT /api/admin/students/:id -/

/-- The handler of `PUT /students/:id` (admin.js, lines 231-277). -/
def updateStudent (id : ObjectId) (body : StudentBody) (s : Store) : Response × Store :=
  match User.findById s id with
  | none => (⟨404, .message "Student not found"⟩, s)
  | some student =>
    if student.role ≠ Role.student then (⟨404, .message "Student not found"⟩, s)
    else if truthyS body.email && body.email != some student.email &&
        s.users.any (fun u => some u.email == body.email && u._id != student._id) then
      (⟨400, .message "Email already exists"⟩, s)
    else if truthyS body.studentId && body.studentId != student.studentId &&
        s.users.any (fun u => u.studentId == body.studentId && u._id != student._id) then
      (⟨400, .message "Student ID already exists"⟩, s)
    else
      let student : User :=
        { student with
          name := assignS body.name student.name
          email := assignS body.email student.email
          studentId := assignOS body.studentId student.studentId
          batch := assignOA body.batch student.batch
          course := assignOS body.course student.course
          department := assignOS body.department student.department
          year := assignON body.year student.year
          phone := assignOS body.phone student.phone }
      let s := User.save s student
      let updatedStudent := (User.findById s student._id).map (User.view s)
      (⟨200, .user updatedStudent⟩, s)

/-! ## DELETE /api/admin/students/:id -/

/-- The handler of `DELETE /students/:id` (admin.js, lines 282-305). -/
def deleteStudent (id : ObjectId) (s : Store) : Response × Store :=
  match User.findById s id with
  | none => (⟨404, .message "Student not found"⟩, s)
  | some student =>
    if student.role ≠ Role.student then (⟨404, .message "Student not found"⟩, s)
    else
      let s := User.findByIdAndDelete s id
      let s :=
        match student.batch with
        | some batchId =>
          match Batch.findById s batchId with
          | some batch => Batch.updateStudentCount s batch
          | none => s
        | none => s
      (⟨200, .message "Student deleted successfully"⟩, s)

/-! ## POST /api/auth/register -/

/-- The validation chain of `POST /register` (auth.js, lines 14-17). -/
def registerErrors (env : Env) (b : StudentBody) : List String :=
  (if truthyS b.name then [] else ["Name is required"]) ++
  (if (b.email.map env.isEmail).getD false then [] else ["Please provide a valid email"]) ++
  (if (b.password.map (fun p => decide (6 ≤ p.length))).getD false then []
    else ["Password must be at least 6 characters"]) ++
  (if b.role.isSome then [] else ["Invalid role"])

/-- The handler of `POST /register` (auth.js, lines 18-94). -/
def register (env : Env) (newId : ObjectId) (body : StudentBody) (s : Store) :
    Response × Store :=
  if registerErrors env body ≠ [] then
    (⟨400, .errors (registerErrors env body)⟩, s)
  else
    match body.name, body.email, body.password, body.role with
    | some name, some email, some password, some role =>
      if s.users.any (fun u => u.email == email) then
        (⟨400, .message "User already exists with this email"⟩, s)
      else if role == Role.student && truthyS body.studentId &&
          s.users.any (fun u => u.studentId == body.studentId) then
        (⟨400, .message "Student ID already exists"⟩, s)
      else
        let userData : User :=
          { User.defaults newId name email password role with phone := body.phone }
        let userData : User :=
          if role = Role.student then
            { userData with studentId := body.studentId, batch := body.batch,
                            course := body.course, department := body.department,
                            year := body.year }
          else userData
        match User.create env s userData with
        | none => (serverError, s)
        | some s =>
          let s :=
            if role = Role.student then
              match body.batch with
              | some batch =>
                match Batch.findById s batch with
                | some batchDoc => Batch.updateStudentCount s batchDoc
                | none => s
              | none => s
            else s
          (⟨201, .tokenUser (env.sign newId role)
            { id := newId, name := name, email := email, role := role,
              studentId := userData.studentId, batch := userData.batch,
              isAlumni := userData.isAlumni }⟩, s)
    | _, _, _, _ => (serverError, s)

/-! ## PUT /api/students/profile -/

/-- The body of `PUT /profile` (students.js, lines 36-49). -/
structure ProfileBody where
  phone : Option String
  jobRole : Option String
  company : Option String
  workLocation : Option String
  salary : Option Int
  experience : Option String
  skills : Option (List String)
  achievements : Option (List Achievement)
  linkedinProfile : Option String
  githubProfile : Option String
  portfolioWebsite : Option String
  currentStatus : Option String
  deriving DecidableEq, Repr

/-- The field assignments of `PUT /profile` (students.js, lines 51-73). -/
def applyProfile (body : ProfileBody) (student : User) : User :=
  if !student.isAlumni then
    { student with
      phone := assignOS body.phone student.phone
      linkedinProfile := assignS body.linkedinProfile student.linkedinProfile
      githubProfile := assignS body.githubProfile student.githubProfile
      portfolioWebsite := assignS body.portfolioWebsite student.portfolioWebsite
      skills := assignA body.skills student.skills }
  else
    { student with
      phone := assignOS body.phone student.phone
      jobRole := assignS body.jobRole student.jobRole
      company := assignS body.company student.company
      workLocation := assignS body.workLocation student.workLocation
      salary := assignN body.salary student.salary
      experience := assignS body.experience student.experience
      skills := assignA body.skills student.skills
      achievements := assignA body.achievements student.achievements
      linkedinProfile := assignS body.linkedinProfile student.linkedinProfile
      githubProfile := assignS body.githubProfile student.githubProfile
      portfolioWebsite := assignS body.portfolioWebsite student.portfolioWebsite
      currentStatus := assignS body.currentStatus student.currentStatus }

/-- The handler of `PUT /profile` (students.js, lines 29-87); `uid` is
`req.user.id` as set by the authentication middleware. -/
def updateProfile (uid : ObjectId) (body : ProfileBody) (s : Store) : Response × Store :=
  match User.findById s uid with
  | none => (⟨404, .message "Student not found"⟩, s)
  | some student =>
    let student := applyProfile body student
    if student.isAlumni && truthyS body.currentStatus &&
        !currentStatusEnum.contains student.currentStatus then
      (serverError, s)
    else
      let s := User.save s student
      let updatedStudent := (User.findById s student._id).map (User.view s)
      (⟨200, .user updatedStudent⟩, s)

/-- The body of a `PUT /profile` request as a client may send it: the twelve
keys the handler destructures, and further keys it never reads. -/
structure ProfileRequest where
  isAlumni : Option Bool
  role : Option Role
  batch : Option ObjectId
  email : Option String
  name : Option String
  studentId : Option String
  password : Option String
  fields : ProfileBody
  deriving DecidableEq, Repr

/-- The destructuring `const { phone, ..., currentStatus } = req.body`
(students.js, lines 36-49). -/
def ProfileRequest.destructure (req : ProfileRequest) : ProfileBody := req.fields

/-! ## POST /api/admin/companies and share-students -/

/-- `Company.findById(id)`. -/
def Company.findById (s : Store) (id : ObjectId) : Option Company :=
  s.companies.find? (fun c => c._id == id)

/-- `company.save()` of a loaded company document. -/
def Company.save (s : Store) (this : Company) : Store :=
  { s with companies := s.companies.map (fun c => if c._id = this._id then this else c) }

/-- The body of `POST /companies`: the paths of the company schema. -/
structure CompanyBody where
  companyName : Option String
  contactEmail : Option String
  contactPerson : Option String
  contactPhone : Option String
  website : Option String
  description : Option String
  industry : Option String
  location : Option String
  sharedStudentLists : List SharedStudentList
  deriving DecidableEq, Repr

/-- The validation chain of `POST /companies` (admin.js, lines 311-313). -/
def createCompanyErrors (env : Env) (b : CompanyBody) : List String :=
  (if truthyS b.companyName then [] else ["Company name is required"]) ++
  (if (b.contactEmail.map env.isEmail).getD false then []
    else ["Valid contact email is required"]) ++
  (if truthyS b.contactPerson then [] else ["Contact person is required"])

/-- The handler of `POST /companies` (admin.js, lines 314-329):
`new Company(req.body).save()`.  The `required` validator of the schema
rejects an empty `contactEmail` that the e-mail check let through. -/
def createCompany (env : Env) (newId : ObjectId) (body : CompanyBody) (s : Store) :
    Response × Store :=
  if createCompanyErrors env body ≠ [] then
    (⟨400, .errors (createCompanyErrors env body)⟩, s)
  else
    match body.companyName, body.contactEmail, body.contactPerson with
    | some companyName, some contactEmail, some contactPerson =>
      if contactEmail = "" then (serverError, s)
      else
        let company : Company :=
          { _id := newId, companyName := companyName, contactEmail := contactEmail,
            contactPerson := contactPerson, contactPhone := body.contactPhone,
            website := body.website, description := body.description,
            industry := body.industry, location := body.location,
            sharedStudentLists := body.sharedStudentLists }
        (⟨201, .company company⟩, { s with companies := s.companies ++ [company] })
    | _, _, _ => (serverError, s)

/-- The body of `POST /companies/:companyId/share-students`. -/
structure ShareBody where
  batchId : Option ObjectId
  message : Option String
  deriving DecidableEq, Repr

/-- The handler of `POST /companies/:companyId/share-students` (admin.js,
lines 347-393). -/
def shareStudents (now : Date) (companyId : ObjectId) (body : ShareBody) (s : Store) :
    Response × Store :=
  match body.batchId with
  | none => (⟨400, .errors ["Batch ID is required"]⟩, s)
  | some batchId =>
    match Company.findById s companyId with
    | none => (⟨404, .message "Company not found"⟩, s)
    | some company =>
      match Batch.findById s batchId with
      | none => (⟨404, .message "Batch not found"⟩, s)
      | some batch =>
        let students := s.users.filter (fun u => u.batch == some batchId && u.role == Role.student)
        let studentIds := students.map (fun student => student._id)
        let company : Company :=
          { company with
            sharedStudentLists := company.sharedStudentLists ++
              [{ batch := batchId, students := studentIds,
                 message := assignS body.message ("Student list for " ++ batch.batchName),
                 sharedDate := now }] }
        let s := Company.save s company
        (⟨200, .shared "Student list shared with company successfully" students.length⟩, s)

/-! ## The upload routes -/

/-- The handler of `POST /upload/profile-picture` (upload.js, lines 11-41).
`file` is `req.file.path` when a file was uploaded, `destroyed` tells whether
the call that deletes the old picture at the storage provider returns. -/
def uploadProfilePicture (destroyed : Bool) (uid : ObjectId) (file : Option String)
    (s : Store) : Response × Store :=
  match file with
  | none => (⟨400, .message "No file uploaded"⟩, s)
  | some path =>
    match User.findById s uid with
    | none => (⟨404, .message "User not found"⟩, s)
    | some user =>
      if user.profilePicture != "" && !destroyed then (serverError, s)
      else
        let user := { user with profilePicture := path }
        let s := User.save s user
        (⟨200, .messagePath "Profile picture uploaded successfully" path⟩, s)

/-- The handler of `POST /upload/resume` (upload.js, lines 46-79). -/
def uploadResume (destroyed : Bool) (uid : ObjectId) (file : Option String)
    (s : Store) : Response × Store :=
  match file with
  | none => (⟨400, .message "No file uploaded"⟩, s)
  | some path =>
    match User.findById s uid with
    | none => (⟨404, .message "User not found"⟩, s)
    | some user =>
      if user.role ≠ Role.student then
        (⟨403, .message "Only students can upload resumes"⟩, s)
      else if user.resume != "" && !destroyed then (serverError, s)
      else
        let user := { user with resume := path }
        let s := User.save s user
        (⟨200, .messagePath "Resume uploaded successfully" path⟩, s)

/-- The handler of `DELETE /upload/profile-picture` (upload.js, lines 84-109). -/
def deleteProfilePicture (destroyed : Bool) (uid : ObjectId) (s : Store) : Response × Store :=
  match User.findById s uid with
  | none => (⟨404, .message "User not found"⟩, s)
  | some user =>
    if user.profilePicture == "" then
      (⟨400, .message "No profile picture to delete"⟩, s)
    else if !destroyed then (serverError, s)
    else
      let user := { user with profilePicture := "" }
      let s := User.save s user
      (⟨200, .message "Profile picture deleted successfully"⟩, s)

/-- The handler of `DELETE /upload/resume` (upload.js, lines 114-143). -/
def deleteResume (destroyed : Bool) (uid : ObjectId) (s : Store) : Response × Store :=
  match User.findById s uid with
  | none => (⟨404, .message "User not found"⟩, s)
  | some user =>
    if user.role ≠ Role.student then
      (⟨403, .message "Only students can delete resumes"⟩, s)
    else if user.resume == "" then (⟨400, .message "No resume to delete"⟩, s)
    else if !destroyed then (serverError, s)
    else
      let user := { user with resume := "" }
      let s := User.save s user
      (⟨200, .message "Resume deleted successfully"⟩, s)

/-! ## The read routes of the administrator -/

/-- `Batch.countDocuments(filter)`. -/
def Batch.countDocuments (s : Store) (filter : Batch → Bool) : Nat :=
  (s.batches.filter filter).length

/-- `Company.countDocuments()`. -/
def Company.countDocuments (s : Store) : Nat := s.companies.length

/-- The handler of `GET /dashboard/stats` (admin.js, lines 398-422). -/
def dashboardStats (s : Store) : Response :=
  let totalStudents : Int := User.countDocuments s (fun u => u.role == Role.student)
  let totalAlumni : Int := User.countDocuments s (fun u => u.role == Role.student && u.isAlumni)
  let currentStudents := totalStudents - totalAlumni
  let totalBatches : Int := Batch.countDocuments s (fun _ => true)
  let completedBatches : Int := Batch.countDocuments s (fun b => b.isCompleted)
  let activeBatches := totalBatches - completedBatches
  let totalCompanies : Int := Company.countDocuments s
  ⟨200, .stats
    { totalStudents := totalStudents, currentStudents := currentStudents,
      totalAlumni := totalAlumni, totalBatches := totalBatches,
      activeBatches := activeBatches, completedBatches := completedBatches,
      totalCompanies := totalCompanies }⟩

/-- The handler of `GET /students/:id` of the administrator (admin.js, lines
210-226). -/
def getStudent (id : ObjectId) (s : Store) : Response :=
  match User.findById s id with
  | none => ⟨404, .message "Student not found"⟩
  | some student =>
    if student.role ≠ Role.student then ⟨404, .message "Student not found"⟩
    else ⟨200, .user (some (User.view s student))⟩

/-- The order of `.sort({ year: -1, batchName: 1 })`: `a` may come before
`b` when its year is greater, or the years are equal and its name is not
greater. -/
def batchOrder (a b : Batch) : Prop :=
  b.year < a.year ∨ (a.year = b.year ∧ a.batchName ≤ b.batchName)

instance : DecidableRel batchOrder := fun a b => by
  unfold batchOrder; infer_instance

/-- `Batch.find().sort({ year: -1, batchName: 1 })`. -/
def Batch.findSorted (s : Store) : List Batch :=
  s.batches.insertionSort batchOrder

/-- The handler of `GET /batches` of the administrator (admin.js, lines 57-65). -/
def listBatches (s : Store) : Response :=
  ⟨200, .batches (Batch.findSorted s)⟩

/-- The handler of `GET /batches` of the students (students.js, lines 157-165). -/
def listBatchesForStudents (s : Store) : Response :=
  ⟨200, .batches (Batch.findSorted s)⟩

/-- The caller of a request, as the credential it presents identifies it. -/
inductive Caller
  | anonymous
  | authenticated (id : ObjectId) (role : Role)
  deriving DecidableEq, Repr

/-- The route `POST /register` (auth.js, line 13): the handler is mounted
behind the validation chain only, with no authentication middleware, so the
caller takes no part in the answer. -/
def registerRoute (_caller : Caller) (env : Env) (newId : ObjectId) (body : StudentBody)
    (s : Store) : Response × Store :=
  register env newId body s

/-! ## Requests as the client sends them

The handlers above take a body whose values are in stored form: a string of
a path with a `trim` or `lowercase` setter is as the setter leaves it, a
number is a number.  The definitions of this section take the body as it is
sent.  The validation chain and the `if (v)` guards of a handler look at the
submitted value; the setters and the casts of the schema run when the value
is assigned to a document or used as the condition of a query. -/

/-- A JSON value submitted for a Number path: a number or a string. -/
inductive NumberInput
  | num (n : Int)
  | str (x : String)
  deriving DecidableEq, Repr

/-- JavaScript truthiness of a submitted number or string. -/
def NumberInput.truthy : NumberInput → Bool
  | .num n => n != 0
  | .str x => x != ""

/-- The cast of the schema on a Number path: the outer `none` is a cast
error, the inner `none` is `null` (the cast of the empty string). -/
def NumberInput.cast (env : Env) : NumberInput → Option (Option Int)
  | .num n => some (some n)
  | .str x => if x = "" then some none else (env.toNumber x).map some

/-- The check `isNumeric` of the request validator, which reads the value as
a string. -/
def NumberInput.isNumeric (env : Env) : NumberInput → Bool
  | .num _ => true
  | .str x => env.isNumeric x

/-- `if (v) doc.path = v` on a string path with a setter. -/
def assignSet (set : String → String) (v : Option String) (old : String) : String :=
  match v with
  | some x => if x != "" then set x else old
  | none => old

/-- `if (v) doc.path = v` on an optional string path with a setter. -/
def assignOSet (set : String → String) (v : Option String) (old : Option String) :
    Option String :=
  match v with
  | some x => if x != "" then some (set x) else old
  | none => old

/-- `if (v) doc.path = v` on a Number path: `none` is a cast error. -/
def assignNumber (env : Env) (v : Option NumberInput) (old : Int) : Option Int :=
  match v with
  | some x => if x.truthy then (x.cast env).bind id else some old
  | none => some old

/-- `if (v) doc.path = v` on an optional Number path: the outer `none` is a
cast error. -/
def assignONumber (env : Env) (v : Option NumberInput) (old : Option Int) :
    Option (Option Int) :=
  match v with
  | some x => if x.truthy then x.cast env else some old
  | none => some old

/-- The handler of `POST /batches` (admin.js, lines 20-52) on a body as sent:
`Batch.findOne({ batchName })` and `new Batch({...})` run the `trim` setter of
`batchName` and `description`, and `batch.save()` runs the `required`
validator on the trimmed name.  (`year` and the two dates are taken as the
check of the validation chain accepts them, `none` being a value it
rejects.) -/
def createBatchRaw (env : Env) (newId : ObjectId) (body : CreateBatchBody) (s : Store) :
    Response × Store :=
  if createBatchErrors body ≠ [] then
    (⟨400, .errors (createBatchErrors body)⟩, s)
  else
    match body.batchName, body.year, body.course, body.department,
        body.startDate, body.endDate with
    | some batchName, some year, some course, some department, some startDate, some endDate =>
      match s.batches.find? (fun b => b.batchName == env.trim batchName) with
      | some _ => (⟨400, .message "Batch with this name already exists"⟩, s)
      | none =>
        let batch : Batch :=
          { _id := newId, batchName := env.trim batchName, year := year, course := course,
            department := department, startDate := startDate, endDate := endDate,
            isCompleted := false, completedDate := none, totalStudents := 0,
            description := body.description.map env.trim }
        if batch.batchName = "" then (serverError, s)
        else (⟨201, .batch batch⟩, { s with batches := s.batches ++ [batch] })
    | _, _, _, _, _, _ => (serverError, s)

/-- The body of `POST /students`, `PUT /students/:id` and `POST /register`
as sent. -/
structure RawStudentBody where
  name : Option String
  email : Option String
  password : Option String
  role : Option Role
  studentId : Option String
  batch : Option ObjectId
  course : Option String
  department : Option String
  year : Option NumberInput
  phone : Option String
  deriving DecidableEq, Repr

/-- The validation chain of `POST /students` (admin.js, lines 100-107) on a
body as sent. -/
def createStudentErrorsRaw (env : Env) (b : RawStudentBody) : List String :=
  (if truthyS b.name then [] else ["Name is required"]) ++
  (if (b.email.map env.isEmail).getD false then [] else ["Please provide a valid email"]) ++
  (if (b.password.map (fun p => decide (6 ≤ p.length))).getD false then []
    else ["Password must be at least 6 characters"]) ++
  (if truthyS b.studentId then [] else ["Student ID is required"]) ++
  (if b.batch.isSome then [] else ["Batch is required"]) ++
  (if truthyS b.course then [] else ["Course is required"]) ++
  (if truthyS b.department then [] else ["Department is required"]) ++
  (if (b.year.map (NumberInput.isNumeric env)).getD false then []
    else ["Year must be a number"])

/-- The handler of `POST /students` (admin.js, lines 108-162) on a body as
sent.  The query `{ $or: [{ email }, { studentId }] }` is cast by the schema,
so it looks for the e-mail as the setters leave it, while the message compares
the e-mail of the document found with the submitted string. -/
def createStudentRaw (env : Env) (newId : ObjectId) (body : RawStudentBody) (s : Store) :
    Response × Store :=
  if createStudentErrorsRaw env body ≠ [] then
    (⟨400, .errors (createStudentErrorsRaw env body)⟩, s)
  else
    match body.name, body.email, body.password, body.studentId, body.batch, body.year with
    | some name, some email, some password, some studentId, some batch, some year =>
      match s.users.find?
          (fun u => u.email == env.email email || u.studentId == some studentId) with
      | some existingUser =>
        (⟨400, .message (if existingUser.email = email then "Email already exists"
            else "Student ID already exists")⟩, s)
      | none =>
        match Batch.findById s batch with
        | none => (⟨400, .message "Batch not found"⟩, s)
        | some batchDoc =>
          match year.cast env with
          | none => (serverError, s)
          | some year =>
            let student : User :=
              { User.defaults newId (env.trim name) (env.email email) password Role.student with
                studentId := some studentId, batch := some batch, course := body.course,
                department := body.department, year := year,
                phone := body.phone.map env.trim, isAlumni := batchDoc.isCompleted }
            match User.create env s student with
            | none => (serverError, s)
            | some s =>
              let s := Batch.updateStudentCount s batchDoc
              let populatedStudent := (User.findById s newId).map (User.view s)
              (⟨201, .user populatedStudent⟩, s)
    | _, _, _, _, _, _ => (serverError, s)

/-- The unique indexes on `email` and `studentId` reject the update of a
document whose new value of an indexed path is held by another document. -/
def User.indexConflictOnUpdate (s : Store) (old new : User) : Bool :=
  (new.email != old.email &&
    s.users.any (fun v => v._id != old._id && v.email == new.email)) ||
  (new.studentId != old.studentId && new.studentId.isSome &&
    s.users.any (fun v => v._id != old._id && v.studentId == new.studentId))

/-- The field assignments of `PUT /students/:id` (admin.js, lines 256-263)
on a body as sent: `name`, `email` and `phone` go through their setters,
`year` through the cast of the schema; `none` is a failed cast. -/
def applyStudentRaw (env : Env) (body : RawStudentBody) (student : User) : Option User :=
  match assignONumber env body.year student.year with
  | none => none
  | some year =>
    some { student with
      name := assignSet env.trim body.name student.name
      email := assignSet env.email body.email student.email
      studentId := assignOS body.studentId student.studentId
      batch := assignOA body.batch student.batch
      course := assignOS body.course student.course
      department := assignOS body.department student.department
      year := year
      phone := assignOSet env.trim body.phone student.phone }

/-- The handler of `PUT /students/:id` (admin.js, lines 231-277) on a body as
sent.  The guards test the submitted values; the two `findOne` queries are
cast by the schema; `student.save()` fails on a year that does not cast,
runs the `required` validators of `name` and `email` on what the setters
left, and the unique indexes. -/
def updateStudentRaw (env : Env) (id : ObjectId) (body : RawStudentBody) (s : Store) :
    Response × Store :=
  match User.findById s id with
  | none => (⟨404, .message "Student not found"⟩, s)
  | some student =>
    if student.role ≠ Role.student then (⟨404, .message "Student not found"⟩, s)
    else if truthyS body.email && body.email != some student.email &&
        s.users.any (fun u => some u.email == body.email.map env.email &&
          u._id != student._id) then
      (⟨400, .message "Email already exists"⟩, s)
    else if truthyS body.studentId && body.studentId != student.studentId &&
        s.users.any (fun u => u.studentId == body.studentId && u._id != student._id) then
      (⟨400, .message "Student ID already exists"⟩, s)
    else
      match applyStudentRaw env body student with
      | none => (serverError, s)
      | some updated =>
        if (truthyS body.name && updated.name == "") ||
            (truthyS body.email && updated.email == "") ||
            User.indexConflictOnUpdate s student updated then
          (serverError, s)
        else
          let s := User.save s updated
          let updatedStudent := (User.findById s updated._id).map (User.view s)
          (⟨200, .user updatedStudent⟩, s)

/-- The validation chain of `POST /register` (auth.js, lines 14-17) on a body
as sent. -/
def registerErrorsRaw (env : Env) (b : RawStudentBody) : List String :=
  (if truthyS b.name then [] else ["Name is required"]) ++
  (if (b.email.map env.isEmail).getD false then [] else ["Please provide a valid email"]) ++
  (if (b.password.map (fun p => decide (6 ≤ p.length))).getD false then []
    else ["Password must be at least 6 characters"]) ++
  (if b.role.isSome then [] else ["Invalid role"])

/-- The handler of `POST /register` (auth.js, lines 18-94) on a body as
sent. -/
def registerRaw (env : Env) (newId : ObjectId) (body : RawStudentBody) (s : Store) :
    Response × Store :=
  if registerErrorsRaw env body ≠ [] then
    (⟨400, .errors (registerErrorsRaw env body)⟩, s)
  else
    match body.name, body.email, body.password, body.role with
    | some name, some email, some password, some role =>
      if s.users.any (fun u => u.email == env.email email) then
        (⟨400, .message "User already exists with this email"⟩, s)
      else if role == Role.student && truthyS body.studentId &&
          s.users.any (fun u => u.studentId == body.studentId) then
        (⟨400, .message "Student ID already exists"⟩, s)
      else
        let userData : User :=
          { User.defaults newId (env.trim name) (env.email email) password role with
            phone := body.phone.map env.trim }
        if role = Role.student then
          match (match body.year with
              | some year => year.cast env
              | none => some none) with
          | none => (serverError, s)
          | some year =>
            let userData : User :=
              { userData with studentId := body.studentId, batch := body.batch,
                              course := body.course, department := body.department,
                              year := year }
            match User.create env s userData with
            | none => (serverError, s)
            | some s =>
              let s :=
                match body.batch with
                | some batch =>
                  match Batch.findById s batch with
                  | some batchDoc => Batch.updateStudentCount s batchDoc
                  | none => s
                | none => s
              (⟨201, .tokenUser (env.sign newId role)
                { id := newId, name := userData.name, email := userData.email, role := role,
                  studentId := userData.studentId, batch := userData.batch,
                  isAlumni := userData.isAlumni }⟩, s)
        else
          match User.create env s userData with
          | none => (serverError, s)
          | some s =>
            (⟨201, .tokenUser (env.sign newId role)
              { id := newId, name := userData.name, email := userData.email, role := role,
                studentId := userData.studentId, batch := userData.batch,
                isAlumni := userData.isAlumni }⟩, s)
    | _, _, _, _ => (serverError, s)

/-- The body of `PUT /profile` (students.js, lines 36-49) as sent. -/
structure RawProfileBody where
  phone : Option String
  jobRole : Option String
  company : Option String
  workLocation : Option String
  salary : Option NumberInput
  experience : Option String
  skills : Option (List String)
  achievements : Option (List Achievement)
  linkedinProfile : Option String
  githubProfile : Option String
  portfolioWebsite : Option String
  currentStatus : Option String
  deriving DecidableEq, Repr

/-- The field assignments of `PUT /profile` (students.js, lines 51-73) on a
body as sent: `phone` goes through its `trim` setter, `salary` through the
cast of the schema; `none` is a failed cast. -/
def applyProfileRaw (env : Env) (body : RawProfileBody) (student : User) : Option User :=
  if !student.isAlumni then
    some { student with
      phone := assignOSet env.trim body.phone student.phone
      linkedinProfile := assignS body.linkedinProfile student.linkedinProfile
      githubProfile := assignS body.githubProfile student.githubProfile
      portfolioWebsite := assignS body.portfolioWebsite student.portfolioWebsite
      skills := assignA body.skills student.skills }
  else
    match assignNumber env body.salary student.salary with
    | none => none
    | some salary =>
      some { student with
        phone := assignOSet env.trim body.phone student.phone
        jobRole := assignS body.jobRole student.jobRole
        company := assignS body.company student.company
        workLocation := assignS body.workLocation student.workLocation
        salary := salary
        experience := assignS body.experience student.experience
        skills := assignA body.skills student.skills
        achievements := assignA body.achievements student.achievements
        linkedinProfile := assignS body.linkedinProfile student.linkedinProfile
        githubProfile := assignS body.githubProfile student.githubProfile
        portfolioWebsite := assignS body.portfolioWebsite student.portfolioWebsite
        currentStatus := assignS body.currentStatus student.currentStatus }

/-- The handler of `PUT /profile` (students.js, lines 29-87) on a body as
sent; `student.save()` fails on a salary that does not cast and on a
`currentStatus` outside the enum. -/
def updateProfileRaw (env : Env) (uid : ObjectId) (body : RawProfileBody) (s : Store) :
    Response × Store :=
  match User.findById s uid with
  | none => (⟨404, .message "Student not found"⟩, s)
  | some student =>
    match applyProfileRaw env body student with
    | none => (serverError, s)
    | some student =>
      if student.isAlumni && truthyS body.currentStatus &&
          !currentStatusEnum.contains student.currentStatus then
        (serverError, s)
      else
        let s := User.save s student
        let updatedStudent := (User.findById s student._id).map (User.view s)
        (⟨200, .user updatedStudent⟩, s)

/-- A body in stored form, as sent. -/
def StudentBody.toRaw (b : StudentBody) : RawStudentBody :=
  { name := b.name, email := b.email, password := b.password, role := b.role,
    studentId := b.studentId, batch := b.batch, course := b.course,
    department := b.department, year := b.year.map NumberInput.num, phone := b.phone }

/-- A profile body in stored form, as sent. -/
def ProfileBody.toRaw (b : ProfileBody) : RawProfileBody :=
  { phone := b.phone, jobRole := b.jobRole, company := b.company,
    workLocation := b.workLocation, salary := b.salary.map NumberInput.num,
    experience := b.experience, skills := b.skills, achievements := b.achievements,
    linkedinProfile := b.linkedinProfile, githubProfile := b.githubProfile,
    portfolioWebsite := b.portfolioWebsite, currentStatus := b.currentStatus }

/-! ## The routes that read users -/

/-- `new RegExp(pattern, 'i')`: the test of the compiled expression, `none`
when the pattern is not a regular expression and the constructor throws. -/
abbrev RegExp := String → Option (String → Bool)

/-- `if (v) query.path = new RegExp(v, 'i')`: the outer `none` is a throwing
constructor, the inner `none` a condition that is not added. -/
def regExpOf (regExp : RegExp) (v : Option String) : Option (Option (String → Bool)) :=
  if truthyS v then (regExp (v.getD "")).map some else some none

/-- A regular-expression condition on one path; a missing value matches no
expression. -/
def testPath (cond : Option (String → Bool)) (value : Option String) : Bool :=
  match cond with
  | none => true
  | some test => (value.map test).getD false

/-- The `$or` of one regular expression over several paths. -/
def testAny (cond : Option (String → Bool)) (values : List (Option String)) : Bool :=
  match cond with
  | none => true
  | some test => values.any (fun value => (value.map test).getD false)

/-- The scalar paths of the user schema, as keys of `.sort(...)`.  Array
paths and paths outside the schema are not modelled as sort keys. -/
inductive SortKey
  | _id | name | email | password | role | studentId | batch | phone | profilePicture
  | resume | course | department | year | isAlumni | jobRole | company | workLocation
  | salary | experience | linkedinProfile | githubProfile | portfolioWebsite | currentStatus
  deriving DecidableEq, Repr

/-- A value the database compares when it sorts. -/
inductive SortValue
  | null
  | num (n : Int)
  | str (x : String)
  | oid (id : ObjectId)
  | bool (b : Bool)
  deriving DecidableEq, Repr

/-- The position of the type of a value in the comparison order of the
database: null, numbers, strings, object ids, booleans. -/
def SortValue.rank : SortValue → Nat
  | .null => 0
  | .num _ => 1
  | .str _ => 2
  | .oid _ => 3
  | .bool _ => 4

/-- The comparison order of the database on sort values; strings compare
character by character (no collation). -/
def SortValue.le : SortValue → SortValue → Bool
  | .num x, .num y => decide (x ≤ y)
  | .str x, .str y => decide (x.toList ≤ y.toList)
  | .oid x, .oid y => decide (x ≤ y)
  | .bool x, .bool y => !x || y
  | a, b => decide (a.rank ≤ b.rank)

/-- A missing string path sorts as null. -/
def SortValue.ofString (v : Option String) : SortValue :=
  match v with
  | some x => .str x
  | none => .null

/-- The value of a user document at a sort key. -/
def SortKey.value (k : SortKey) (u : User) : SortValue :=
  match k with
  | ._id => .oid u._id
  | .name => .str u.name
  | .email => .str u.email
  | .password => .str u.password
  | .role => .str (match u.role with | .student => "student" | .admin => "admin")
  | .studentId => SortValue.ofString u.studentId
  | .batch => match u.batch with | some b => .oid b | none => .null
  | .phone => SortValue.ofString u.phone
  | .profilePicture => .str u.profilePicture
  | .resume => .str u.resume
  | .course => SortValue.ofString u.course
  | .department => SortValue.ofString u.department
  | .year => match u.year with | some y => .num y | none => .null
  | .isAlumni => .bool u.isAlumni
  | .jobRole => .str u.jobRole
  | .company => .str u.company
  | .workLocation => .str u.workLocation
  | .salary => .num u.salary
  | .experience => .str u.experience
  | .linkedinProfile => .str u.linkedinProfile
  | .githubProfile => .str u.githubProfile
  | .portfolioWebsite => .str u.portfolioWebsite
  | .currentStatus => .str u.currentStatus

/-- The order of `.sort({ [key]: 1 })` (`desc = false`) and of
`.sort({ [key]: -1 })` (`desc = true`): `a` may come before `b`. -/
def userOrder (key : SortKey) (desc : Bool) (a b : User) : Bool :=
  if desc then SortValue.le (key.value b) (key.value a)
  else SortValue.le (key.value a) (key.value b)

/-- `.sort({ [key]: direction })` on a list of user documents; documents that
compare equal keep their order. -/
def User.sort (key : SortKey) (desc : Bool) (us : List User) : List User :=
  us.insertionSort (fun a b => userOrder key desc a b = true)

/-- The sort options of the two listings with a `sortBy` parameter
(admin.js, lines 187-192; students.js, lines 113-118). -/
def sortOptions (sortBy : Option SortKey) (sortOrder : Option String) : SortKey × Bool :=
  match sortBy with
  | some key => (key, sortOrder == some "desc")
  | none => (SortKey.name, false)

/-- The body of `POST /login`. -/
structure LoginBody where
  email : Option String
  password : Option String
  deriving DecidableEq, Repr

/-- The validation chain of `POST /login` (auth.js, lines 100-101). -/
def loginErrors (env : Env) (b : LoginBody) : List String :=
  (if (b.email.map env.isEmail).getD false then [] else ["Please provide a valid email"]) ++
  (if b.password.isSome then [] else ["Password is required"])

/-- `User.findOne({ email })`. -/
def User.findOneByEmail (s : Store) (email : String) : Option User :=
  s.users.find? (fun u => u.email == email)

/-- The handler of `POST /login` (auth.js, lines 102-148).  `compare` is
`bcrypt.compare(candidate, hash)`; the query `{ email }` is cast by the
schema, so it looks for the e-mail as the setters leave it. -/
def login (env : Env) (compare : String → String → Bool) (body : LoginBody) (s : Store) :
    Response :=
  if loginErrors env body ≠ [] then ⟨400, .errors (loginErrors env body)⟩
  else
    match body.email, body.password with
    | some email, some password =>
      match User.findOneByEmail s (env.email email) with
      | none => ⟨400, .message "Invalid credentials"⟩
      | some user =>
        let isMatch := compare password user.password
        if !isMatch then ⟨400, .message "Invalid credentials"⟩
        else
          ⟨200, .login (env.sign user._id user.role)
            { id := user._id, name := user.name, email := user.email, role := user.role,
              studentId := user.studentId, batch := user.batch.bind (Batch.findById s),
              isAlumni := user.isAlumni, profilePicture := user.profilePicture }⟩
    | _, _ => serverError

/-- The handler of `GET /me` (auth.js, lines 153-164). -/
def me (uid : ObjectId) (s : Store) : Response :=
  ⟨200, .user ((User.findById s uid).map (User.view s))⟩

/-- The handler of `GET /profile` (students.js, lines 12-24). -/
def getProfile (uid : ObjectId) (s : Store) : Response :=
  ⟨200, .user ((User.findById s uid).map (User.view s))⟩

/-- The query string of `GET /students` of the administrator. -/
structure StudentsQuery where
  batch : Option ObjectId
  isAlumni : Option String
  course : Option String
  department : Option String
  search : Option String
  sortBy : Option SortKey
  sortOrder : Option String
  deriving DecidableEq, Repr

/-- The handler of `GET /students` of the administrator (admin.js, lines
167-205). -/
def listStudents (regExp : RegExp) (q : StudentsQuery) (s : Store) : Response :=
  match regExpOf regExp q.course, regExpOf regExp q.department, regExpOf regExp q.search with
  | some course, some department, some search =>
    let query : User → Bool := fun u =>
      u.role == Role.student &&
      (match q.batch with | some batch => u.batch == some batch | none => true) &&
      (match q.isAlumni with | some isAlumni => u.isAlumni == (isAlumni == "true") | none => true) &&
      testPath course u.course && testPath department u.department &&
      testAny search [some u.name, some u.email, u.studentId]
    let students := User.sort (sortOptions q.sortBy q.sortOrder).1
      (sortOptions q.sortBy q.sortOrder).2 (s.users.filter query)
    ⟨200, .users (students.map (User.view s))⟩
  | _, _, _ => serverError

/-- The query string of `GET /alumni`. -/
structure AlumniQuery where
  batch : Option ObjectId
  company : Option String
  course : Option String
  department : Option String
  search : Option String
  sortBy : Option SortKey
  sortOrder : Option String
  deriving DecidableEq, Repr

/-- The handler of `GET /alumni` (students.js, lines 92-131). -/
def listAlumni (regExp : RegExp) (q : AlumniQuery) (s : Store) : Response :=
  match regExpOf regExp q.company, regExpOf regExp q.course, regExpOf regExp q.department,
      regExpOf regExp q.search with
  | some company, some course, some department, some search =>
    let query : User → Bool := fun u =>
      u.role == Role.student && u.isAlumni &&
      (match q.batch with | some batch => u.batch == some batch | none => true) &&
      testPath company (some u.company) &&
      testPath course u.course && testPath department u.department &&
      testAny search ([some u.name, some u.jobRole, some u.company] ++ u.skills.map some)
    let alumni := User.sort (sortOptions q.sortBy q.sortOrder).1
      (sortOptions q.sortBy q.sortOrder).2 (s.users.filter query)
    ⟨200, .publicUsers (alumni.map (User.publicView s true))⟩
  | _, _, _, _ => serverError

/-- The handler of `GET /alumni/:id` (students.js, lines 136-152). -/
def getAlumni (id : ObjectId) (s : Store) : Response :=
  match User.findById s id with
  | none => ⟨404, .message "Alumni not found"⟩
  | some alumni =>
    if !alumni.isAlumni then ⟨404, .message "Alumni not found"⟩
    else ⟨200, .publicUser (User.publicView s true alumni)⟩

/-- The handler of `GET /my-batch` (students.js, lines 233-252); reading
`student.batch` of a missing user throws. -/
def myBatch (uid : ObjectId) (s : Store) : Response :=
  match User.findById s uid with
  | none => serverError
  | some student =>
    let query : User → Bool := fun u =>
      u.batch == student.batch && u.role == Role.student && u._id != student._id
    let batchMates := User.sort SortKey.name false (s.users.filter query)
    ⟨200, .publicUsers (batchMates.map (User.publicView s true))⟩

/-- The query string of `GET /batch-mates`. -/
structure MatesQuery where
  search : Option String
  course : Option String
  status : Option String
  deriving DecidableEq, Repr

/-- The handler of `GET /batch-mates` (students.js, lines 355-395). -/
def batchMates (regExp : RegExp) (uid : ObjectId) (q : MatesQuery) (s : Store) : Response :=
  match User.findById s uid with
  | none => serverError
  | some student =>
    match regExpOf regExp q.course, regExpOf regExp q.search with
    | some course, some search =>
      let query : User → Bool := fun u =>
        u.batch == student.batch && u.role == Role.student && u._id != student._id &&
        testPath course u.course &&
        (q.status != some "alumni" || u.isAlumni) &&
        (q.status != some "student" || !u.isAlumni) &&
        testAny search [some u.name, some u.jobRole, some u.company]
      let batchMates := User.sort SortKey.name false (s.users.filter query)
      ⟨200, .mates (batchMates.map
        (fun mate => { mate := User.publicView s false mate, connectionStatus := "none" }))⟩
    | _, _ => serverError

/-- The user document with its credential blanked. -/
def User.erasePassword (u : User) : User := { u with password := "" }

/-- The store with every credential blanked. -/
def Store.erasePasswords (s : Store) : Store :=
  { s with users := s.users.map User.erasePassword }

/-- Two stores that differ only in the `password` values of their users. -/
def DifferOnlyInPasswords (s t : Store) : Prop :=
  s.erasePasswords = t.erasePasswords

instance (s t : Store) : Decidable (DifferOnlyInPasswords s t) := by
  unfold DifferOnlyInPasswords; infer_instance

/-! ## The field policy of section 4.3 -/

/-- The twelve fields a profile self-update may write. -/
inductive ProfileField
  | phone
  | jobRole
  | company
  | workLocation
  | salary
  | experience
  | skills
  | achievements
  | linkedinProfile
  | githubProfile
  | portfolioWebsite
  | currentStatus
  deriving DecidableEq, Repr

/-- Section 4.3: the fields that are writable whatever the alumni status. -/
def ALWAYS_EDITABLE : List ProfileField :=
  [.phone, .linkedinProfile, .githubProfile, .portfolioWebsite, .skills]

/-- Section 4.3: the fields that are writable by alumni only. -/
def ALUMNI_ONLY : List ProfileField :=
  [.jobRole, .company, .workLocation, .salary, .experience, .achievements, .currentStatus]

/-- Section 4.3, `authorizeFieldWrite(user, fieldName)`: `ALWAYS_EDITABLE`
fields are allowed, `ALUMNI_ONLY` fields are allowed iff `user.isAlumni`. -/
def authorizeFieldWrite (user : User) (field : ProfileField) : Bool :=
  if field ∈ ALWAYS_EDITABLE then true
  else if field ∈ ALUMNI_ONLY then user.isAlumni
  else false

/-- The submitted value of a field is present and truthy. -/
def ProfileField.submitted (body : ProfileBody) : ProfileField → Bool
  | .phone => truthyS body.phone
  | .jobRole => truthyS body.jobRole
  | .company => truthyS body.company
  | .workLocation => truthyS body.workLocation
  | .salary => truthyN body.salary
  | .experience => truthyS body.experience
  | .skills => body.skills.isSome
  | .achievements => body.achievements.isSome
  | .linkedinProfile => truthyS body.linkedinProfile
  | .githubProfile => truthyS body.githubProfile
  | .portfolioWebsite => truthyS body.portfolioWebsite
  | .currentStatus => truthyS body.currentStatus

/-- Set one field of the user to its submitted value. -/
def ProfileField.set (body : ProfileBody) : ProfileField → User → User
  | .phone, u => { u with phone := body.phone }
  | .jobRole, u => { u with jobRole := body.jobRole.getD u.jobRole }
  | .company, u => { u with company := body.company.getD u.company }
  | .workLocation, u => { u with workLocation := body.workLocation.getD u.workLocation }
  | .salary, u => { u with salary := body.salary.getD u.salary }
  | .experience, u => { u with experience := body.experience.getD u.experience }
  | .skills, u => { u with skills := body.skills.getD u.skills }
  | .achievements, u => { u with achievements := body.achievements.getD u.achievements }
  | .linkedinProfile, u =>
    { u with linkedinProfile := body.linkedinProfile.getD u.linkedinProfile }
  | .githubProfile, u => { u with githubProfile := body.githubProfile.getD u.githubProfile }
  | .portfolioWebsite, u =>
    { u with portfolioWebsite := body.portfolioWebsite.getD u.portfolioWebsite }
  | .currentStatus, u => { u with currentStatus := body.currentStatus.getD u.currentStatus }

/-- Section 4.3 as a data-driven update: one field after the other over the
twelve writable fields, if the submitted value is present (truthy) and
`authorizeFieldWrite user field` allows, set the field, else leave it. -/
def applyPolicy (body : ProfileBody) (user : User) : User :=
  [ProfileField.phone, .jobRole, .company, .workLocation, .salary, .experience, .skills,
    .achievements, .linkedinProfile, .githubProfile, .portfolioWebsite, .currentStatus].foldl
    (fun acc field =>
      if field.submitted body && authorizeFieldWrite user field then field.set body acc
      else acc)
    user

/-! ## The API as a transition system -/

/-- The requests that write to the database.  (Every other route only reads.) -/
inductive Op
  | createBatch (newId : ObjectId) (body : CreateBatchBody)
  | completeBatch (now : Date) (id : ObjectId)
  | createStudent (env : Env) (newId : ObjectId) (body : StudentBody)
  | updateStudent (id : ObjectId) (body : StudentBody)
  | deleteStudent (id : ObjectId)
  | createCompany (env : Env) (newId : ObjectId) (body : CompanyBody)
  | shareStudents (now : Date) (companyId : ObjectId) (body : ShareBody)
  | register (env : Env) (newId : ObjectId) (body : StudentBody)
  | updateProfile (uid : ObjectId) (body : ProfileBody)
  | uploadProfilePicture (destroyed : Bool) (uid : ObjectId) (file : Option String)
  | uploadResume (destroyed : Bool) (uid : ObjectId) (file : Option String)
  | deleteProfilePicture (destroyed : Bool) (uid : ObjectId)
  | deleteResume (destroyed : Bool) (uid : ObjectId)

/-- Running a request on a store. -/
def Op.run : Op → Store → Response × Store
  | .createBatch newId body, s => Arjun.createBatch newId body s
  | .completeBatch now id, s => Arjun.completeBatch now id s
  | .createStudent env newId body, s => Arjun.createStudent env newId body s
  | .updateStudent id body, s => Arjun.updateStudent id body s
  | .deleteStudent id, s => Arjun.deleteStudent id s
  | .createCompany env newId body, s => Arjun.createCompany env newId body s
  | .shareStudents now companyId body, s => Arjun.shareStudents now companyId body s
  | .register env newId body, s => Arjun.register env newId body s
  | .updateProfile uid body, s => Arjun.updateProfile uid body s
  | .uploadProfilePicture d uid file, s => Arjun.uploadProfilePicture d uid file s
  | .uploadResume d uid file, s => Arjun.uploadResume d uid file s
  | .deleteProfilePicture d uid, s => Arjun.deleteProfilePicture d uid s
  | .deleteResume d uid, s => Arjun.deleteResume d uid s

/-- Running a sequence of requests, each on the store the previous one left. -/
def Op.runAll (ops : List Op) (s : Store) : Store :=
  ops.foldl (fun st op => (op.run st).2) s

/-- The `_id` generated for the document a request creates is not in use in
the collection the document goes to. -/
def Op.Fresh : Op → Store → Prop
  | .createBatch newId _, s => ∀ b ∈ s.batches, b._id ≠ newId
  | .createStudent _ newId _, s => ∀ u ∈ s.users, u._id ≠ newId
  | .register _ newId _, s => ∀ u ∈ s.users, u._id ≠ newId
  | .createCompany _ newId _, s => ∀ c ∈ s.companies, c._id ≠ newId
  | _, _ => True

/-! ## Store predicates -/

/-- Section 8, first invariant: every student of a completed batch is an
alumni. -/
def AlumniInv (s : Store) : Prop :=
  ∀ b ∈ s.batches, b.isCompleted = true →
    ∀ u ∈ s.users, u.role = Role.student → u.batch = some b._id → u.isAlumni = true

instance (s : Store) : Decidable (AlumniInv s) := by
  unfold AlumniInv; infer_instance

/-- The number of users with `batch == id` and `role == student`. -/
def studentCount (s : Store) (id : ObjectId) : Nat :=
  User.countDocuments s (fun u => u.batch == some id && u.role == Role.student)

/-- Section 8, second invariant: the cached `totalStudents` of every batch is
the number of its students. -/
def CountInv (s : Store) : Prop :=
  ∀ b ∈ s.batches, b.totalStudents = studentCount s b._id

instance (s : Store) : Decidable (CountInv s) := by
  unfold CountInv; infer_instance

/-- The primary key of the batch collection: no two batches share an `_id`. -/
def BatchIdsUnique (s : Store) : Prop := (s.batches.map (fun b => b._id)).Nodup

instance (s : Store) : Decidable (BatchIdsUnique s) := by
  unfold BatchIdsUnique; infer_instance

/-- The primary key of the user collection: no two users share an `_id`. -/
def UserIdsUnique (s : Store) : Prop := (s.users.map (fun u => u._id)).Nodup

instance (s : Store) : Decidable (UserIdsUnique s) := by
  unfold UserIdsUnique; infer_instance

/-- Section 3: `isCompleted` and `completedDate` are set together. -/
def DateInv (s : Store) : Prop :=
  ∀ b ∈ s.batches, (b.isCompleted = true ↔ b.completedDate.isSome = true)

instance (s : Store) : Decidable (DateInv s) := by
  unfold DateInv; infer_instance

/-- Only students carry a batch reference. -/
def BatchRefsOfStudents (s : Store) : Prop :=
  ∀ u ∈ s.users, u.batch.isSome = true → u.role = Role.student

instance (s : Store) : Decidable (BatchRefsOfStudents s) := by
  unfold BatchRefsOfStudents; infer_instance

/-- The ways one request changes the user collection without writing
`isAlumni`: not at all, one document rewritten with its `_id` and `isAlumni`
kept, one document with an unused `_id` appended, or one document erased. -/
def UsersEffect (us us' : List User) : Prop :=
  us' = us ∨
  (∃ x ∈ us, ∃ x' : User, x'._id = x._id ∧ x'.isAlumni = x.isAlumni ∧
    us' = us.map (fun u => if u._id = x._id then x' else u)) ∨
  (∃ n : User, (∀ u ∈ us, u._id ≠ n._id) ∧ us' = us ++ [n]) ∨
  (∃ id : ObjectId, us' = us.eraseP (fun u => u._id == id))

/-- The ways one request changes the batch collection: not at all, one open
batch appended, or one document rewritten with its `_id` kept and its
completion state either kept or set to completed with a date. -/
def BatchesEffect (bs bs' : List Batch) : Prop :=
  bs' = bs ∨
  (∃ n : Batch, n.isCompleted = false ∧ n.completedDate = none ∧ bs' = bs ++ [n]) ∨
  (∃ x ∈ bs, ∃ x' : Batch, x'._id = x._id ∧
    ((x'.isCompleted = x.isCompleted ∧ x'.completedDate = x.completedDate) ∨
      (x'.isCompleted = true ∧ x'.completedDate.isSome = true)) ∧
    bs' = bs.map (fun b => if b._id = x._id then x' else b))

/-- The ways one request changes the company collection: not at all, one
company appended, or one share entry appended to the lists of the company
found under an id. -/
def CompaniesEffect (cs cs' : List Company) : Prop :=
  cs' = cs ∨
  (∃ n : Company, cs' = cs ++ [n]) ∨
  (∃ x x' : Company, cs.find? (fun c => c._id == x._id) = some x ∧ x'._id = x._id ∧
    (∃ e : SharedStudentList, x'.sharedStudentLists = x.sharedStudentLists ++ [e]) ∧
    cs' = cs.map (fun c => if c._id = x._id then x' else c))

/-- Truthiness of an optional submitted number. -/
def truthyNumber (v : Option NumberInput) : Bool := (v.map NumberInput.truthy).getD false

/-- The profile fields of `v` against those of `u` under the body `body` as
sent: a field whose submitted value is absent or falsy is as in `u`; no
string field without a setter is empty unless it was so in `u`; the phone is
empty, if it was not, only when a non-empty phone that the setter trims to
nothing was submitted; the salary is zero, if it was not, only when a
non-empty string that casts to zero was submitted. -/
def ProfileKeeps (env : Env) (body : RawProfileBody) (u v : User) : Prop :=
    (truthyS body.phone = false → v.phone = u.phone) ∧
    (truthyS body.jobRole = false → v.jobRole = u.jobRole) ∧
    (truthyS body.company = false → v.company = u.company) ∧
    (truthyS body.workLocation = false →
      v.workLocation = u.workLocation) ∧
    (truthyNumber body.salary = false → v.salary = u.salary) ∧
    (truthyS body.experience = false → v.experience = u.experience) ∧
    (body.skills = none → v.skills = u.skills) ∧
    (body.achievements = none → v.achievements = u.achievements) ∧
    (truthyS body.linkedinProfile = false →
      v.linkedinProfile = u.linkedinProfile) ∧
    (truthyS body.githubProfile = false →
      v.githubProfile = u.githubProfile) ∧
    (truthyS body.portfolioWebsite = false →
      v.portfolioWebsite = u.portfolioWebsite) ∧
    (truthyS body.currentStatus = false →
      v.currentStatus = u.currentStatus) ∧
    (v.jobRole = "" → u.jobRole = "") ∧
    (v.company = "" → u.company = "") ∧
    (v.workLocation = "" → u.workLocation = "") ∧
    (v.experience = "" → u.experience = "") ∧
    (v.linkedinProfile = "" → u.linkedinProfile = "") ∧
    (v.githubProfile = "" → u.githubProfile = "") ∧
    (v.portfolioWebsite = "" → u.portfolioWebsite = "") ∧
    (v.currentStatus = "" → u.currentStatus = "") ∧
    (v.phone = some "" →
      u.phone = some "" ∨ ∃ p, body.phone = some p ∧ p ≠ "" ∧ env.trim p = "") ∧
    (v.salary = 0 →
      u.salary = 0 ∨
        ∃ x, body.salary = some (NumberInput.str x) ∧ x ≠ "" ∧ env.toNumber x = some 0)

/-- The administrative fields of `v` against those of `u` under the body
`body` of `PUT /students/:id` as sent: a field whose submitted value is
absent or falsy is as in `u`; name, e-mail, student id, course and department
are not empty unless they were so in `u`; the phone is empty, if it was not,
only when a non-empty phone that the setter trims to nothing was submitted;
the year is zero, if it was not, only when a non-empty string that casts to
zero was submitted. -/
def StudentKeeps (env : Env) (body : RawStudentBody) (u v : User) : Prop :=
    (truthyS body.name = false → v.name = u.name) ∧
    (truthyS body.email = false → v.email = u.email) ∧
    (truthyS body.studentId = false → v.studentId = u.studentId) ∧
    (body.batch = none → v.batch = u.batch) ∧
    (truthyS body.course = false → v.course = u.course) ∧
    (truthyS body.department = false → v.department = u.department) ∧
    (truthyNumber body.year = false → v.year = u.year) ∧
    (truthyS body.phone = false → v.phone = u.phone) ∧
    (v.name = "" → u.name = "") ∧
    (v.email = "" → u.email = "") ∧
    (v.studentId = some "" → u.studentId = some "") ∧
    (v.course = some "" → u.course = some "") ∧
    (v.department = some "" → u.department = some "") ∧
    (v.phone = some "" →
      u.phone = some "" ∨ ∃ p, body.phone = some p ∧ p ≠ "" ∧ env.trim p = "") ∧
    (v.year = some 0 →
      u.year = some 0 ∨
        ∃ x, body.year = some (NumberInput.str x) ∧ x ≠ "" ∧ env.toNumber x = some 0)

/-- Two users hold different e-mails and, when the first carries a student
id, different student ids. -/
def Distinct (u v : User) : Prop :=
  u.email ≠ v.email ∧ (u.studentId.isSome = true → u.studentId ≠ v.studentId)

instance : DecidableRel Distinct := fun u v => by
  unfold Distinct; infer_instance

/-- Section 3: no two users share an e-mail and no two users share a student
id. -/
def UniqueInv (s : Store) : Prop := s.users.Pairwise Distinct

instance (s : Store) : Decidable (UniqueInv s) := by
  unfold UniqueInv; infer_instance

/-! ## Sample data -/

/-- A batch with the given id, completion state and cached count. -/
def sampleBatch (id : ObjectId) (completed : Bool) (total : Nat) : Batch :=
  { _id := id, batchName := "CS-" ++ toString id, year := 2020, course := "BTech",
    department := "CS", startDate := 0, endDate := 100, isCompleted := completed,
    completedDate := if completed then some 50 else none, totalStudents := total,
    description := none }

/-- A student with the given id, batch and alumni flag. -/
def sampleStudent (id : ObjectId) (batch : ObjectId) (alumni : Bool) : User :=
  { User.defaults id ("S" ++ toString id) ("s" ++ toString id ++ "@x.org") "$2a$10$secret"
      Role.student with
    studentId := some ("ID" ++ toString id), batch := some batch, course := some "BTech",
    department := some "CS", year := some 2020, isAlumni := alumni }

/-- A store with one open batch (id 1) holding two students. -/
def store1 : Store :=
  { batches := [sampleBatch 1 false 2],
    users := [sampleStudent 10 1 false, sampleStudent 11 1 false],
    companies := [] }

/-- A request body with no key. -/
def StudentBody.none : StudentBody :=
  { name := Option.none, email := Option.none, password := Option.none, role := Option.none,
    studentId := Option.none, batch := Option.none, course := Option.none,
    department := Option.none, year := Option.none, phone := Option.none }

/-- An admin user with the given id that carries a batch reference. -/
def sampleAdmin (id : ObjectId) (batch : Option ObjectId) : User :=
  { User.defaults id ("A" ++ toString id) ("a" ++ toString id ++ "@x.org") "$2a$10$secret"
      Role.admin with batch := batch }

/-- An open batch 1 with one student and a completed batch 2 without students;
both cached counts are exact. -/
def store2 : Store :=
  { batches := [sampleBatch 1 false 1, sampleBatch 2 true 0],
    users := [sampleStudent 10 1 false],
    companies := [] }

/-- An open batch 1 referenced by one student and by one admin user. -/
def store3 : Store :=
  { batches := [sampleBatch 1 false 1],
    users := [sampleStudent 10 1 false, sampleAdmin 20 (some 1)],
    companies := [] }

/-- A registration request for a student of batch `batch`. -/
def sampleRegistration (batch : ObjectId) : StudentBody :=
  { StudentBody.none with
    name := some "Ann", email := some "ann@x.org", password := some "secret1",
    role := some Role.student, studentId := some "ID99", batch := some batch,
    course := some "BTech", department := some "CS", year := some 2020 }

/-- A student whose batch reference 5 matches no batch of the store. -/
def store4 : Store :=
  { batches := [sampleBatch 1 false 0],
    users := [sampleStudent 10 5 false],
    companies := [] }

/-- A profile request with no key. -/
def ProfileBody.none : ProfileBody :=
  { phone := Option.none, jobRole := Option.none, company := Option.none,
    workLocation := Option.none, salary := Option.none, experience := Option.none,
    skills := Option.none, achievements := Option.none, linkedinProfile := Option.none,
    githubProfile := Option.none, portfolioWebsite := Option.none,
    currentStatus := Option.none }

/-- An alumnus of the completed batch 2 with a job, a salary and a status. -/
def sampleAlumnus : User :=
  { sampleStudent 12 2 true with
    jobRole := "Engineer", salary := 50000, currentStatus := "employed" }

/-- The completed batch 2 with its one alumnus. -/
def store5 : Store :=
  { batches := [sampleBatch 2 true 1], users := [sampleAlumnus], companies := [] }

/-- The store `store5` with the alumni flag of its user cleared. -/
def store6 : Store :=
  { batches := [sampleBatch 2 true 1],
    users := [{ sampleAlumnus with isAlumni := false }], companies := [] }

/-- A company with the given id and share entries. -/
def sampleCompany (id : ObjectId) (shares : List SharedStudentList) : Company :=
  { _id := id, companyName := "Acme", contactEmail := "hr@acme.org", contactPerson := "Bo",
    contactPhone := none, website := none, description := none, industry := none,
    location := none, sharedStudentLists := shares }

/-- The store `store1` with one company that holds one earlier share entry. -/
def store7 : Store :=
  { store1 with
    companies := [sampleCompany 30
      [{ batch := 1, sharedDate := 3, students := [10], message := "first" }]] }

/-- A valid body of `POST /batches`. -/
def sampleBatchBody : CreateBatchBody :=
  { batchName := some "IT-2022", year := some 2022, course := some "BTech",
    department := some "IT", startDate := some 10, endDate := some 20,
    description := some "Information Technology" }

/-- `bcrypt.compare` for the hash of `Env.sample`. -/
def sampleCompare (candidate hash : String) : Bool :=
  hash == Env.sample.hash candidate

/-- A regular-expression constructor for evaluation: the pattern is taken
literally and tested on a prefix. -/
def sampleRegExp : RegExp := fun pattern => some (fun value => pattern.isPrefixOf value)

/-- The store `store1` with another credential for user 10. -/
def store8 : Store :=
  { store1 with
    users := [{ sampleStudent 10 1 false with password := "$2a$10$zebra1" },
              sampleStudent 11 1 false] }

/-- The store `store1` with a third credential for user 10. -/
def store9 : Store :=
  { store1 with
    users := [{ sampleStudent 10 1 false with password := "$2a$10$apple1" },
              sampleStudent 11 1 false] }

/-- The completed batch 2 with its one alumnus, who has a phone number. -/
def store10 : Store :=
  { batches := [sampleBatch 2 true 1],
    users := [{ sampleAlumnus with phone := some "555-1234" }], companies := [] }

/-- A query string of `GET /students` with no key. -/
def StudentsQuery.none : StudentsQuery :=
  { batch := Option.none, isAlumni := Option.none, course := Option.none,
    department := Option.none, search := Option.none, sortBy := Option.none,
    sortOrder := Option.none }

end Arjun

/-! # Theorems -/

namespace Arjun

/-! ## Lookup lemmas -/

theorem truthyS_some (x : String) : truthyS (some x) = (x != "") := rfl

theorem truthyS_none : truthyS none = false := rfl

theorem batchFindById_some {s : Store} {id : ObjectId} {b : Batch}
    (h : Batch.findById s id = some b) : b ∈ s.batches ∧ b._id = id := by
  unfold Batch.findById at h
  exact ⟨List.mem_of_find?_eq_some h, by simpa using List.find?_some h⟩

theorem batchFindById_eq_none {s : Store} {id : ObjectId} :
    Batch.findById s id = none ↔ ∀ b ∈ s.batches, b._id ≠ id := by
  unfold Batch.findById
  simp [List.find?_eq_none]

theorem userFindById_some {s : Store} {id : ObjectId} {u : User}
    (h : User.findById s id = some u) : u ∈ s.users ∧ u._id = id := by
  unfold User.findById at h
  exact ⟨List.mem_of_find?_eq_some h, by simpa using List.find?_some h⟩

theorem userFindById_eq_none {s : Store} {id : ObjectId} :
    User.findById s id = none ↔ ∀ u ∈ s.users, u._id ≠ id := by
  unfold User.findById
  simp [List.find?_eq_none]

theorem completeBatch_of_none {now : Date} {id : ObjectId} {s : Store}
    (h : Batch.findById s id = none) :
    completeBatch now id s = (⟨404, .message "Batch not found"⟩, s) := by
  simp [completeBatch, h]

theorem completeBatch_of_some {now : Date} {id : ObjectId} {s : Store} {b : Batch}
    (h : Batch.findById s id = some b) :
    completeBatch now id s =
      (⟨200, .messageBatch "Batch marked as completed and students converted to alumni"
          { b with isCompleted := true, completedDate := some now }⟩,
        { batches := s.batches.map (fun x =>
            if x._id = id then { b with isCompleted := true, completedDate := some now } else x),
          users := s.users.map (fun u =>
            if (u.batch == some id && u.role == Role.student) = true
            then { u with isAlumni := true } else u),
          companies := s.companies }) := by
  have hid : b._id = id := (batchFindById_some h).2
  simp [completeBatch, h, Batch.save, User.updateManySetAlumni, hid]

theorem Batch.eq_of_findById {s : Store} {id : ObjectId} {b x : Batch}
    (huniq : BatchIdsUnique s) (h : Batch.findById s id = some b)
    (hx : x ∈ s.batches) (hxid : x._id = id) : x = b := by
  obtain ⟨hb, hbid⟩ := batchFindById_some h
  exact List.inj_on_of_nodup_map huniq hx hb (hxid.trans hbid.symm)

theorem map_ite_id_of_ne {α : Type} (key : α → ObjectId) (id : ObjectId) (f : α → α)
    (l : List α) (h : ∀ x ∈ l, key x ≠ id) :
    l.map (fun x => if key x = id then f x else x) = l := by
  induction l with
  | nil => rfl
  | cons a t ih =>
    have ha : key a ≠ id := h a (List.mem_cons_self a t)
    have ht : ∀ x ∈ t, key x ≠ id := fun x hx => h x (List.mem_cons_of_mem a hx)
    simp [ha, ih ht]

theorem find?_map_replace {α : Type} (key : α → ObjectId) (id : ObjectId) (new : α)
    (hnew : key new = id) (l : List α) {a : α}
    (h : l.find? (fun x => key x == id) = some a) :
    (l.map (fun x => if key x = id then new else x)).find? (fun x => key x == id)
      = some new := by
  induction l with
  | nil => simp at h
  | cons c t ih =>
    by_cases hc : key c = id
    · simp [hc, hnew]
    · have h2 : t.find? (fun x => key x == id) = some a := by
        simpa [List.find?_cons, hc] using h
      simp [List.find?_cons, hc, ih h2]

theorem batchFindById_save {s : Store} {id : ObjectId} {b : Batch} (new : Batch)
    (h : Batch.findById s id = some b) (hnew : new._id = id) (us : List User)
    (cs : List Company) :
    Batch.findById
      { batches := s.batches.map (fun x => if x._id = id then new else x),
        users := us, companies := cs } id = some new :=
  find?_map_replace (fun x : Batch => x._id) id new hnew s.batches h

/-! ## Batch completion -/

/-- C1: completing an existing batch succeeds with status 200; afterwards the
batch is still stored, it has `isCompleted = true` and `completedDate = now`,
and every student whose batch reference is that id has `isAlumni = true`
(for a batch without students the last part holds with nothing to change). -/
theorem completeBatch_completes (now : Date) (id : ObjectId) (s : Store)
    (hex : ∃ b ∈ s.batches, b._id = id) :
    (completeBatch now id s).1.status = 200 ∧
    (∃ b ∈ (completeBatch now id s).2.batches, b._id = id) ∧
    (∀ b ∈ (completeBatch now id s).2.batches, b._id = id →
      b.isCompleted = true ∧ b.completedDate = some now) ∧
    (∀ u ∈ (completeBatch now id s).2.users, u.role = Role.student → u.batch = some id →
      u.isAlumni = true) := by
  obtain ⟨b0, hb0, hb0id⟩ := hex
  cases hf : Batch.findById s id with
  | none => exact absurd hb0id (batchFindById_eq_none.mp hf b0 hb0)
  | some b =>
    have hbid : b._id = id := (batchFindById_some hf).2
    rw [completeBatch_of_some hf]
    refine ⟨rfl, ?_, ?_, ?_⟩
    · refine ⟨{ b with isCompleted := true, completedDate := some now }, ?_, hbid⟩
      simp only [List.mem_map]
      exact ⟨b0, hb0, by simp [hb0id]⟩
    · intro x hx hxid
      simp only [List.mem_map] at hx
      obtain ⟨y, _, hy⟩ := hx
      by_cases hyid : y._id = id
      · rw [if_pos hyid] at hy
        subst hy
        exact ⟨rfl, rfl⟩
      · rw [if_neg hyid] at hy
        subst hy
        exact absurd hxid hyid
    · intro u hu hrole hbatch
      simp only [List.mem_map] at hu
      obtain ⟨v, _, hv⟩ := hu
      by_cases hc : (v.batch == some id && v.role == Role.student) = true
      · rw [if_pos hc] at hv
        subst hv
        rfl
      · rw [if_neg hc] at hv
        subst hv
        simp [hrole, hbatch] at hc

theorem completeBatch_completes_witness :
    (∃ b ∈ store1.batches, b._id = 1) ∧
    (completeBatch 7 1 store1).1.status = 200 ∧
    (∀ u ∈ (completeBatch 7 1 store1).2.users, u.role = Role.student → u.batch = some 1 →
      u.isAlumni = true) :=
  ⟨by decide, (completeBatch_completes 7 1 store1 (by decide)).1,
    (completeBatch_completes 7 1 store1 (by decide)).2.2.2⟩

/-- C4: when no batch has the given id the handler answers 404 with the
message `Batch not found` and returns the store as it was; and 404 is answered
in that case only. -/
theorem completeBatch_notFound (now : Date) (id : ObjectId) (s : Store) :
    ((∀ b ∈ s.batches, b._id ≠ id) →
      completeBatch now id s = (⟨404, .message "Batch not found"⟩, s)) ∧
    ((completeBatch now id s).1.status = 404 ↔ ∀ b ∈ s.batches, b._id ≠ id) := by
  constructor
  · intro h
    exact completeBatch_of_none (batchFindById_eq_none.mpr h)
  · cases hf : Batch.findById s id with
    | none =>
      rw [completeBatch_of_none hf]
      simpa using batchFindById_eq_none.mp hf
    | some b =>
      rw [completeBatch_of_some hf]
      obtain ⟨hb, hbid⟩ := batchFindById_some hf
      constructor
      · intro h
        simp at h
      · intro h
        exact absurd hbid (h b hb)

/-- C3, as stated, fails: on a store with the open batch 1, a second
completion at time 9 after a first one at time 7 is accepted with status 200,
the stored `completedDate` goes from 7 to 9, and the end state differs from
the state after the first call. -/
theorem completeBatch_twice_resets_date :
    (completeBatch 9 1 (completeBatch 7 1 store1).2).1.status = 200 ∧
    (Batch.findById (completeBatch 7 1 store1).2 1).map (fun b => b.completedDate)
      = some (some 7) ∧
    (Batch.findById (completeBatch 9 1 (completeBatch 7 1 store1).2).2 1).map
      (fun b => b.completedDate) = some (some 9) ∧
    (completeBatch 9 1 (completeBatch 7 1 store1).2).2 ≠ (completeBatch 7 1 store1).2 := by
  decide

/-- C3, amended: completing a batch at `t1` and again at `t2` gives the
response and the end state of completing it once at `t2`.  Against the state
after the first call, the second call leaves users and companies as they
were and changes, in the batches with that id, only `completedDate`, which
becomes `t2`. -/
theorem completeBatch_again_eq_once (t1 t2 : Date) (id : ObjectId) (s : Store) :
    completeBatch t2 id (completeBatch t1 id s).2 = completeBatch t2 id s ∧
    (completeBatch t2 id (completeBatch t1 id s).2).2.users = (completeBatch t1 id s).2.users ∧
    (completeBatch t2 id (completeBatch t1 id s).2).2.companies
      = (completeBatch t1 id s).2.companies ∧
    (completeBatch t2 id (completeBatch t1 id s).2).2.batches
      = (completeBatch t1 id s).2.batches.map
          (fun b => if b._id = id then { b with completedDate := some t2 } else b) := by
  cases hf : Batch.findById s id with
  | none =>
    have hne := batchFindById_eq_none.mp hf
    simp only [completeBatch_of_none hf, true_and]
    exact (map_ite_id_of_ne (fun x : Batch => x._id) id _ s.batches hne).symm
  | some b =>
    have hbid : b._id = id := (batchFindById_some hf).2
    have hf1 := batchFindById_save
      { b with isCompleted := true, completedDate := some t1 } hf hbid
      (s.users.map (fun u =>
        if (u.batch == some id && u.role == Role.student) = true
        then { u with isAlumni := true } else u)) s.companies
    rw [completeBatch_of_some hf, completeBatch_of_some hf1, completeBatch_of_some hf]
    have hb : ∀ l : List Batch,
        (l.map (fun x => if x._id = id
            then { b with isCompleted := true, completedDate := some t1 } else x)).map
          (fun x => if x._id = id
            then ({ b with isCompleted := true, completedDate := some t2 } : Batch) else x)
        = l.map (fun x => if x._id = id
            then { b with isCompleted := true, completedDate := some t2 } else x) := by
      intro l
      rw [List.map_map]
      apply List.map_congr_left
      intro x _
      by_cases hx : x._id = id <;> simp [hx, hbid]
    have hb2 : ∀ l : List Batch,
        (l.map (fun x => if x._id = id
            then { b with isCompleted := true, completedDate := some t1 } else x)).map
          (fun x => if x._id = id then ({ x with completedDate := some t2 } : Batch) else x)
        = l.map (fun x => if x._id = id
            then { b with isCompleted := true, completedDate := some t2 } else x) := by
      intro l
      rw [List.map_map]
      apply List.map_congr_left
      intro x _
      by_cases hx : x._id = id <;> simp [hx, hbid]
    have hu : ∀ l : List User,
        (l.map (fun u => if (u.batch == some id && u.role == Role.student) = true
            then { u with isAlumni := true } else u)).map
          (fun u => if (u.batch == some id && u.role == Role.student) = true
            then ({ u with isAlumni := true } : User) else u)
        = l.map (fun u => if (u.batch == some id && u.role == Role.student) = true
            then { u with isAlumni := true } else u) := by
      intro l
      rw [List.map_map]
      apply List.map_congr_left
      intro u _
      by_cases hx : (u.batch == some id && u.role == Role.student) = true
      · simp only [Function.comp, if_pos hx]
      · simp only [Function.comp, if_neg hx]
    simp only [hb, hb2, hu, and_self]

/-- C5: on a store whose batch ids are a primary key, completing an existing
batch `id` leaves the companies as they were; the batch list is the old one
with, in the batch of that id, only `isCompleted` and `completedDate`
rewritten (so `totalStudents`, every other field and every other batch are
unchanged); and the user list is the old one with, in the students of that
batch that were not yet alumni, only `isAlumni` rewritten (every other user,
and every student that was already alumni, is unchanged).  When no batch has
that id the whole store is unchanged. -/
theorem completeBatch_frame (now : Date) (id : ObjectId) (s : Store)
    (huniq : BatchIdsUnique s) :
    ((∀ b ∈ s.batches, b._id ≠ id) → (completeBatch now id s).2 = s) ∧
    ((∃ b ∈ s.batches, b._id = id) →
      (completeBatch now id s).2.companies = s.companies ∧
      (completeBatch now id s).2.batches = s.batches.map (fun b =>
        if b._id = id then { b with isCompleted := true, completedDate := some now } else b) ∧
      (completeBatch now id s).2.users = s.users.map (fun u =>
        if u.batch = some id ∧ u.role = Role.student ∧ u.isAlumni = false
        then { u with isAlumni := true } else u)) := by
  constructor
  · intro hne
    rw [completeBatch_of_none (batchFindById_eq_none.mpr hne)]
  · rintro ⟨b0, hb0, hb0id⟩
    cases hf : Batch.findById s id with
    | none => exact absurd hb0id (batchFindById_eq_none.mp hf b0 hb0)
    | some b =>
      rw [completeBatch_of_some hf]
      refine ⟨rfl, ?_, ?_⟩
      · apply List.map_congr_left
        intro x hx
        by_cases hxid : x._id = id
        · have hxb : x = b := Batch.eq_of_findById huniq hf hx hxid
          simp [hxid, hxb]
        · simp [hxid]
      · apply List.map_congr_left
        intro u _
        by_cases h1 : u.batch = some id <;> by_cases h2 : u.role = Role.student <;>
          cases h3 : u.isAlumni <;> simp [h1, h2, h3]
        cases u
        simp_all

theorem completeBatch_frame_witness :
    BatchIdsUnique store1 ∧
    (completeBatch 7 1 store1).2.batches = store1.batches.map (fun b =>
      if b._id = 1 then { b with isCompleted := true, completedDate := some 7 } else b) :=
  ⟨by decide, ((completeBatch_frame 7 1 store1 (by decide)).2 (by decide)).2.1⟩

/-! ## The two store invariants -/

/-- C2 at its failing inputs.  On a store that satisfies the alumni invariant
and holds the completed batch 2, registering a student of batch 2 answers 201
and stores a non-alumni student of a completed batch; and the admin update
that moves the non-alumni student 10 into batch 2 answers 200 and leaves the
flag false.  Either way the invariant no longer holds. -/
theorem alumniInv_not_preserved :
    AlumniInv store2 ∧
    (register Env.sample 99 (sampleRegistration 2) store2).1.status = 201 ∧
    ¬ AlumniInv (register Env.sample 99 (sampleRegistration 2) store2).2 ∧
    (updateStudent 10 { StudentBody.none with batch := some 2 } store2).1.status = 200 ∧
    ¬ AlumniInv (updateStudent 10 { StudentBody.none with batch := some 2 } store2).2 := by
  decide

/-- C6 at its failing input.  On a store whose cached counts are exact, the
admin update that moves student 10 from batch 1 to batch 2 answers 200 and
recounts neither batch: batch 1 keeps `totalStudents = 1` with no student
left, batch 2 keeps `totalStudents = 0` with one student. -/
theorem countInv_not_preserved_by_updateStudent :
    CountInv store2 ∧
    (updateStudent 10 { StudentBody.none with batch := some 2 } store2).1.status = 200 ∧
    (updateStudent 10 { StudentBody.none with batch := some 2 } store2).2.batches
      = store2.batches ∧
    studentCount (updateStudent 10 { StudentBody.none with batch := some 2 } store2).2 1 = 0 ∧
    studentCount (updateStudent 10 { StudentBody.none with batch := some 2 } store2).2 2 = 1 ∧
    ¬ CountInv (updateStudent 10 { StudentBody.none with batch := some 2 } store2).2 := by
  decide

/-! ## The membership count -/

theorem Batch.updateStudentCount_users (s : Store) (b : Batch) :
    (Batch.updateStudentCount s b).users = s.users := rfl

theorem Batch.updateStudentCount_companies (s : Store) (b : Batch) :
    (Batch.updateStudentCount s b).companies = s.companies := rfl

theorem Batch.updateStudentCount_batches (s : Store) (b : Batch) :
    (Batch.updateStudentCount s b).batches = s.batches.map (fun x =>
      if x._id = b._id
      then { b with totalStudents := (s.users.filter (fun u => u.batch == some b._id)).length }
      else x) := rfl

/-- On a store where only students carry a batch reference, the number that
`updateStudentCount` stores is the number of students of the batch. -/
theorem countDocuments_eq_studentCount (s : Store) (id : ObjectId)
    (h : ∀ u ∈ s.users, u.batch = some id → u.role = Role.student) :
    User.countDocuments s (fun u => u.batch == some id) = studentCount s id := by
  unfold studentCount User.countDocuments
  congr 1
  apply List.filter_congr
  intro u hu
  by_cases hb : u.batch = some id
  · simp [hb, h u hu hb]
  · simp [hb]

/-- The hypothesis of `countDocuments_eq_studentCount` is needed: on `store3`,
where batch 1 is referenced by one student and by one admin user (a store
that no request produces, `batchRefsOfStudents_run`), `updateStudentCount`
writes `totalStudents = 2` while the batch has one student. -/
theorem updateStudentCount_counts_every_role :
    Batch.findById store3 1 = some (sampleBatch 1 false 1) ∧
    (Batch.findById (Batch.updateStudentCount store3 (sampleBatch 1 false 1)) 1).map
      (fun b => b.totalStudents) = some 2 ∧
    studentCount (Batch.updateStudentCount store3 (sampleBatch 1 false 1)) 1 = 1 := by
  decide

/-- C8: running `updateStudentCount` a second time, on the batch document
whatever its cached `totalStudents` is by then (the value just written, the
stale one, or any other), gives the store, and so the `totalStudents`, of
running it once. -/
theorem updateStudentCount_idempotent (s : Store) (b : Batch) (n : Nat) :
    Batch.updateStudentCount (Batch.updateStudentCount s b) { b with totalStudents := n }
      = Batch.updateStudentCount s b := by
  simp only [Batch.updateStudentCount, Batch.save, User.countDocuments, List.map_map]
  congr 1
  apply List.map_congr_left
  intro x _
  by_cases hx : x._id = b._id <;> simp [hx]

/-! ## Recount on a dangling batch reference -/

/-- C9, as stated, fails: student 10 references batch 5, which is not in the
store.  Deleting the student answers 200 `Student deleted successfully`, and
registering a further student of batch 5 answers 201; in both cases the
recount is skipped and the batches are untouched. -/
theorem recount_skipped_silently :
    Batch.findById store4 5 = none ∧
    deleteStudent 10 store4
      = (⟨200, .message "Student deleted successfully"⟩, { store4 with users := [] }) ∧
    (register Env.sample 99 (sampleRegistration 5) store4).1.status = 201 ∧
    (register Env.sample 99 (sampleRegistration 5) store4).2.batches = store4.batches := by
  decide

/-- C9, amended: when the batch reference matches no batch, the recount is
skipped and the operation completes successfully.  Deleting such a student
answers 200 and removes the student, leaving the batches as they were;
registering such a student (valid name, e-mail and password, unused e-mail
and student id, course, department and year given) answers 201 and appends
the new user, leaving the batches as they were. -/
theorem recount_skipped_of_absent_batch (env : Env) (s : Store) (bid : ObjectId)
    (hb : Batch.findById s bid = none) :
    (∀ (id : ObjectId) (student : User), User.findById s id = some student →
      student.role = Role.student → student.batch = some bid →
      deleteStudent id s = (⟨200, .message "Student deleted successfully"⟩,
        { s with users := s.users.eraseP (fun u => u._id == id) })) ∧
    (∀ (newId : ObjectId) (name email password course department : String) (year : Int)
      (studentId phone : Option String),
      name ≠ "" → env.isEmail email = true → 6 ≤ password.length → email ≠ "" →
      course ≠ "" → department ≠ "" →
      (∀ u ∈ s.users, u.email ≠ email) →
      (∀ u ∈ s.users, studentId.isSome → u.studentId ≠ studentId) →
      register env newId
        { name := some name, email := some email, password := some password,
          role := some Role.student, studentId := studentId, batch := some bid,
          course := some course, department := some department, year := some year,
          phone := phone } s
      = (⟨201, .tokenUser (env.sign newId Role.student)
            { id := newId, name := name, email := email, role := Role.student,
              studentId := studentId, batch := some bid, isAlumni := false }⟩,
          { s with users := s.users ++
            [{ User.defaults newId name email (env.hash password) Role.student with
                phone := phone, studentId := studentId, batch := some bid,
                course := some course, department := some department,
                year := some year }] })) := by
  constructor
  · intro id student hfind hrole hbatch
    have hb2 : Batch.findById (User.findByIdAndDelete s id) bid = none := hb
    simp [deleteStudent, hfind, hrole, hbatch, hb2]
    rfl
  · intro newId name email password course department year studentId phone
      hname hmail hpw hemail hcourse hdept hfreshE hfreshS
    have hany : (s.users.any (fun u => u.email == email)) = false := by
      simpa using hfreshE
    have hcond : ¬ (truthyS studentId = true ∧ ∃ x ∈ s.users, x.studentId = studentId) := by
      rintro ⟨ht, x, hx, hxs⟩
      have hsome : studentId.isSome = true := by
        cases hsid : studentId with
        | none => rw [hsid] at ht; simp [truthyS] at ht
        | some sid => rfl
      exact hfreshS x hx hsome hxs
    have hidx : ∀ x ∈ s.users,
        ¬ x.email = email ∧ (studentId.isSome = true → ¬ x.studentId = studentId) :=
      fun x hx => ⟨hfreshE x hx, hfreshS x hx⟩
    have hb3 : ∀ us : List User,
        Batch.findById { batches := s.batches, users := us, companies := s.companies } bid
          = none := fun _ => hb
    simp [register, registerErrors, truthyS_some, hname, hmail, hpw, hany, hcond, User.create,
      User.validate, User.indexConflict, User.defaults, User.insert, requiredS,
      currentStatusEnum, hemail, hcourse, hdept, hb3]
    rw [if_pos hidx]
    simp [hb3]

theorem recount_skipped_of_absent_batch_witness :
    Batch.findById store4 5 = none ∧
    deleteStudent 10 store4 = (⟨200, .message "Student deleted successfully"⟩,
      { store4 with users := store4.users.eraseP (fun u => u._id == 10) }) ∧
    register Env.sample 99
        { name := some "Ann", email := some "ann@x.org", password := some "secret1",
          role := some Role.student, studentId := some "ID99", batch := some 5,
          course := some "BTech", department := some "CS", year := some 2020,
          phone := none } store4
      = (⟨201, .tokenUser (Env.sample.sign 99 Role.student)
            { id := 99, name := "Ann", email := "ann@x.org", role := Role.student,
              studentId := some "ID99", batch := some 5, isAlumni := false }⟩,
          { store4 with users := store4.users ++
            [{ User.defaults 99 "Ann" "ann@x.org" (Env.sample.hash "secret1") Role.student with
                phone := none, studentId := some "ID99", batch := some 5,
                course := some "BTech", department := some "CS",
                year := some 2020 }] }) :=
  ⟨by decide,
    (recount_skipped_of_absent_batch Env.sample store4 5 (by decide)).1 10
      (sampleStudent 10 5 false) (by decide) (by decide) (by decide),
    (recount_skipped_of_absent_batch Env.sample store4 5 (by decide)).2 99
      "Ann" "ann@x.org" "secret1" "BTech" "CS" 2020 (some "ID99") none
      (by decide) (by decide) (by decide) (by decide) (by decide) (by decide)
      (by decide) (by decide)⟩

/-! ## Profile self-update -/

theorem userFindById_save {s : Store} {id : ObjectId} {u : User} (new : User)
    (h : User.findById s id = some u) (hnew : new._id = id) :
    User.findById (User.save s new) id = some new := by
  have := find?_map_replace (fun x : User => x._id) id new hnew s.users h
  simpa [User.findById, User.save, hnew] using this

theorem applyProfile_id (body : ProfileBody) (u : User) : (applyProfile body u)._id = u._id := by
  unfold applyProfile
  split <;> rfl

theorem applyProfile_isAlumni (body : ProfileBody) (u : User) :
    (applyProfile body u).isAlumni = u.isAlumni := by
  unfold applyProfile
  split <;> rfl

/-- C10: for a stored user with `isAlumni = false` and any request body, the
profile self-update answers 200 and the user stored afterwards has `jobRole`,
`company`, `workLocation`, `salary`, `experience`, `achievements` and
`currentStatus` as before the request, while its phone is the submitted phone
when one is submitted (a missing or empty phone, being falsy, keeps the
stored one). -/
theorem updateProfile_nonAlumni (uid : ObjectId) (body : ProfileBody) (s : Store) (u : User)
    (hu : User.findById s uid = some u) (hna : u.isAlumni = false) :
    (updateProfile uid body s).1.status = 200 ∧
    ∃ v, User.findById (updateProfile uid body s).2 uid = some v ∧
      v.jobRole = u.jobRole ∧ v.company = u.company ∧ v.workLocation = u.workLocation ∧
      v.salary = u.salary ∧ v.experience = u.experience ∧ v.achievements = u.achievements ∧
      v.currentStatus = u.currentStatus ∧
      v.phone = assignOS body.phone u.phone ∧
      (∀ p, body.phone = some p → p ≠ "" → v.phone = some p) := by
  have hid : u._id = uid := (userFindById_some hu).2
  have hap : applyProfile body u =
      { u with
        phone := assignOS body.phone u.phone
        linkedinProfile := assignS body.linkedinProfile u.linkedinProfile
        githubProfile := assignS body.githubProfile u.githubProfile
        portfolioWebsite := assignS body.portfolioWebsite u.portfolioWebsite
        skills := assignA body.skills u.skills } := by
    simp [applyProfile, hna]
  have hres : updateProfile uid body s =
      (⟨200, .user ((User.findById (User.save s (applyProfile body u)) u._id).map
          (User.view (User.save s (applyProfile body u))))⟩,
        User.save s (applyProfile body u)) := by
    simp [updateProfile, hu, applyProfile_isAlumni, hna, applyProfile_id]
  rw [hres]
  refine ⟨rfl, applyProfile body u, ?_, ?_⟩
  · exact userFindById_save (applyProfile body u) hu ((applyProfile_id body u).trans hid)
  · rw [hap]
    refine ⟨rfl, rfl, rfl, rfl, rfl, rfl, rfl, rfl, ?_⟩
    intro p hp hne
    simp [assignOS, hp, hne]

theorem updateProfile_nonAlumni_witness :
    User.findById store1 10 = some (sampleStudent 10 1 false) ∧
    (updateProfile 10
      { ProfileBody.none with phone := some "555-1234", jobRole := some "Engineer" }
      store1).1.status = 200 ∧
    (User.findById (updateProfile 10
      { ProfileBody.none with phone := some "555-1234", jobRole := some "Engineer" }
      store1).2 10).map (fun v => (v.phone, v.jobRole)) = some (some "555-1234", "") :=
  ⟨by decide,
    (updateProfile_nonAlumni 10
      { ProfileBody.none with phone := some "555-1234", jobRole := some "Engineer" }
      store1 (sampleStudent 10 1 false) (by decide) (by decide)).1, by decide⟩

theorem applyProfile_of_alumni (body : ProfileBody) (u : User) (ha : u.isAlumni = true) :
    applyProfile body u =
      { u with
        phone := assignOS body.phone u.phone
        jobRole := assignS body.jobRole u.jobRole
        company := assignS body.company u.company
        workLocation := assignS body.workLocation u.workLocation
        salary := assignN body.salary u.salary
        experience := assignS body.experience u.experience
        skills := assignA body.skills u.skills
        achievements := assignA body.achievements u.achievements
        linkedinProfile := assignS body.linkedinProfile u.linkedinProfile
        githubProfile := assignS body.githubProfile u.githubProfile
        portfolioWebsite := assignS body.portfolioWebsite u.portfolioWebsite
        currentStatus := assignS body.currentStatus u.currentStatus } := by
  simp [applyProfile, ha]

theorem applyProfile_of_nonAlumni (body : ProfileBody) (u : User) (ha : u.isAlumni = false) :
    applyProfile body u =
      { u with
        phone := assignOS body.phone u.phone
        linkedinProfile := assignS body.linkedinProfile u.linkedinProfile
        githubProfile := assignS body.githubProfile u.githubProfile
        portfolioWebsite := assignS body.portfolioWebsite u.portfolioWebsite
        skills := assignA body.skills u.skills } := by
  simp [applyProfile, ha]

theorem assignS_of_truthy (x old : String) (hx : x ≠ "") : assignS (some x) old = x := by
  simp [assignS, hx]

theorem assignN_of_truthy (n old : Int) (hn : n ≠ 0) : assignN (some n) old = n := by
  simp [assignN, hn]

/-- The profile update is rejected by the `enum` validator exactly when the
user is an alumni and the submitted status is non-empty and not in the enum. -/
theorem updateProfile_of_rejected {uid : ObjectId} {body : ProfileBody} {s : Store} {u : User}
    (hu : User.findById s uid = some u) (ha : u.isAlumni = true) {c : String}
    (hc : body.currentStatus = some c) (hne : c ≠ "") (hnot : c ∉ currentStatusEnum) :
    updateProfile uid body s = (serverError, s) := by
  have h1 : (applyProfile body u).currentStatus = c := by
    rw [applyProfile_of_alumni body u ha]
    simp [hc, assignS, hne]
  simp [updateProfile, hu, applyProfile_isAlumni, ha, h1, hc, truthyS, hne, hnot]

theorem updateProfile_of_accepted {uid : ObjectId} {body : ProfileBody} {s : Store} {u : User}
    (hu : User.findById s uid = some u)
    (hok : u.isAlumni = true → ∀ c, body.currentStatus = some c → c = "" ∨ c ∈ currentStatusEnum) :
    updateProfile uid body s =
      (⟨200, .user ((User.findById (User.save s (applyProfile body u)) u._id).map
          (User.view (User.save s (applyProfile body u))))⟩,
        User.save s (applyProfile body u)) := by
  cases ha : u.isAlumni with
  | false => simp [updateProfile, hu, applyProfile_isAlumni, ha, applyProfile_id]
  | true =>
    have hcond : (truthyS body.currentStatus &&
        !currentStatusEnum.contains (applyProfile body u).currentStatus) = false := by
      cases hc : body.currentStatus with
      | none => simp [truthyS]
      | some c =>
        rcases hok ha c hc with h | h
        · simp [truthyS, h]
        · have h1 : (applyProfile body u).currentStatus = c := by
            rw [applyProfile_of_alumni body u ha]
            by_cases hne : c = ""
            · subst hne
              simp [currentStatusEnum] at h
            · simp [hc, assignS, hne]
          simp [h1, h]
    simp only [updateProfile, hu, applyProfile_isAlumni, ha, Bool.true_and, hcond,
      applyProfile_id]
    simp

/-- C11, as stated, fails: for the alumnus 12 (job `Engineer`, salary 50000,
status `employed`) a submitted empty `jobRole` and a submitted `salary` of 0
are answered 200 and not stored, and a submitted `currentStatus` that is not
in the enum of the schema is answered 500 with nothing stored. -/
theorem updateProfile_alumni_value_not_stored :
    (updateProfile 12 { ProfileBody.none with jobRole := some "" } store5).1.status = 200 ∧
    (User.findById (updateProfile 12 { ProfileBody.none with jobRole := some "" } store5).2 12).map
      (fun v => v.jobRole) = some "Engineer" ∧
    (updateProfile 12 { ProfileBody.none with salary := some 0 } store5).1.status = 200 ∧
    (User.findById (updateProfile 12 { ProfileBody.none with salary := some 0 } store5).2 12).map
      (fun v => v.salary) = some 50000 ∧
    updateProfile 12 { ProfileBody.none with currentStatus := some "retired" } store5
      = (serverError, store5) := by
  decide

/-- C11, amended: for a stored user with `isAlumni = true`, every truthy value
submitted for an ALUMNI_ONLY field (a non-empty string, a non-zero salary, any
achievements array) is stored in that field and the answer is 200, provided a
non-empty submitted `currentStatus` is one of the enum values; the stored
user is the old one after the twelve guarded assignments, so a falsy value
keeps the stored one.  A non-empty `currentStatus` outside the enum is
answered 500 and the store is unchanged. -/
theorem updateProfile_alumni (uid : ObjectId) (body : ProfileBody) (s : Store) (u : User)
    (hu : User.findById s uid = some u) (ha : u.isAlumni = true) :
    ((∀ c, body.currentStatus = some c → c = "" ∨ c ∈ currentStatusEnum) →
      (updateProfile uid body s).1.status = 200 ∧
      ∃ v, User.findById (updateProfile uid body s).2 uid = some v ∧
        v = applyProfile body u ∧
        (∀ x, body.jobRole = some x → x ≠ "" → v.jobRole = x) ∧
        (∀ x, body.company = some x → x ≠ "" → v.company = x) ∧
        (∀ x, body.workLocation = some x → x ≠ "" → v.workLocation = x) ∧
        (∀ n, body.salary = some n → n ≠ 0 → v.salary = n) ∧
        (∀ x, body.experience = some x → x ≠ "" → v.experience = x) ∧
        (∀ a, body.achievements = some a → v.achievements = a) ∧
        (∀ c, body.currentStatus = some c → c ≠ "" → v.currentStatus = c)) ∧
    (∀ c, body.currentStatus = some c → c ≠ "" → c ∉ currentStatusEnum →
      updateProfile uid body s = (serverError, s)) := by
  have hid : u._id = uid := (userFindById_some hu).2
  constructor
  · intro hok
    rw [updateProfile_of_accepted hu (fun _ => hok)]
    refine ⟨rfl, applyProfile body u,
      userFindById_save (applyProfile body u) hu ((applyProfile_id body u).trans hid), rfl, ?_⟩
    rw [applyProfile_of_alumni body u ha]
    refine ⟨?_, ?_, ?_, ?_, ?_, ?_, ?_⟩
    · intro x hx hne
      simp [hx, assignS_of_truthy x _ hne]
    · intro x hx hne
      simp [hx, assignS_of_truthy x _ hne]
    · intro x hx hne
      simp [hx, assignS_of_truthy x _ hne]
    · intro n hn hne
      simp [hn, assignN_of_truthy n _ hne]
    · intro x hx hne
      simp [hx, assignS_of_truthy x _ hne]
    · intro a ha'
      simp [ha', assignA]
    · intro x hx hne
      simp [hx, assignS_of_truthy x _ hne]
  · intro c hc hne hnot
    exact updateProfile_of_rejected hu ha hc hne hnot

theorem updateProfile_alumni_witness :
    User.findById store5 12 = some sampleAlumnus ∧
    (updateProfile 12 { ProfileBody.none with jobRole := some "Lead", salary := some 7 }
      store5).1.status = 200 :=
  ⟨by decide,
    ((updateProfile_alumni 12 { ProfileBody.none with jobRole := some "Lead", salary := some 7 }
      store5 sampleAlumnus (by decide) (by decide)).1 (by decide)).1⟩

/-- C12, as stated, fails: the requests of two users that differ only in
`isAlumni`, with the body `phone = 555-1234`, `currentStatus = retired`, end
differently.  The non-alumni request ignores `currentStatus` and stores the
phone; the alumni request is rejected by the enum validator and keeps the
old phone. -/
theorem updateProfile_phone_depends_on_alumni :
    store6.users = store5.users.map (fun u => { u with isAlumni := false }) ∧
    (User.findById (updateProfile 12
      { ProfileBody.none with phone := some "555-1234", currentStatus := some "retired" }
      store5).2 12).map (fun v => v.phone) = some none ∧
    (User.findById (updateProfile 12
      { ProfileBody.none with phone := some "555-1234", currentStatus := some "retired" }
      store6).2 12).map (fun v => v.phone) = some (some "555-1234") := by
  decide

/-- C12, amended: for every request body whose `currentStatus` is absent,
empty or one of the enum values, and any two stored users that agree on
phone, linkedinProfile, githubProfile, portfolioWebsite and skills (whatever
their `isAlumni` and their other fields), both profile updates are answered
200 and the two stored users agree on these five fields afterwards. -/
theorem updateProfile_always_editable (uid : ObjectId) (body : ProfileBody)
    (s1 s2 : Store) (u1 u2 : User)
    (h1 : User.findById s1 uid = some u1) (h2 : User.findById s2 uid = some u2)
    (hphone : u1.phone = u2.phone) (hlinkedin : u1.linkedinProfile = u2.linkedinProfile)
    (hgithub : u1.githubProfile = u2.githubProfile)
    (hportfolio : u1.portfolioWebsite = u2.portfolioWebsite) (hskills : u1.skills = u2.skills)
    (hok : ∀ c, body.currentStatus = some c → c = "" ∨ c ∈ currentStatusEnum) :
    (updateProfile uid body s1).1.status = 200 ∧ (updateProfile uid body s2).1.status = 200 ∧
    ∃ v1 v2, User.findById (updateProfile uid body s1).2 uid = some v1 ∧
      User.findById (updateProfile uid body s2).2 uid = some v2 ∧
      v1.phone = v2.phone ∧ v1.linkedinProfile = v2.linkedinProfile ∧
      v1.githubProfile = v2.githubProfile ∧ v1.portfolioWebsite = v2.portfolioWebsite ∧
      v1.skills = v2.skills := by
  have hid1 : u1._id = uid := (userFindById_some h1).2
  have hid2 : u2._id = uid := (userFindById_some h2).2
  rw [updateProfile_of_accepted h1 (fun _ => hok), updateProfile_of_accepted h2 (fun _ => hok)]
  refine ⟨rfl, rfl, applyProfile body u1, applyProfile body u2,
    userFindById_save (applyProfile body u1) h1 ((applyProfile_id body u1).trans hid1),
    userFindById_save (applyProfile body u2) h2 ((applyProfile_id body u2).trans hid2), ?_⟩
  cases ha1 : u1.isAlumni <;> cases ha2 : u2.isAlumni <;>
    simp [applyProfile, ha1, ha2, hphone, hlinkedin, hgithub, hportfolio, hskills]

theorem updateProfile_always_editable_witness :
    (updateProfile 12 { ProfileBody.none with phone := some "555-1234" } store5).1.status = 200 ∧
    (updateProfile 12 { ProfileBody.none with phone := some "555-1234" } store6).1.status = 200 :=
  ⟨(updateProfile_always_editable 12 { ProfileBody.none with phone := some "555-1234" }
      store5 store6 sampleAlumnus { sampleAlumnus with isAlumni := false }
      (by decide) (by decide) rfl rfl rfl rfl rfl (by decide)).1,
    (updateProfile_always_editable 12 { ProfileBody.none with phone := some "555-1234" }
      store5 store6 sampleAlumnus { sampleAlumnus with isAlumni := false }
      (by decide) (by decide) rfl rfl rfl rfl rfl (by decide)).2.1⟩

theorem applyProfile_frame (body : ProfileBody) (u : User) :
    (applyProfile body u).role = u.role ∧ (applyProfile body u).batch = u.batch ∧
    (applyProfile body u).email = u.email ∧ (applyProfile body u).name = u.name ∧
    (applyProfile body u).studentId = u.studentId ∧
    (applyProfile body u).password = u.password := by
  unfold applyProfile
  split <;> exact ⟨rfl, rfl, rfl, rfl, rfl, rfl⟩

/-- The store after a profile update is the old store or the old store with
the assigned document saved. -/
theorem updateProfile_store {uid : ObjectId} {s : Store} {u : User} (body : ProfileBody)
    (hu : User.findById s uid = some u) :
    (updateProfile uid body s).2 = s ∨
    (updateProfile uid body s).2 = User.save s (applyProfile body u) := by
  simp only [updateProfile, hu]
  split
  · exact Or.inl rfl
  · exact Or.inr rfl

/-- C13: for every stored user and every request body, whatever further keys
(`isAlumni`, `role`, `batch`, `email`, `name`, `studentId`, `password`) the
request carries, the user stored under that id after the profile self-update
has the `isAlumni`, `role`, `batch`, `email`, `name`, `studentId` and
`password` it had before. -/
theorem updateProfile_keeps_identity (uid : ObjectId) (req : ProfileRequest) (s : Store)
    (u : User) (hu : User.findById s uid = some u) :
    ∃ v, User.findById (updateProfile uid req.destructure s).2 uid = some v ∧
      v.isAlumni = u.isAlumni ∧ v.role = u.role ∧ v.batch = u.batch ∧ v.email = u.email ∧
      v.name = u.name ∧ v.studentId = u.studentId ∧ v.password = u.password := by
  have hid : u._id = uid := (userFindById_some hu).2
  rcases updateProfile_store req.destructure hu with h | h
  · rw [h]
    exact ⟨u, hu, rfl, rfl, rfl, rfl, rfl, rfl, rfl⟩
  · rw [h]
    obtain ⟨h1, h2, h3, h4, h5, h6⟩ := applyProfile_frame req.destructure u
    exact ⟨applyProfile req.destructure u,
      userFindById_save _ hu ((applyProfile_id _ u).trans hid),
      applyProfile_isAlumni _ u, h1, h2, h3, h4, h5, h6⟩

theorem updateProfile_keeps_identity_witness :
    User.findById store1 10 = some (sampleStudent 10 1 false) ∧
    ∃ v, User.findById (updateProfile 10
        (ProfileRequest.destructure
          { isAlumni := some true, role := some Role.admin, batch := some 2,
            email := some "x@y.org", name := some "X", studentId := some "ID0",
            password := some "hunter22",
            fields := { ProfileBody.none with phone := some "555-1234" } }) store1).2 10
        = some v ∧
      v.isAlumni = false ∧ v.role = Role.student ∧ v.batch = some 1 :=
  ⟨by decide, by
    obtain ⟨v, hv, h1, h2, h3, _⟩ := updateProfile_keeps_identity 10
      { isAlumni := some true, role := some Role.admin, batch := some 2,
        email := some "x@y.org", name := some "X", studentId := some "ID0",
        password := some "hunter22",
        fields := { ProfileBody.none with phone := some "555-1234" } }
      store1 (sampleStudent 10 1 false) (by decide)
    exact ⟨v, hv, h1, h2, h3⟩⟩

/-! ## Batch creation -/

theorem createBatchErrors_eq_nil (b : CreateBatchBody) :
    createBatchErrors b = [] ↔
      truthyS b.batchName = true ∧ b.year.isSome = true ∧ truthyS b.course = true ∧
      truthyS b.department = true ∧ b.startDate.isSome = true ∧ b.endDate.isSome = true := by
  simp [createBatchErrors, and_assoc, Option.isSome_iff_ne_none]

/-- On a body in stored form the handler on the body as sent is the handler
`createBatch`. -/
theorem createBatchRaw_of_stored_form (env : Env) (newId : ObjectId) (body : CreateBatchBody)
    (s : Store) (hn : ∀ x, body.batchName = some x → env.trim x = x)
    (hd : ∀ x, body.description = some x → env.trim x = x) :
    createBatchRaw env newId body s = createBatch newId body s := by
  by_cases herr : createBatchErrors body = []
  · obtain ⟨h1, h2, h3, h4, h5, h6⟩ := (createBatchErrors_eq_nil body).mp herr
    obtain ⟨bn, yr, co, de, sd, ed, desc⟩ := body
    cases bn with
    | none => simp [truthyS] at h1
    | some bn =>
    cases yr with
    | none => simp at h2
    | some yr =>
    cases co with
    | none => simp [truthyS] at h3
    | some co =>
    cases de with
    | none => simp [truthyS] at h4
    | some de =>
    cases sd with
    | none => simp at h5
    | some sd =>
    cases ed with
    | none => simp at h6
    | some ed =>
    have hbn : env.trim bn = bn := hn bn rfl
    have hne : bn ≠ "" := by simpa [truthyS] using h1
    have hdesc : desc.map env.trim = desc := by
      cases desc with
      | none => rfl
      | some d => simp [hd d rfl]
    simp [createBatchRaw, createBatch, herr, hbn, hne, hdesc]
  · simp [createBatchRaw, createBatch, herr]

/-- C19, as stated, fails: a batch name of one space passes the validation
chain, is trimmed to the empty string by the setter of the schema and fails
its `required` validator, so the request is answered 500, neither 400 nor
201, and stores nothing; and a name sent with spaces around it is stored
without them. -/
theorem createBatch_blank_name_is_500 :
    createBatchErrors { sampleBatchBody with batchName := some " " } = [] ∧
    createBatchRaw Env.sample 5 { sampleBatchBody with batchName := some " " } store1
      = (serverError, store1) ∧
    (createBatchRaw Env.sample 5 { sampleBatchBody with batchName := some " IT-2022 " }
      store1).1.status = 201 ∧
    (createBatchRaw Env.sample 5 { sampleBatchBody with batchName := some " IT-2022 " }
      store1).2.batches.map (fun b => b.batchName) = ["CS-1", "IT-2022"] := by
  decide

/-- C19, amended: `POST /batches` answers 400 and returns the store as it was
when a check of the validation chain fails or a stored batch has the
submitted `batchName` after trimming; it answers 500 and returns the store as
it was when the chain passes, no stored batch has the trimmed name and the
trimmed name is empty; otherwise it answers 201 with the new batch and the
batch list is the old one with that one batch appended, which carries the
trimmed name, the submitted year, course, department and dates, the trimmed
description, `isCompleted = false`, no `completedDate` and
`totalStudents = 0`. -/
theorem createBatchRaw_spec (env : Env) (newId : ObjectId) (body : CreateBatchBody)
    (s : Store) :
    ((createBatchErrors body ≠ [] ∨
        ∃ b ∈ s.batches, some b.batchName = body.batchName.map env.trim) →
      (createBatchRaw env newId body s).1.status = 400 ∧
      (createBatchRaw env newId body s).2 = s) ∧
    ((createBatchErrors body = [] ∧
        (∀ b ∈ s.batches, some b.batchName ≠ body.batchName.map env.trim) ∧
        body.batchName.map env.trim = some "") →
      createBatchRaw env newId body s = (serverError, s)) ∧
    ((createBatchErrors body = [] ∧
        (∀ b ∈ s.batches, some b.batchName ≠ body.batchName.map env.trim) ∧
        body.batchName.map env.trim ≠ some "") →
      ∃ batch : Batch,
        createBatchRaw env newId body s
          = (⟨201, .batch batch⟩, { s with batches := s.batches ++ [batch] }) ∧
        batch._id = newId ∧ some batch.batchName = body.batchName.map env.trim ∧
        some batch.year = body.year ∧ some batch.course = body.course ∧
        some batch.department = body.department ∧ some batch.startDate = body.startDate ∧
        some batch.endDate = body.endDate ∧
        batch.description = body.description.map env.trim ∧
        batch.isCompleted = false ∧ batch.completedDate = none ∧ batch.totalStudents = 0) := by
  by_cases herr : createBatchErrors body = []
  · obtain ⟨h1, h2, h3, h4, h5, h6⟩ := (createBatchErrors_eq_nil body).mp herr
    obtain ⟨bn, yr, co, de, sd, ed, desc⟩ := body
    cases bn with
    | none => simp [truthyS] at h1
    | some bn =>
    cases yr with
    | none => simp at h2
    | some yr =>
    cases co with
    | none => simp [truthyS] at h3
    | some co =>
    cases de with
    | none => simp [truthyS] at h4
    | some de =>
    cases sd with
    | none => simp at h5
    | some sd =>
    cases ed with
    | none => simp at h6
    | some ed =>
    cases hfind : s.batches.find? (fun b => b.batchName == env.trim bn) with
    | some found =>
      have hmem : found ∈ s.batches := List.mem_of_find?_eq_some hfind
      have hname : found.batchName = env.trim bn := by simpa using List.find?_some hfind
      refine ⟨fun _ => ?_, ?_, ?_⟩
      · simp [createBatchRaw, herr, hfind]
      · rintro ⟨_, hno, _⟩
        exact absurd (by simp [hname]) (hno found hmem)
      · rintro ⟨_, hno, _⟩
        exact absurd (by simp [hname]) (hno found hmem)
    | none =>
      have hnone : ∀ b ∈ s.batches, b.batchName ≠ env.trim bn := by
        simpa [List.find?_eq_none] using hfind
      refine ⟨?_, ?_, ?_⟩
      · rintro (h | ⟨b, hb, hbn⟩)
        · exact absurd herr h
        · exact absurd (by simpa using hbn) (hnone b hb)
      · rintro ⟨_, _, hempty⟩
        have hempty' : env.trim bn = "" := by simpa using hempty
        rw [hempty'] at hfind
        simp [createBatchRaw, herr, hfind, hempty']
      · rintro ⟨_, _, hne⟩
        have hne' : env.trim bn ≠ "" := by simpa using hne
        simp [createBatchRaw, herr, hfind, hne']
  · refine ⟨fun _ => ?_, ?_, ?_⟩
    · simp [createBatchRaw, herr]
    · rintro ⟨h, _⟩
      exact absurd h herr
    · rintro ⟨h, _⟩
      exact absurd h herr

theorem createBatchRaw_spec_witness :
    createBatchErrors sampleBatchBody = [] ∧
    (∃ batch : Batch,
      createBatchRaw Env.sample 5 sampleBatchBody store1
        = (⟨201, .batch batch⟩, { store1 with batches := store1.batches ++ [batch] }) ∧
      batch._id = 5 ∧
      some batch.batchName = sampleBatchBody.batchName.map Env.sample.trim ∧
      some batch.year = sampleBatchBody.year ∧ some batch.course = sampleBatchBody.course ∧
      some batch.department = sampleBatchBody.department ∧
      some batch.startDate = sampleBatchBody.startDate ∧
      some batch.endDate = sampleBatchBody.endDate ∧
      batch.description = sampleBatchBody.description.map Env.sample.trim ∧
      batch.isCompleted = false ∧ batch.completedDate = none ∧ batch.totalStudents = 0) :=
  ⟨by decide,
    (createBatchRaw_spec Env.sample 5 sampleBatchBody store1).2.2
      ⟨by decide, by decide, by decide⟩⟩

/-! ## What one request does to the store -/

theorem User.create_some {env : Env} {s s' : Store} {u : User}
    (h : User.create env s u = some s') :
    s' = User.insert s { u with password := env.hash u.password } := by
  unfold User.create at h
  split at h
  · exact (Option.some.inj h).symm
  · exact absurd h (by simp)

theorem createBatch_store (newId : ObjectId) (body : CreateBatchBody) (s : Store) :
    (createBatch newId body s).2 = s ∨
    ∃ n : Batch, n._id = newId ∧ n.isCompleted = false ∧ n.completedDate = none ∧
      (createBatch newId body s).2 = { s with batches := s.batches ++ [n] } := by
  unfold createBatch
  split
  · exact Or.inl rfl
  · split
    · split
      · exact Or.inl rfl
      · exact Or.inr ⟨_, rfl, rfl, rfl, rfl⟩
    · exact Or.inl rfl

theorem createStudent_store (env : Env) (newId : ObjectId) (body : StudentBody) (s : Store) :
    (createStudent env newId body s).2 = s ∨
    ∃ (n : User) (batchDoc : Batch), n._id = newId ∧ n.role = Role.student ∧
      n.batch = some batchDoc._id ∧ body.batch = some batchDoc._id ∧
      Batch.findById s batchDoc._id = some batchDoc ∧
      n.isAlumni = batchDoc.isCompleted ∧
      (createStudent env newId body s).2
        = Batch.updateStudentCount (User.insert s n) batchDoc := by
  unfold createStudent
  split
  · exact Or.inl rfl
  · split
    · split
      · exact Or.inl rfl
      · split
        · exact Or.inl rfl
        · dsimp only
          split
          · exact Or.inl rfl
          · rename_i name email password studentId batch hname hemail hpw hsid hbatch _ _ _
              batchDoc hfind _ s' hcreate
            have hid : batchDoc._id = batch := (batchFindById_some hfind).2
            have hs := User.create_some hcreate
            subst hs
            refine Or.inr ⟨_, batchDoc, ?_, ?_, ?_, ?_, ?_, ?_, rfl⟩
            · rfl
            · rfl
            · simp [hid]
            · rw [hbatch, hid]
            · rw [hid]; exact hfind
            · rfl
    · exact Or.inl rfl

theorem register_store (env : Env) (newId : ObjectId) (body : StudentBody) (s : Store) :
    (register env newId body s).2 = s ∨
    ∃ n : User, n._id = newId ∧
      ((register env newId body s).2 = User.insert s n ∨
        ∃ batchDoc : Batch, Batch.findById s batchDoc._id = some batchDoc ∧
          (register env newId body s).2
            = Batch.updateStudentCount (User.insert s n) batchDoc) := by
  unfold register
  split
  · exact Or.inl rfl
  · split
    · split
      · exact Or.inl rfl
      · split
        · exact Or.inl rfl
        · dsimp only
          split
          · exact Or.inl rfl
          · rename_i s' hcreate
            obtain ⟨n, hn, hs⟩ : ∃ n : User, n._id = newId ∧ s' = User.insert s n := by
              refine ⟨_, ?_, User.create_some hcreate⟩
              dsimp only
              split <;> rfl
            subst hs
            refine Or.inr ⟨n, hn, ?_⟩
            dsimp only
            split
            · split
              · split
                · rename_i batchDoc hfind
                  have hid := (batchFindById_some hfind).2
                  refine Or.inr ⟨batchDoc, ?_, rfl⟩
                  rw [hid]
                  exact hfind
                · exact Or.inl rfl
              · exact Or.inl rfl
            · exact Or.inl rfl
    · exact Or.inl rfl

theorem deleteStudent_store (id : ObjectId) (s : Store) :
    (deleteStudent id s).2 = s ∨
    (deleteStudent id s).2 = User.findByIdAndDelete s id ∨
    ∃ batch : Batch, Batch.findById s batch._id = some batch ∧
      (deleteStudent id s).2 = Batch.updateStudentCount (User.findByIdAndDelete s id) batch := by
  unfold deleteStudent
  split
  · exact Or.inl rfl
  · split
    · exact Or.inl rfl
    · dsimp only
      split
      · split
        · rename_i batch hfind
          have hid := (batchFindById_some hfind).2
          refine Or.inr (Or.inr ⟨batch, ?_, rfl⟩)
          rw [hid]
          exact hfind
        · exact Or.inr (Or.inl rfl)
      · exact Or.inr (Or.inl rfl)

theorem updateStudent_store (id : ObjectId) (body : StudentBody) (s : Store) :
    (updateStudent id body s).2 = s ∨
    ∃ x x' : User, User.findById s id = some x ∧ x'._id = x._id ∧ x'.isAlumni = x.isAlumni ∧
      (updateStudent id body s).2 = User.save s x' := by
  unfold updateStudent
  split
  · exact Or.inl rfl
  · split
    · exact Or.inl rfl
    · split
      · exact Or.inl rfl
      · split
        · exact Or.inl rfl
        · rename_i student hfind _ _ _
          dsimp only
          refine Or.inr ⟨student, _, hfind, ?_, ?_, rfl⟩ <;> rfl

theorem updateProfile_store_shape (uid : ObjectId) (body : ProfileBody) (s : Store) :
    (updateProfile uid body s).2 = s ∨
    ∃ x x' : User, User.findById s uid = some x ∧ x'._id = x._id ∧ x'.isAlumni = x.isAlumni ∧
      (updateProfile uid body s).2 = User.save s x' := by
  cases hu : User.findById s uid with
  | none => simp [updateProfile, hu]
  | some u =>
    rcases updateProfile_store body hu with h | h
    · exact Or.inl h
    · exact Or.inr ⟨u, applyProfile body u, rfl, applyProfile_id body u,
        applyProfile_isAlumni body u, h⟩

theorem uploadProfilePicture_store (d : Bool) (uid : ObjectId) (file : Option String)
    (s : Store) :
    (uploadProfilePicture d uid file s).2 = s ∨
    ∃ x x' : User, User.findById s uid = some x ∧ x'._id = x._id ∧ x'.isAlumni = x.isAlumni ∧
      (uploadProfilePicture d uid file s).2 = User.save s x' := by
  unfold uploadProfilePicture
  split
  · exact Or.inl rfl
  · split
    · exact Or.inl rfl
    · split
      · exact Or.inl rfl
      · rename_i user hfind _
        dsimp only
        refine Or.inr ⟨user, _, hfind, ?_, ?_, rfl⟩ <;> rfl

theorem uploadResume_store (d : Bool) (uid : ObjectId) (file : Option String) (s : Store) :
    (uploadResume d uid file s).2 = s ∨
    ∃ x x' : User, User.findById s uid = some x ∧ x'._id = x._id ∧ x'.isAlumni = x.isAlumni ∧
      (uploadResume d uid file s).2 = User.save s x' := by
  unfold uploadResume
  split
  · exact Or.inl rfl
  · split
    · exact Or.inl rfl
    · split
      · exact Or.inl rfl
      · split
        · exact Or.inl rfl
        · rename_i user hfind _ _
          dsimp only
          refine Or.inr ⟨user, _, hfind, ?_, ?_, rfl⟩ <;> rfl

theorem deleteProfilePicture_store (d : Bool) (uid : ObjectId) (s : Store) :
    (deleteProfilePicture d uid s).2 = s ∨
    ∃ x x' : User, User.findById s uid = some x ∧ x'._id = x._id ∧ x'.isAlumni = x.isAlumni ∧
      (deleteProfilePicture d uid s).2 = User.save s x' := by
  unfold deleteProfilePicture
  split
  · exact Or.inl rfl
  · split
    · exact Or.inl rfl
    · split
      · exact Or.inl rfl
      · rename_i user hfind _ _
        dsimp only
        refine Or.inr ⟨user, _, hfind, ?_, ?_, rfl⟩ <;> rfl

theorem deleteResume_store (d : Bool) (uid : ObjectId) (s : Store) :
    (deleteResume d uid s).2 = s ∨
    ∃ x x' : User, User.findById s uid = some x ∧ x'._id = x._id ∧ x'.isAlumni = x.isAlumni ∧
      (deleteResume d uid s).2 = User.save s x' := by
  unfold deleteResume
  split
  · exact Or.inl rfl
  · split
    · exact Or.inl rfl
    · split
      · exact Or.inl rfl
      · split
        · exact Or.inl rfl
        · rename_i user hfind _ _ _
          dsimp only
          refine Or.inr ⟨user, _, hfind, ?_, ?_, rfl⟩ <;> rfl

theorem createCompany_store (env : Env) (newId : ObjectId) (body : CompanyBody) (s : Store) :
    (createCompany env newId body s).2 = s ∨
    ∃ n : Company, n._id = newId ∧
      (createCompany env newId body s).2 = { s with companies := s.companies ++ [n] } := by
  unfold createCompany
  split
  · exact Or.inl rfl
  · split
    · split
      · exact Or.inl rfl
      · exact Or.inr ⟨_, rfl, rfl⟩
    · exact Or.inl rfl

theorem shareStudents_store (now : Date) (companyId : ObjectId) (body : ShareBody) (s : Store) :
    (shareStudents now companyId body s).2 = s ∨
    ∃ (x : Company) (batchId : ObjectId) (batch : Batch) (e : SharedStudentList),
      Company.findById s companyId = some x ∧ body.batchId = some batchId ∧
      Batch.findById s batchId = some batch ∧
      e.students = (s.users.filter
        (fun u => u.batch == some batchId && u.role == Role.student)).map (fun u => u._id) ∧
      e.batch = batchId ∧ e.sharedDate = now ∧
      e.message = assignS body.message ("Student list for " ++ batch.batchName) ∧
      (shareStudents now companyId body s).1 =
        ⟨200, .shared "Student list shared with company successfully" e.students.length⟩ ∧
      (shareStudents now companyId body s).2
        = Company.save s { x with sharedStudentLists := x.sharedStudentLists ++ [e] } := by
  unfold shareStudents
  split
  · exact Or.inl rfl
  · split
    · exact Or.inl rfl
    · split
      · exact Or.inl rfl
      · rename_i batchId hb _ company hc _ batch hbatch
        refine Or.inr ⟨company, batchId, batch, _, hc, hb, hbatch, rfl, rfl, rfl, rfl, ?_, rfl⟩
        simp

theorem batchesEffect_updateStudentCount (s0 s1 : Store) (b : Batch)
    (hb : Batch.findById s0 b._id = some b) (hs : s1.batches = s0.batches) :
    BatchesEffect s0.batches (Batch.updateStudentCount s1 b).batches := by
  refine Or.inr (Or.inr ⟨b, (batchFindById_some hb).1,
    { b with totalStudents := User.countDocuments s1 (fun u => u.batch == some b._id) },
    rfl, Or.inl ⟨rfl, rfl⟩, ?_⟩)
  rw [← hs]
  rfl

theorem usersEffect_save (s : Store) (id : ObjectId) (x x' : User)
    (hx : User.findById s id = some x) (hid : x'._id = x._id) (ha : x'.isAlumni = x.isAlumni) :
    UsersEffect s.users (User.save s x').users := by
  refine Or.inr (Or.inl ⟨x, (userFindById_some hx).1, x', hid, ha, ?_⟩)
  simp [User.save, hid]

theorem usersEffect_insert (s : Store) (n : User) (hn : ∀ u ∈ s.users, u._id ≠ n._id) :
    UsersEffect s.users (User.insert s n).users :=
  Or.inr (Or.inr (Or.inl ⟨n, hn, rfl⟩))

theorem batchesEffect_of_store_eq {s s1 t : Store} (h : s1 = t)
    (ht : t.batches = s.batches) : BatchesEffect s.batches s1.batches :=
  Or.inl (h ▸ ht)

/-- Every request changes the batch collection in one of the three ways of
`BatchesEffect`. -/
theorem run_batches (op : Op) (s : Store) : BatchesEffect s.batches (op.run s).2.batches := by
  cases op with
  | createBatch newId body =>
    rcases createBatch_store newId body s with h | ⟨n, _, h1, h2, h⟩
    · exact batchesEffect_of_store_eq h rfl
    · exact Or.inr (Or.inl ⟨n, h1, h2, congrArg Store.batches h⟩)
  | completeBatch now id =>
    show BatchesEffect s.batches (completeBatch now id s).2.batches
    cases hf : Batch.findById s id with
    | none => rw [completeBatch_of_none hf]; exact Or.inl rfl
    | some b =>
      rw [completeBatch_of_some hf]
      obtain ⟨hmem, hid⟩ := batchFindById_some hf
      refine Or.inr (Or.inr ⟨b, hmem,
        { b with isCompleted := true, completedDate := some now }, rfl, Or.inr ⟨rfl, rfl⟩, ?_⟩)
      simp [hid]
  | createStudent env newId body =>
    rcases createStudent_store env newId body s with h | ⟨n, b, _, _, _, _, hb, _, h⟩
    · exact batchesEffect_of_store_eq h rfl
    · show BatchesEffect s.batches (createStudent env newId body s).2.batches
      rw [h]
      exact batchesEffect_updateStudentCount s _ b hb rfl
  | updateStudent id body =>
    rcases updateStudent_store id body s with h | ⟨_, _, _, _, _, h⟩
    · exact batchesEffect_of_store_eq h rfl
    · exact batchesEffect_of_store_eq h rfl
  | deleteStudent id =>
    rcases deleteStudent_store id s with h | h | ⟨b, hb, h⟩
    · exact batchesEffect_of_store_eq h rfl
    · exact batchesEffect_of_store_eq h rfl
    · show BatchesEffect s.batches (deleteStudent id s).2.batches
      rw [h]
      exact batchesEffect_updateStudentCount s _ b hb rfl
  | createCompany env newId body =>
    rcases createCompany_store env newId body s with h | ⟨_, _, h⟩
    · exact batchesEffect_of_store_eq h rfl
    · exact batchesEffect_of_store_eq h rfl
  | shareStudents now companyId body =>
    rcases shareStudents_store now companyId body s with h | ⟨_, _, _, _, _, _, _, _, _, _, _, _, h⟩
    · exact batchesEffect_of_store_eq h rfl
    · exact batchesEffect_of_store_eq h rfl
  | register env newId body =>
    rcases register_store env newId body s with h | ⟨n, _, h | ⟨b, hb, h⟩⟩
    · exact batchesEffect_of_store_eq h rfl
    · exact batchesEffect_of_store_eq h rfl
    · show BatchesEffect s.batches (register env newId body s).2.batches
      rw [h]
      exact batchesEffect_updateStudentCount s _ b hb rfl
  | updateProfile uid body =>
    rcases updateProfile_store_shape uid body s with h | ⟨_, _, _, _, _, h⟩
    · exact batchesEffect_of_store_eq h rfl
    · exact batchesEffect_of_store_eq h rfl
  | uploadProfilePicture d uid file =>
    rcases uploadProfilePicture_store d uid file s with h | ⟨_, _, _, _, _, h⟩
    · exact batchesEffect_of_store_eq h rfl
    · exact batchesEffect_of_store_eq h rfl
  | uploadResume d uid file =>
    rcases uploadResume_store d uid file s with h | ⟨_, _, _, _, _, h⟩
    · exact batchesEffect_of_store_eq h rfl
    · exact batchesEffect_of_store_eq h rfl
  | deleteProfilePicture d uid =>
    rcases deleteProfilePicture_store d uid s with h | ⟨_, _, _, _, _, h⟩
    · exact batchesEffect_of_store_eq h rfl
    · exact batchesEffect_of_store_eq h rfl
  | deleteResume d uid =>
    rcases deleteResume_store d uid s with h | ⟨_, _, _, _, _, h⟩
    · exact batchesEffect_of_store_eq h rfl
    · exact batchesEffect_of_store_eq h rfl

theorem usersEffect_of_store_eq {s s1 t : Store} (h : s1 = t)
    (ht : UsersEffect s.users t.users) : UsersEffect s.users s1.users :=
  h ▸ ht

theorem usersEffect_refl (us : List User) : UsersEffect us us := Or.inl rfl

/-- Every request other than a batch completion changes the user collection
in one of the four ways of `UsersEffect`. -/
theorem run_users (op : Op) (s : Store) (hf : op.Fresh s) :
    (∃ now id, op = Op.completeBatch now id) ∨ UsersEffect s.users (op.run s).2.users := by
  cases op with
  | completeBatch now id => exact Or.inl ⟨now, id, rfl⟩
  | createBatch newId body =>
    right
    rcases createBatch_store newId body s with h | ⟨n, _, _, _, h⟩
    · exact usersEffect_of_store_eq h (usersEffect_refl _)
    · exact usersEffect_of_store_eq h (usersEffect_refl _)
  | createStudent env newId body =>
    right
    rcases createStudent_store env newId body s with h | ⟨n, b, hn, _, _, _, _, _, h⟩
    · exact usersEffect_of_store_eq h (usersEffect_refl _)
    · refine usersEffect_of_store_eq h (usersEffect_insert s n ?_)
      intro u hu
      rw [hn]
      exact hf u hu
  | updateStudent id body =>
    right
    rcases updateStudent_store id body s with h | ⟨x, x', hx, hid, ha, h⟩
    · exact usersEffect_of_store_eq h (usersEffect_refl _)
    · exact usersEffect_of_store_eq h (usersEffect_save s id x x' hx hid ha)
  | deleteStudent id =>
    right
    rcases deleteStudent_store id s with h | h | ⟨b, _, h⟩
    · exact usersEffect_of_store_eq h (usersEffect_refl _)
    · exact usersEffect_of_store_eq h (Or.inr (Or.inr (Or.inr ⟨id, rfl⟩)))
    · exact usersEffect_of_store_eq h (Or.inr (Or.inr (Or.inr ⟨id, rfl⟩)))
  | createCompany env newId body =>
    right
    rcases createCompany_store env newId body s with h | ⟨_, _, h⟩
    · exact usersEffect_of_store_eq h (usersEffect_refl _)
    · exact usersEffect_of_store_eq h (usersEffect_refl _)
  | shareStudents now companyId body =>
    right
    rcases shareStudents_store now companyId body s with
      h | ⟨_, _, _, _, _, _, _, _, _, _, _, _, h⟩
    · exact usersEffect_of_store_eq h (usersEffect_refl _)
    · exact usersEffect_of_store_eq h (usersEffect_refl _)
  | register env newId body =>
    right
    have hfresh : ∀ n : User, n._id = newId → ∀ u ∈ s.users, u._id ≠ n._id := by
      intro n hn u hu
      rw [hn]
      exact hf u hu
    rcases register_store env newId body s with h | ⟨n, hn, h | ⟨b, _, h⟩⟩
    · exact usersEffect_of_store_eq h (usersEffect_refl _)
    · exact usersEffect_of_store_eq h (usersEffect_insert s n (hfresh n hn))
    · exact usersEffect_of_store_eq h (usersEffect_insert s n (hfresh n hn))
  | updateProfile uid body =>
    right
    rcases updateProfile_store_shape uid body s with h | ⟨x, x', hx, hid, ha, h⟩
    · exact usersEffect_of_store_eq h (usersEffect_refl _)
    · exact usersEffect_of_store_eq h (usersEffect_save s uid x x' hx hid ha)
  | uploadProfilePicture d uid file =>
    right
    rcases uploadProfilePicture_store d uid file s with h | ⟨x, x', hx, hid, ha, h⟩
    · exact usersEffect_of_store_eq h (usersEffect_refl _)
    · exact usersEffect_of_store_eq h (usersEffect_save s uid x x' hx hid ha)
  | uploadResume d uid file =>
    right
    rcases uploadResume_store d uid file s with h | ⟨x, x', hx, hid, ha, h⟩
    · exact usersEffect_of_store_eq h (usersEffect_refl _)
    · exact usersEffect_of_store_eq h (usersEffect_save s uid x x' hx hid ha)
  | deleteProfilePicture d uid =>
    right
    rcases deleteProfilePicture_store d uid s with h | ⟨x, x', hx, hid, ha, h⟩
    · exact usersEffect_of_store_eq h (usersEffect_refl _)
    · exact usersEffect_of_store_eq h (usersEffect_save s uid x x' hx hid ha)
  | deleteResume d uid =>
    right
    rcases deleteResume_store d uid s with h | ⟨x, x', hx, hid, ha, h⟩
    · exact usersEffect_of_store_eq h (usersEffect_refl _)
    · exact usersEffect_of_store_eq h (usersEffect_save s uid x x' hx hid ha)

theorem companiesEffect_of_store_eq {s s1 t : Store} (h : s1 = t)
    (ht : CompaniesEffect s.companies t.companies) : CompaniesEffect s.companies s1.companies :=
  h ▸ ht

theorem companiesEffect_refl (cs : List Company) : CompaniesEffect cs cs := Or.inl rfl

/-- Every request changes the company collection in one of the three ways of
`CompaniesEffect`. -/
theorem run_companies (op : Op) (s : Store) :
    CompaniesEffect s.companies (op.run s).2.companies := by
  cases op with
  | completeBatch now id =>
    show CompaniesEffect s.companies (completeBatch now id s).2.companies
    cases hf : Batch.findById s id with
    | none => rw [completeBatch_of_none hf]; exact companiesEffect_refl _
    | some b => rw [completeBatch_of_some hf]; exact companiesEffect_refl _
  | createBatch newId body =>
    rcases createBatch_store newId body s with h | ⟨n, _, _, _, h⟩
    · exact companiesEffect_of_store_eq h (companiesEffect_refl _)
    · exact companiesEffect_of_store_eq h (companiesEffect_refl _)
  | createStudent env newId body =>
    rcases createStudent_store env newId body s with h | ⟨n, b, hn, _, _, _, _, _, h⟩
    · exact companiesEffect_of_store_eq h (companiesEffect_refl _)
    · exact companiesEffect_of_store_eq h (companiesEffect_refl _)
  | updateStudent id body =>
    rcases updateStudent_store id body s with h | ⟨x, x', hx, hid, ha, h⟩
    · exact companiesEffect_of_store_eq h (companiesEffect_refl _)
    · exact companiesEffect_of_store_eq h (companiesEffect_refl _)
  | deleteStudent id =>
    rcases deleteStudent_store id s with h | h | ⟨b, _, h⟩
    · exact companiesEffect_of_store_eq h (companiesEffect_refl _)
    · exact companiesEffect_of_store_eq h (companiesEffect_refl _)
    · exact companiesEffect_of_store_eq h (companiesEffect_refl _)
  | createCompany env newId body =>
    rcases createCompany_store env newId body s with h | ⟨n, _, h⟩
    · exact companiesEffect_of_store_eq h (companiesEffect_refl _)
    · exact companiesEffect_of_store_eq h (Or.inr (Or.inl ⟨n, rfl⟩))
  | shareStudents now companyId body =>
    rcases shareStudents_store now companyId body s with
      h | ⟨x, _, _, e, hx, _, _, _, _, _, _, _, h⟩
    · exact companiesEffect_of_store_eq h (companiesEffect_refl _)
    · have hxid : x._id = companyId := by
        simpa using List.find?_some hx
      refine companiesEffect_of_store_eq h (Or.inr (Or.inr
        ⟨x, { x with sharedStudentLists := x.sharedStudentLists ++ [e] }, ?_, rfl, ⟨e, rfl⟩, rfl⟩))
      rw [hxid]
      exact hx
  | register env newId body =>
    rcases register_store env newId body s with h | ⟨n, hn, h | ⟨b, _, h⟩⟩
    · exact companiesEffect_of_store_eq h (companiesEffect_refl _)
    · exact companiesEffect_of_store_eq h (companiesEffect_refl _)
    · exact companiesEffect_of_store_eq h (companiesEffect_refl _)
  | updateProfile uid body =>
    rcases updateProfile_store_shape uid body s with h | ⟨x, x', hx, hid, ha, h⟩
    · exact companiesEffect_of_store_eq h (companiesEffect_refl _)
    · exact companiesEffect_of_store_eq h (companiesEffect_refl _)
  | uploadProfilePicture d uid file =>
    rcases uploadProfilePicture_store d uid file s with h | ⟨x, x', hx, hid, ha, h⟩
    · exact companiesEffect_of_store_eq h (companiesEffect_refl _)
    · exact companiesEffect_of_store_eq h (companiesEffect_refl _)
  | uploadResume d uid file =>
    rcases uploadResume_store d uid file s with h | ⟨x, x', hx, hid, ha, h⟩
    · exact companiesEffect_of_store_eq h (companiesEffect_refl _)
    · exact companiesEffect_of_store_eq h (companiesEffect_refl _)
  | deleteProfilePicture d uid =>
    rcases deleteProfilePicture_store d uid s with h | ⟨x, x', hx, hid, ha, h⟩
    · exact companiesEffect_of_store_eq h (companiesEffect_refl _)
    · exact companiesEffect_of_store_eq h (companiesEffect_refl _)
  | deleteResume d uid =>
    rcases deleteResume_store d uid s with h | ⟨x, x', hx, hid, ha, h⟩
    · exact companiesEffect_of_store_eq h (companiesEffect_refl _)
    · exact companiesEffect_of_store_eq h (companiesEffect_refl _)

/-! ## The alumni flag over time -/

theorem eq_of_user_id {us : List User} (hu : (us.map (fun u => u._id)).Nodup) {u v : User}
    (hu1 : u ∈ us) (hv : v ∈ us) (hid : v._id = u._id) : v = u :=
  List.inj_on_of_nodup_map hu hv hu1 hid

theorem usersEffect_isAlumni {us us' : List User} (h : UsersEffect us us')
    (hu : (us.map (fun u => u._id)).Nodup) {u v : User} (hu1 : u ∈ us) (hv : v ∈ us')
    (hid : v._id = u._id) : v.isAlumni = u.isAlumni := by
  rcases h with h | ⟨x, hx, x', hxid, hxa, h⟩ | ⟨n, hn, h⟩ | ⟨id, h⟩
  · subst h
    rw [eq_of_user_id hu hu1 hv hid]
  · subst h
    simp only [List.mem_map] at hv
    obtain ⟨w, hw, hwv⟩ := hv
    by_cases hwx : w._id = x._id
    · rw [if_pos hwx] at hwv
      subst hwv
      have hxu : x = u := eq_of_user_id hu hu1 hx (hxid.symm.trans hid)
      rw [hxa, hxu]
    · rw [if_neg hwx] at hwv
      subst hwv
      rw [eq_of_user_id hu hu1 hw hid]
  · subst h
    rcases List.mem_append.mp hv with hv | hv
    · rw [eq_of_user_id hu hu1 hv hid]
    · have hvn : v = n := by simpa using hv
      subst hvn
      exact absurd hid.symm (hn u hu1)
  · subst h
    rw [eq_of_user_id hu hu1 (List.mem_of_mem_eraseP hv) hid]

/-- C14: on a store whose user ids are a primary key, and with a fresh id for
a created document, every request (create batch, complete batch, admin
create, update and delete of a student, create company, share-students,
register, profile self-update, the four upload routes) keeps `isAlumni = true`
of every user that exists before and after; and a user whose `isAlumni` goes
from false to true was a student whose batch reference is the existing batch
that a complete-batch request completes. -/
theorem isAlumni_changes_only_by_completion (op : Op) (s : Store) (hu : UserIdsUnique s)
    (hf : op.Fresh s) (u v : User) (hu1 : u ∈ s.users) (hv : v ∈ (op.run s).2.users)
    (hid : v._id = u._id) :
    (u.isAlumni = true → v.isAlumni = true) ∧
    (u.isAlumni = false → v.isAlumni = true →
      ∃ now id, op = Op.completeBatch now id ∧ (∃ b ∈ s.batches, b._id = id) ∧
        u.role = Role.student ∧ u.batch = some id) := by
  rcases run_users op s hf with ⟨now, id, hop⟩ | h
  · subst hop
    change v ∈ (completeBatch now id s).2.users at hv
    cases hfind : Batch.findById s id with
    | none =>
      rw [completeBatch_of_none hfind] at hv
      have hvu : v = u := eq_of_user_id hu hu1 hv hid
      subst hvu
      exact ⟨fun h => h, fun h1 h2 => absurd h2 (by simp [h1])⟩
    | some b =>
      rw [completeBatch_of_some hfind] at hv
      simp only [List.mem_map] at hv
      obtain ⟨w, hw, hwv⟩ := hv
      obtain ⟨hbmem, hbid⟩ := batchFindById_some hfind
      by_cases hc : (w.batch == some id && w.role == Role.student) = true
      · rw [if_pos hc] at hwv
        subst hwv
        have hwu : w = u := eq_of_user_id hu hu1 hw hid
        subst hwu
        refine ⟨fun _ => rfl, fun _ _ => ⟨now, id, rfl, ⟨b, hbmem, hbid⟩, ?_, ?_⟩⟩
        · simp at hc
          exact hc.2
        · simp at hc
          exact hc.1
      · rw [if_neg hc] at hwv
        subst hwv
        have hwu : w = u := eq_of_user_id hu hu1 hw hid
        subst hwu
        exact ⟨fun h => h, fun h1 h2 => absurd h2 (by simp [h1])⟩
  · have ha := usersEffect_isAlumni h hu hu1 hv hid
    exact ⟨fun h1 => ha.trans h1, fun h1 h2 => absurd (ha.symm.trans h2) (by simp [h1])⟩

theorem isAlumni_changes_only_by_completion_witness :
    UserIdsUnique store1 ∧
    ((sampleStudent 10 1 false).isAlumni = false →
      ({ sampleStudent 10 1 false with isAlumni := true } : User).isAlumni = true →
      ∃ now id, Op.completeBatch 7 1 = Op.completeBatch now id ∧
        (∃ b ∈ store1.batches, b._id = id) ∧
        (sampleStudent 10 1 false).role = Role.student ∧
        (sampleStudent 10 1 false).batch = some id) :=
  ⟨by decide,
    (isAlumni_changes_only_by_completion (Op.completeBatch 7 1) store1 (by decide) trivial
      (sampleStudent 10 1 false) { sampleStudent 10 1 false with isAlumni := true }
      (by decide) (by decide) rfl).2⟩

/-! ## Completion state of a batch over time -/

theorem batchesEffect_dateInv {bs bs' : List Batch} (h : BatchesEffect bs bs')
    (hinv : ∀ b ∈ bs, (b.isCompleted = true ↔ b.completedDate.isSome = true)) :
    ∀ b ∈ bs', (b.isCompleted = true ↔ b.completedDate.isSome = true) := by
  rcases h with h | ⟨n, hn1, hn2, h⟩ | ⟨x, hx, x', _, hx', h⟩
  · subst h
    exact hinv
  · subst h
    intro b hb
    rcases List.mem_append.mp hb with hb | hb
    · exact hinv b hb
    · have hbn : b = n := by simpa using hb
      subst hbn
      simp [hn1, hn2]
  · subst h
    intro b hb
    simp only [List.mem_map] at hb
    obtain ⟨w, hw, hwb⟩ := hb
    by_cases hwx : w._id = x._id
    · rw [if_pos hwx] at hwb
      subst hwb
      rcases hx' with ⟨h1, h2⟩ | ⟨h1, h2⟩
      · rw [h1, h2]
        exact hinv x hx
      · simp [h1, h2]
    · rw [if_neg hwx] at hwb
      subst hwb
      exact hinv w hw

/-- C15: on a store where every batch has `isCompleted = true` exactly when
its `completedDate` is set, the same holds after every request and after
`updateStudentCount` on a stored batch document; and a batch that
`POST /batches` adds has `isCompleted = false` and no `completedDate`. -/
theorem dateInv_preserved (s : Store) (h : DateInv s) :
    (∀ op : Op, DateInv (op.run s).2) ∧
    (∀ b : Batch, Batch.findById s b._id = some b → DateInv (Batch.updateStudentCount s b)) ∧
    (∀ (newId : ObjectId) (body : CreateBatchBody),
      ∀ b ∈ (createBatch newId body s).2.batches, b ∉ s.batches →
        b.isCompleted = false ∧ b.completedDate = none) := by
  refine ⟨fun op => batchesEffect_dateInv (run_batches op s) h,
    fun b hb => batchesEffect_dateInv (batchesEffect_updateStudentCount s s b hb rfl) h, ?_⟩
  intro newId body b hb hnot
  rcases createBatch_store newId body s with h1 | ⟨n, _, hn1, hn2, h1⟩
  · rw [h1] at hb
    exact absurd hb hnot
  · rw [h1] at hb
    rcases List.mem_append.mp hb with hb | hb
    · exact absurd hb hnot
    · have hbn : b = n := by simpa using hb
      subst hbn
      exact ⟨hn1, hn2⟩

theorem dateInv_preserved_witness :
    DateInv store2 ∧ DateInv ((Op.completeBatch 7 1).run store2).2 :=
  ⟨by decide, (dateInv_preserved store2 (by decide)).1 (Op.completeBatch 7 1)⟩

/-- C16: on a store whose batch ids are a primary key, a batch that has
`isCompleted = true` before a request is still stored, under the same `_id`
and with `isCompleted = true`, after it. -/
theorem completion_one_way (op : Op) (s : Store) (hu : BatchIdsUnique s) (b : Batch)
    (hb : b ∈ s.batches) (hc : b.isCompleted = true) :
    ∃ b' ∈ (op.run s).2.batches, b'._id = b._id ∧ b'.isCompleted = true := by
  rcases run_batches op s with h | ⟨n, _, _, h⟩ | ⟨x, hx, x', hxid, hx', h⟩
  · rw [h]
    exact ⟨b, hb, rfl, hc⟩
  · rw [h]
    exact ⟨b, List.mem_append_left _ hb, rfl, hc⟩
  · rw [h]
    by_cases hbx : b._id = x._id
    · have hxb : x = b := List.inj_on_of_nodup_map hu hx hb hbx.symm
      refine ⟨x', ?_, hxid.trans hbx.symm, ?_⟩
      · simp only [List.mem_map]
        exact ⟨b, hb, by simp [hbx]⟩
      · rcases hx' with ⟨h1, _⟩ | ⟨h1, _⟩
        · rw [h1, hxb]
          exact hc
        · exact h1
    · refine ⟨b, ?_, rfl, hc⟩
      simp only [List.mem_map]
      exact ⟨b, hb, by simp [hbx]⟩

theorem completion_one_way_witness :
    BatchIdsUnique store2 ∧
    ∃ b' ∈ ((Op.deleteStudent 10).run store2).2.batches,
      b'._id = (sampleBatch 2 true 0)._id ∧ b'.isCompleted = true :=
  ⟨by decide,
    completion_one_way (Op.deleteStudent 10) store2 (by decide) (sampleBatch 2 true 0)
      (by decide) rfl⟩

/-! ## Share events -/

theorem find?_map_replace_ne {α : Type} (key : α → ObjectId) (id id' : ObjectId) (new : α)
    (hnew : key new = id) (hne : id' ≠ id) (l : List α) :
    (l.map (fun x => if key x = id then new else x)).find? (fun x => key x == id')
      = l.find? (fun x => key x == id') := by
  induction l with
  | nil => rfl
  | cons c t ih =>
    simp only [List.map_cons, List.find?_cons]
    by_cases hc : key c = id
    · have h1 : (key new == id') = false := by
        simp only [hnew, beq_eq_false_iff_ne]
        exact Ne.symm hne
      have h2 : (key c == id') = false := by
        simp only [hc, beq_eq_false_iff_ne]
        exact Ne.symm hne
      rw [if_pos hc, h1, h2]
      exact ih
    · rw [if_neg hc, ih]

theorem companiesEffect_prefix {cs cs' : List Company} (h : CompaniesEffect cs cs')
    {id : ObjectId} {c : Company} (hc : cs.find? (fun x => x._id == id) = some c) :
    ∃ c', cs'.find? (fun x => x._id == id) = some c' ∧
      ∃ es, c'.sharedStudentLists = c.sharedStudentLists ++ es := by
  rcases h with h | ⟨n, h⟩ | ⟨x, x', hx, hxid, ⟨e, he⟩, h⟩
  · subst h
    exact ⟨c, hc, [], by simp⟩
  · subst h
    exact ⟨c, by simp [List.find?_append, hc], [], by simp⟩
  · subst h
    by_cases hid : id = x._id
    · subst hid
      have hcx : c = x := Option.some.inj (hc.symm.trans hx)
      subst hcx
      exact ⟨x', find?_map_replace (fun y : Company => y._id) c._id x' hxid cs hc, [e], he⟩
    · refine ⟨c, ?_, [], by simp⟩
      rw [find?_map_replace_ne (fun y : Company => y._id) x._id id x' hxid hid cs]
      exact hc

/-- C20: sharing the students of an existing batch with an existing company
answers 200 and the company found under that id afterwards is the old one
with exactly one entry appended to the end of `sharedStudentLists`; the
`students` of that entry are the ids of the users that have that batch and
role student in the store of the request, in store order.  After any
sequence of later requests the company is still found and its
`sharedStudentLists` starts with the entries it had, each unchanged. -/
theorem shareStudents_snapshot (s : Store) (companyId : ObjectId) (c : Company)
    (hc : Company.findById s companyId = some c) :
    (∀ (now : Date) (body : ShareBody) (batchId : ObjectId) (batch : Batch),
      body.batchId = some batchId → Batch.findById s batchId = some batch →
      ∃ e : SharedStudentList,
        (shareStudents now companyId body s).1
          = ⟨200, .shared "Student list shared with company successfully" e.students.length⟩ ∧
        Company.findById (shareStudents now companyId body s).2 companyId
          = some { c with sharedStudentLists := c.sharedStudentLists ++ [e] } ∧
        e.batch = batchId ∧
        e.students = (s.users.filter
          (fun u => u.batch == some batchId && u.role == Role.student)).map (fun u => u._id)) ∧
    (∀ ops : List Op, ∃ c', Company.findById (Op.runAll ops s) companyId = some c' ∧
      (∃ es, c'.sharedStudentLists = c.sharedStudentLists ++ es) ∧
      ∀ (i : Nat) (e : SharedStudentList), c.sharedStudentLists[i]? = some e →
        c'.sharedStudentLists[i]? = some e) := by
  constructor
  · intro now body batchId batch hb hbatch
    have hcid : c._id = companyId := by
      simpa using List.find?_some hc
    refine ⟨{ batch := batchId,
              students := (s.users.filter
                (fun u => u.batch == some batchId && u.role == Role.student)).map
                  (fun u => u._id),
              message := assignS body.message ("Student list for " ++ batch.batchName),
              sharedDate := now }, ?_, ?_, rfl, rfl⟩
    · simp [shareStudents, hb, hc, hbatch]
    · have hsave : (shareStudents now companyId body s).2 =
          Company.save s { c with sharedStudentLists := c.sharedStudentLists ++
            [{ batch := batchId,
               students := (s.users.filter
                 (fun u => u.batch == some batchId && u.role == Role.student)).map
                   (fun u => u._id),
               message := assignS body.message ("Student list for " ++ batch.batchName),
               sharedDate := now }] } := by
        simp [shareStudents, hb, hc, hbatch]
      rw [hsave]
      have := find?_map_replace (fun y : Company => y._id) companyId
        { c with sharedStudentLists := c.sharedStudentLists ++
            [{ batch := batchId,
               students := (s.users.filter
                 (fun u => u.batch == some batchId && u.role == Role.student)).map
                   (fun u => u._id),
               message := assignS body.message ("Student list for " ++ batch.batchName),
               sharedDate := now }] } hcid s.companies hc
      simpa [Company.findById, Company.save, hcid] using this
  · intro ops
    have key : ∀ (ops : List Op) (st : Store) (d : Company),
        Company.findById st companyId = some d →
        ∃ c', Company.findById (Op.runAll ops st) companyId = some c' ∧
          ∃ es, c'.sharedStudentLists = d.sharedStudentLists ++ es := by
      intro ops
      induction ops with
      | nil => exact fun st d hd => ⟨d, hd, [], by simp⟩
      | cons op rest ih =>
        intro st d hd
        obtain ⟨d1, hd1, es1, he1⟩ := companiesEffect_prefix (run_companies op st) hd
        obtain ⟨c', hc', es2, he2⟩ := ih (op.run st).2 d1 hd1
        exact ⟨c', hc', es1 ++ es2, by rw [he2, he1, List.append_assoc]⟩
    obtain ⟨c', hc', es, hes⟩ := key ops s c hc
    refine ⟨c', hc', ⟨es, hes⟩, ?_⟩
    intro i e hi
    have hlt : i < c.sharedStudentLists.length := by
      by_contra hge
      rw [List.getElem?_eq_none (Nat.le_of_not_lt hge)] at hi
      exact absurd hi (by simp)
    rw [hes, List.getElem?_append_left hlt]
    exact hi

theorem shareStudents_snapshot_witness :
    Company.findById store7 30
      = some (sampleCompany 30
          [{ batch := 1, sharedDate := 3, students := [10], message := "first" }]) ∧
    ∃ c', Company.findById
        (Op.runAll [Op.shareStudents 9 30 { batchId := some 1, message := none },
          Op.deleteStudent 10] store7) 30 = some c' ∧
      c'.sharedStudentLists[0]?
        = some { batch := 1, sharedDate := 3, students := [10], message := "first" } :=
  ⟨by decide, by
    obtain ⟨c', hc', _, hkeep⟩ := (shareStudents_snapshot store7 30
      (sampleCompany 30 [{ batch := 1, sharedDate := 3, students := [10], message := "first" }])
      (by decide)).2
      [Op.shareStudents 9 30 { batchId := some 1, message := none }, Op.deleteStudent 10]
    exact ⟨c', hc', hkeep 0 _ rfl⟩⟩

/-! ## Deleting and creating a student: the cached count -/

theorem length_filter_eraseP {α : Type} (q p : α → Bool) (l : List α) {x : α}
    (hfind : l.find? q = some x) (hp : p x = true) :
    ((l.eraseP q).filter p).length + 1 = (l.filter p).length := by
  induction l with
  | nil => simp at hfind
  | cons a t ih =>
    by_cases hq : q a = true
    · have hax : a = x := by simpa [List.find?_cons, hq] using hfind
      subst hax
      simp [List.eraseP_cons, hq, List.filter_cons, hp]
    · have hq' : q a = false := by simpa using hq
      have ht : t.find? q = some x := by simpa [List.find?_cons, hq'] using hfind
      have := ih ht
      by_cases hpa : p a = true
      · simp [List.eraseP_cons, hq', List.filter_cons, hpa, this]
      · simp [List.eraseP_cons, hq', List.filter_cons, hpa, this]

/-- C17: on a store where only students carry a batch reference (every store
the requests produce, `batchRefsOfStudents_runAll`, `batchRefsOfStudents_raw`)
and batch ids are a
primary key, deleting a student of the stored batch `B`, whose cached count
is exact, answers 200, removes that user and no other, and leaves `B` with
`totalStudents` one less than before, which is the number of students of `B`
left; the other fields of `B` (so `isCompleted` and `completedDate`), the
other batches, the other users and the companies are unchanged. -/
theorem deleteStudent_exact_of_students_only (id : ObjectId) (s : Store) (st : User) (B : Batch)
    (hb : BatchIdsUnique s) (hrefs : BatchRefsOfStudents s)
    (hst : User.findById s id = some st) (hrole : st.role = Role.student)
    (hbatch : st.batch = some B._id) (hB : Batch.findById s B._id = some B)
    (hcount : B.totalStudents = studentCount s B._id) :
    deleteStudent id s = (⟨200, .message "Student deleted successfully"⟩,
      { batches := s.batches.map (fun b =>
          if b._id = B._id then { b with totalStudents := B.totalStudents - 1 } else b),
        users := s.users.eraseP (fun u => u._id == id),
        companies := s.companies }) ∧
    0 < B.totalStudents ∧
    studentCount (deleteStudent id s).2 B._id = B.totalStudents - 1 := by
  have hB2 : Batch.findById (User.findByIdAndDelete s id) B._id = some B := hB
  have hlen : ((s.users.eraseP (fun u => u._id == id)).filter
      (fun u => u.batch == some B._id && u.role == Role.student)).length + 1
        = B.totalStudents := by
    rw [hcount]
    exact length_filter_eraseP _ _ s.users hst (by simp [hbatch, hrole])
  have hsame : (s.users.eraseP (fun u => u._id == id)).filter
      (fun u => u.batch == some B._id)
        = (s.users.eraseP (fun u => u._id == id)).filter
            (fun u => u.batch == some B._id && u.role == Role.student) := by
    apply List.filter_congr
    intro u hu
    have hmem : u ∈ s.users := List.mem_of_mem_eraseP hu
    by_cases hub : u.batch = some B._id
    · simp [hub, hrefs u hmem (by simp [hub])]
    · simp [hub]
  have hres : deleteStudent id s = (⟨200, .message "Student deleted successfully"⟩,
      Batch.updateStudentCount (User.findByIdAndDelete s id) B) := by
    simp [deleteStudent, hst, hrole, hbatch, hB2]
  have hcnt : User.countDocuments (User.findByIdAndDelete s id)
      (fun u => u.batch == some B._id) = B.totalStudents - 1 := by
    simp only [User.countDocuments, User.findByIdAndDelete]
    rw [hsame]
    omega
  refine ⟨?_, by omega, ?_⟩
  · rw [hres]
    simp only [Batch.updateStudentCount, Batch.save, hcnt, User.findByIdAndDelete]
    congr 2
    apply List.map_congr_left
    intro x hx
    by_cases hxid : x._id = B._id
    · have hxB : x = B := Batch.eq_of_findById hb hB hx hxid
      simp [hxB]
      exact hcnt
    · simp [hxid]
  · rw [hres]
    show ((s.users.eraseP (fun u => u._id == id)).filter
      (fun u => u.batch == some B._id && u.role == Role.student)).length = _
    omega

theorem deleteStudent_exact_of_students_only_witness :
    BatchRefsOfStudents store1 ∧ CountInv store1 ∧
    (deleteStudent 10 store1).2.users = [sampleStudent 11 1 false] ∧
    studentCount (deleteStudent 10 store1).2 1 = 1 :=
  ⟨by decide, by decide,
    by
      rw [(deleteStudent_exact_of_students_only 10 store1 (sampleStudent 10 1 false)
        (sampleBatch 1 false 2) (by decide) (by decide) (by decide) rfl rfl (by decide)
        (by decide)).1]
      decide,
    (deleteStudent_exact_of_students_only 10 store1 (sampleStudent 10 1 false)
      (sampleBatch 1 false 2) (by decide) (by decide) (by decide) rfl rfl (by decide)
      (by decide)).2.2⟩

/-- On a store where only students carry a batch reference, a valid
create-student request in stored form for the existing batch `B`, whose
cached count is exact, with an unused e-mail and student id, answers 201,
appends one student of `B` and leaves `B` with `totalStudents` one more, which
is the number of its students. -/
theorem createStudent_exact_of_students_only (env : Env) (newId : ObjectId) (s : Store)
    (B : Batch) (name email password studentId course department : String) (year : Int)
    (phone : Option String) (hb : BatchIdsUnique s) (hrefs : BatchRefsOfStudents s)
    (hname : name ≠ "") (hmail : env.isEmail email = true) (hemail : email ≠ "")
    (hpw : 6 ≤ password.length) (hsid : studentId ≠ "") (hcourse : course ≠ "")
    (hdept : department ≠ "")
    (hfresh : ∀ u ∈ s.users, ¬ u.email = email ∧ ¬ u.studentId = some studentId)
    (hB : Batch.findById s B._id = some B) (hcount : B.totalStudents = studentCount s B._id) :
    (createStudent env newId
      { name := some name, email := some email, password := some password, role := none,
        studentId := some studentId, batch := some B._id, course := some course,
        department := some department, year := some year, phone := phone } s).1.status = 201 ∧
    (createStudent env newId
      { name := some name, email := some email, password := some password, role := none,
        studentId := some studentId, batch := some B._id, course := some course,
        department := some department, year := some year, phone := phone } s).2
      = { batches := s.batches.map (fun b =>
            if b._id = B._id then { b with totalStudents := B.totalStudents + 1 } else b),
          users := s.users ++
            [{ User.defaults newId name email (env.hash password) Role.student with
                studentId := some studentId, batch := some B._id, course := some course,
                department := some department, year := some year, phone := phone,
                isAlumni := B.isCompleted }],
          companies := s.companies } ∧
    studentCount (createStudent env newId
      { name := some name, email := some email, password := some password, role := none,
        studentId := some studentId, batch := some B._id, course := some course,
        department := some department, year := some year, phone := phone } s).2 B._id
      = B.totalStudents + 1 := by
  have hfind : s.users.find? (fun u => u.email == email || u.studentId == some studentId)
      = none := by
    rw [List.find?_eq_none]
    intro u hu
    simp [(hfresh u hu).1, (hfresh u hu).2]
  have hidx : ∀ x ∈ s.users, ¬ x.email = email ∧ ¬ x.studentId = some studentId := hfresh
  have hcnt : (s.users.filter (fun u => u.batch == some B._id)).length = B.totalStudents := by
    rw [hcount]
    exact countDocuments_eq_studentCount s B._id
      (fun u hu hub => hrefs u hu (by simp [hub]))
  have hfull : createStudent env newId
      { name := some name, email := some email, password := some password, role := none,
        studentId := some studentId, batch := some B._id, course := some course,
        department := some department, year := some year, phone := phone } s
      = (⟨201, .user ((User.findById (Batch.updateStudentCount (User.insert s
            { User.defaults newId name email (env.hash password) Role.student with
              studentId := some studentId, batch := some B._id, course := some course,
              department := some department, year := some year, phone := phone,
              isAlumni := B.isCompleted }) B) newId).map
          (User.view (Batch.updateStudentCount (User.insert s
            { User.defaults newId name email (env.hash password) Role.student with
              studentId := some studentId, batch := some B._id, course := some course,
              department := some department, year := some year, phone := phone,
              isAlumni := B.isCompleted }) B)))⟩,
        Batch.updateStudentCount (User.insert s
          { User.defaults newId name email (env.hash password) Role.student with
            studentId := some studentId, batch := some B._id, course := some course,
            department := some department, year := some year, phone := phone,
            isAlumni := B.isCompleted }) B) := by
    simp [createStudent, createStudentErrors, truthyS_some, hname, hmail, hpw, hsid, hcourse,
      hdept, hfind, hB, User.create, User.validate, User.indexConflict, User.defaults,
      requiredS, currentStatusEnum, hemail]
    rw [if_pos hidx]
  have hres := congrArg Prod.snd hfull
  simp only at hres
  refine ⟨?_, ?_, ?_⟩
  · rw [hfull]
  · rw [hres]
    simp only [Batch.updateStudentCount, Batch.save, User.countDocuments, User.insert]
    congr 1
    apply List.map_congr_left
    intro x hx
    by_cases hxid : x._id = B._id
    · have hxB : x = B := Batch.eq_of_findById hb hB hx hxid
      simp [hxB, List.filter_append, hcnt, User.defaults]
    · simp [hxid]
  · rw [hres]
    simp only [studentCount, Batch.updateStudentCount, Batch.save, User.countDocuments,
      User.insert]
    rw [← hcnt]
    have := countDocuments_eq_studentCount s B._id
      (fun u hu hub => hrefs u hu (by simp [hub]))
    simp only [studentCount, User.countDocuments] at this
    simp [List.filter_append, User.defaults, this]

/-! ## Dashboard statistics -/

theorem length_filter_and_not {α : Type} (p q : α → Bool) (l : List α) :
    (l.filter (fun a => p a && q a)).length + (l.filter (fun a => p a && !q a)).length
      = (l.filter p).length := by
  induction l with
  | nil => rfl
  | cons a t ih =>
    cases hp : p a <;> cases hq : q a <;> simp [List.filter_cons, hp, hq] <;> omega

/-- C30: for every store the dashboard answers 200 with numbers in which
`currentStudents + totalAlumni = totalStudents`, `currentStudents` is the
number of students with `isAlumni` false (so it is not negative),
`activeBatches + completedBatches = totalBatches`, and `activeBatches` is the
number of batches with `isCompleted` false (so it is not negative). -/
theorem dashboardStats_consistent (s : Store) :
    ∃ st : DashboardStats, dashboardStats s = ⟨200, .stats st⟩ ∧
      st.currentStudents + st.totalAlumni = st.totalStudents ∧
      0 ≤ st.currentStudents ∧
      st.currentStudents
        = ((s.users.filter (fun u => u.role == Role.student && !u.isAlumni)).length : Int) ∧
      st.activeBatches + st.completedBatches = st.totalBatches ∧
      0 ≤ st.activeBatches ∧
      st.activeBatches = ((s.batches.filter (fun b => !b.isCompleted)).length : Int) := by
  have hu := length_filter_and_not (fun u : User => u.role == Role.student)
    (fun u => u.isAlumni) s.users
  have hb := length_filter_and_not (fun _ : Batch => true) (fun b => b.isCompleted) s.batches
  simp only [Bool.true_and] at hb
  refine ⟨_, rfl, ?_, ?_, ?_, ?_, ?_, ?_⟩ <;>
    simp only [User.countDocuments, Batch.countDocuments] <;> omega

/-! ## Creating a student in a batch -/

/-- A valid create-student request for an existing batch with an unused e-mail
and student id is answered 201 and stores the new document. -/
theorem createStudent_of_valid (env : Env) (newId : ObjectId) (s : Store) (B : Batch)
    (name email password studentId course department : String) (year : Int)
    (phone : Option String)
    (hname : name ≠ "") (hmail : env.isEmail email = true) (hemail : email ≠ "")
    (hpw : 6 ≤ password.length) (hsid : studentId ≠ "") (hcourse : course ≠ "")
    (hdept : department ≠ "")
    (hfresh : ∀ u ∈ s.users, ¬ u.email = email ∧ ¬ u.studentId = some studentId)
    (hB : Batch.findById s B._id = some B) :
    createStudent env newId
      { name := some name, email := some email, password := some password, role := none,
        studentId := some studentId, batch := some B._id, course := some course,
        department := some department, year := some year, phone := phone } s
      = (⟨201, .user ((User.findById (Batch.updateStudentCount (User.insert s
            { User.defaults newId name email (env.hash password) Role.student with
              studentId := some studentId, batch := some B._id, course := some course,
              department := some department, year := some year, phone := phone,
              isAlumni := B.isCompleted }) B) newId).map
          (User.view (Batch.updateStudentCount (User.insert s
            { User.defaults newId name email (env.hash password) Role.student with
              studentId := some studentId, batch := some B._id, course := some course,
              department := some department, year := some year, phone := phone,
              isAlumni := B.isCompleted }) B)))⟩,
        Batch.updateStudentCount (User.insert s
          { User.defaults newId name email (env.hash password) Role.student with
            studentId := some studentId, batch := some B._id, course := some course,
            department := some department, year := some year, phone := phone,
            isAlumni := B.isCompleted }) B) := by
  have hfind : s.users.find? (fun u => u.email == email || u.studentId == some studentId)
      = none := by
    rw [List.find?_eq_none]
    intro u hu
    simp [(hfresh u hu).1, (hfresh u hu).2]
  simp [createStudent, createStudentErrors, truthyS_some, hname, hmail, hpw, hsid, hcourse,
    hdept, hfind, hB, User.create, User.validate, User.indexConflict, User.defaults,
    requiredS, currentStatusEnum, hemail]
  rw [if_pos hfresh]

/-- C28: a valid admin create-student request for the existing batch `B` is
answered 201 and appends one user, a student of `B` whose `isAlumni` is
`B.isCompleted` as stored at that time: an alumni when `B` is completed, a
non-alumni when it is not. -/
theorem createStudent_inherits_completion (env : Env) (newId : ObjectId) (s : Store)
    (B : Batch) (name email password studentId course department : String) (year : Int)
    (phone : Option String)
    (hname : name ≠ "") (hmail : env.isEmail email = true) (hemail : email ≠ "")
    (hpw : 6 ≤ password.length) (hsid : studentId ≠ "") (hcourse : course ≠ "")
    (hdept : department ≠ "")
    (hfresh : ∀ u ∈ s.users, ¬ u.email = email ∧ ¬ u.studentId = some studentId)
    (hB : Batch.findById s B._id = some B) :
    (createStudent env newId
      { name := some name, email := some email, password := some password, role := none,
        studentId := some studentId, batch := some B._id, course := some course,
        department := some department, year := some year, phone := phone } s).1.status = 201 ∧
    ∃ n : User,
      (createStudent env newId
        { name := some name, email := some email, password := some password, role := none,
          studentId := some studentId, batch := some B._id, course := some course,
          department := some department, year := some year, phone := phone } s).2.users
        = s.users ++ [n] ∧
      n._id = newId ∧ n.role = Role.student ∧ n.batch = some B._id ∧
      n.isAlumni = B.isCompleted ∧
      (B.isCompleted = true → n.isAlumni = true) ∧
      (B.isCompleted = false → n.isAlumni = false) := by
  rw [createStudent_of_valid env newId s B name email password studentId course department
    year phone hname hmail hemail hpw hsid hcourse hdept hfresh hB]
  exact ⟨rfl, _, rfl, rfl, rfl, rfl, rfl, fun h => h, fun h => h⟩

theorem createStudent_inherits_completion_witness :
    Batch.findById store2 (sampleBatch 2 true 0)._id = some (sampleBatch 2 true 0) ∧
    ∃ n : User,
      (createStudent Env.sample 99
        { name := some "Ann", email := some "ann@x.org", password := some "secret1",
          role := none, studentId := some "ID99", batch := some (sampleBatch 2 true 0)._id,
          course := some "BTech", department := some "CS", year := some 2020,
          phone := none } store2).2.users = store2.users ++ [n] ∧
      n.isAlumni = true :=
  ⟨by decide, by
    obtain ⟨n, h1, _, _, _, h2, _⟩ := (createStudent_inherits_completion Env.sample 99 store2
      (sampleBatch 2 true 0) "Ann" "ann@x.org" "secret1" "ID99" "BTech" "CS" 2020 none
      (by decide) (by decide) (by decide) (by decide) (by decide) (by decide) (by decide)
      (by decide) (by decide)).2
    exact ⟨n, h1, h2⟩⟩

/-! ## Partial updates keyed on truthiness -/

theorem assignS_of_falsy {v : Option String} (old : String) (h : truthyS v = false) :
    assignS v old = old := by
  cases v with
  | none => rfl
  | some x =>
    have hx : x = "" := by simpa [truthyS] using h
    simp [assignS, hx]

theorem assignOS_of_falsy {v : Option String} (old : Option String) (h : truthyS v = false) :
    assignOS v old = old := by
  cases v with
  | none => rfl
  | some x =>
    have hx : x = "" := by simpa [truthyS] using h
    simp [assignOS, hx]

theorem assignN_of_falsy {v : Option Int} (old : Int) (h : truthyN v = false) :
    assignN v old = old := by
  cases v with
  | none => rfl
  | some x =>
    have hx : x = 0 := by simpa [truthyN] using h
    simp [assignN, hx]

theorem assignON_of_falsy {v : Option Int} (old : Option Int) (h : truthyN v = false) :
    assignON v old = old := by
  cases v with
  | none => rfl
  | some x =>
    have hx : x = 0 := by simpa [truthyN] using h
    simp [assignON, hx]

theorem assignS_eq_empty {v : Option String} {old : String} (h : assignS v old = "") :
    old = "" := by
  cases v with
  | none => exact h
  | some x =>
    by_cases hx : x = ""
    · simpa [assignS, hx] using h
    · simp [assignS, hx] at h

theorem assignN_eq_zero {v : Option Int} {old : Int} (h : assignN v old = 0) : old = 0 := by
  cases v with
  | none => exact h
  | some x =>
    by_cases hx : x = 0
    · simpa [assignN, hx] using h
    · simp [assignN, hx] at h

theorem assignOS_eq_some_empty {v old : Option String} (h : assignOS v old = some "") :
    old = some "" := by
  cases v with
  | none => exact h
  | some x =>
    by_cases hx : x = ""
    · simpa [assignOS, hx] using h
    · simp [assignOS, hx] at h

theorem assignON_eq_some_zero {v old : Option Int} (h : assignON v old = some 0) :
    old = some 0 := by
  cases v with
  | none => exact h
  | some x =>
    by_cases hx : x = 0
    · simpa [assignON, hx] using h
    · simp [assignON, hx] at h

/-- The store after an admin update is the old store or the old store with
the assigned document saved. -/
theorem updateStudent_store_of_found {id : ObjectId} {s : Store} {u : User} (body : StudentBody)
    (hu : User.findById s id = some u) :
    (updateStudent id body s).2 = s ∨
    (updateStudent id body s).2 = User.save s
      { u with
        name := assignS body.name u.name
        email := assignS body.email u.email
        studentId := assignOS body.studentId u.studentId
        batch := assignOA body.batch u.batch
        course := assignOS body.course u.course
        department := assignOS body.department u.department
        year := assignON body.year u.year
        phone := assignOS body.phone u.phone } := by
  simp only [updateStudent, hu]
  split
  · exact Or.inl rfl
  · split
    · exact Or.inl rfl
    · split
      · exact Or.inl rfl
      · exact Or.inr rfl

/-! ## Share-students: answers -/

/-- C25: with a batch id in the body, share-students answers 404 `Company not
found` when no company has the id, and 404 `Batch not found` when the company
exists and no batch has the batch id, in both cases with the store as it was.
When both exist it answers 200, the reported `sharedStudents` is the length
of the `students` of the appended entry, and the message of the entry is the
submitted message when one is given (non-empty), else `Student list for`
followed by the batch name. -/
theorem shareStudents_spec (now : Date) (companyId batchId : ObjectId)
    (message : Option String) (s : Store) :
    (Company.findById s companyId = none →
      shareStudents now companyId { batchId := some batchId, message := message } s
        = (⟨404, .message "Company not found"⟩, s)) ∧
    (∀ c : Company, Company.findById s companyId = some c → Batch.findById s batchId = none →
      shareStudents now companyId { batchId := some batchId, message := message } s
        = (⟨404, .message "Batch not found"⟩, s)) ∧
    (∀ (c : Company) (B : Batch), Company.findById s companyId = some c →
      Batch.findById s batchId = some B →
      ∃ e : SharedStudentList,
        (shareStudents now companyId { batchId := some batchId, message := message } s).1
          = ⟨200, .shared "Student list shared with company successfully" e.students.length⟩ ∧
        (shareStudents now companyId { batchId := some batchId, message := message } s).2
          = Company.save s { c with sharedStudentLists := c.sharedStudentLists ++ [e] } ∧
        (∀ m, message = some m → m ≠ "" → e.message = m) ∧
        (truthyS message = false → e.message = "Student list for " ++ B.batchName)) := by
  refine ⟨?_, ?_, ?_⟩
  · intro hc
    simp [shareStudents, hc]
  · intro c hc hb
    simp [shareStudents, hc, hb]
  · intro c B hc hb
    refine ⟨{ batch := batchId,
              students := (s.users.filter
                (fun u => u.batch == some batchId && u.role == Role.student)).map
                  (fun u => u._id),
              message := assignS message ("Student list for " ++ B.batchName),
              sharedDate := now }, ?_, ?_, ?_, ?_⟩
    · simp [shareStudents, hc, hb]
    · simp [shareStudents, hc, hb]
    · intro m hm hne
      simp [hm, assignS, hne]
    · intro h
      exact assignS_of_falsy _ h

/-! ## Not-found answers -/

theorem createStudentErrors_some (env : Env) (b : StudentBody)
    (h : createStudentErrors env b = []) :
    ∃ name email password studentId, b.name = some name ∧ b.email = some email ∧
      b.password = some password ∧ b.studentId = some studentId := by
  obtain ⟨name, email, password, role, studentId, batch, course, dept, year, phone⟩ := b
  cases name with
  | none => simp [createStudentErrors, truthyS] at h
  | some name =>
  cases email with
  | none => simp [createStudentErrors] at h
  | some email =>
  cases password with
  | none => simp [createStudentErrors] at h
  | some password =>
  cases studentId with
  | none => simp [createStudentErrors, truthyS] at h
  | some studentId => exact ⟨name, email, password, studentId, rfl, rfl, rfl, rfl⟩

/-- C21, as stated, fails: a valid create-student request whose batch id 5
matches no batch is answered 400, not 404 (with the store unchanged). -/
theorem createStudent_absent_batch_is_400 :
    Batch.findById store4 5 = none ∧
    createStudent Env.sample 99 (sampleRegistration 5) store4
      = (⟨400, .message "Batch not found"⟩, store4) := by
  decide

/-- C21, amended: a request that references an absent document is rejected
with the store unchanged.  Complete batch with an unknown id, admin get,
update and delete of an unknown or non-student user id, and share-students
with an unknown company or batch are answered 404; admin create student with
a batch id that matches no batch is answered 400 `Batch not found`. -/
theorem absent_reference_rejected (s : Store) :
    (∀ (now : Date) (id : ObjectId), Batch.findById s id = none →
      completeBatch now id s = (⟨404, .message "Batch not found"⟩, s)) ∧
    (∀ id : ObjectId,
      (User.findById s id = none ∨ ∃ u, User.findById s id = some u ∧ u.role ≠ Role.student) →
      getStudent id s = ⟨404, .message "Student not found"⟩ ∧
      (∀ body, updateStudent id body s = (⟨404, .message "Student not found"⟩, s)) ∧
      deleteStudent id s = (⟨404, .message "Student not found"⟩, s)) ∧
    (∀ (now : Date) (companyId batchId : ObjectId) (message : Option String),
      Company.findById s companyId = none →
      shareStudents now companyId { batchId := some batchId, message := message } s
        = (⟨404, .message "Company not found"⟩, s)) ∧
    (∀ (now : Date) (companyId batchId : ObjectId) (message : Option String),
      Company.findById s companyId ≠ none → Batch.findById s batchId = none →
      shareStudents now companyId { batchId := some batchId, message := message } s
        = (⟨404, .message "Batch not found"⟩, s)) ∧
    (∀ (env : Env) (newId : ObjectId) (body : StudentBody) (batch : ObjectId),
      createStudentErrors env body = [] → body.batch = some batch →
      (∀ u ∈ s.users, some u.email ≠ body.email ∧ u.studentId ≠ body.studentId) →
      Batch.findById s batch = none →
      createStudent env newId body s = (⟨400, .message "Batch not found"⟩, s)) := by
  refine ⟨fun now id h => completeBatch_of_none h, ?_, ?_, ?_, ?_⟩
  · intro id h
    rcases h with h | ⟨u, hu, hr⟩
    · refine ⟨?_, ?_, ?_⟩
      · simp [getStudent, h]
      · intro body
        simp [updateStudent, h]
      · simp [deleteStudent, h]
    · refine ⟨?_, ?_, ?_⟩
      · simp [getStudent, hu, hr]
      · intro body
        simp [updateStudent, hu, hr]
      · simp [deleteStudent, hu, hr]
  · intro now companyId batchId message hc
    simp [shareStudents, hc]
  · intro now companyId batchId message hc hb
    cases hfind : Company.findById s companyId with
    | none => exact absurd hfind hc
    | some c => simp [shareStudents, hfind, hb]
  · intro env newId body batch herr hbatch hfresh hb
    obtain ⟨name, email, password, studentId, hn, he, hp, hsid⟩ :=
      createStudentErrors_some env body herr
    have hfind : s.users.find? (fun u => u.email == email || u.studentId == some studentId)
        = none := by
      rw [List.find?_eq_none]
      intro u hu
      have h1 : ¬ u.email = email := fun h => (hfresh u hu).1 (by rw [he, h])
      have h2 : ¬ u.studentId = some studentId := fun h => (hfresh u hu).2 (by rw [hsid, h])
      simp [h1, h2]
    simp [createStudent, herr, hn, he, hp, hsid, hbatch, hfind, hb]

theorem absent_reference_rejected_witness :
    Batch.findById store4 9 = none ∧
    completeBatch 7 9 store4 = (⟨404, .message "Batch not found"⟩, store4) :=
  ⟨by decide, (absent_reference_rejected store4).1 7 9 (by decide)⟩

/-! ## Registration without a credential -/

/-- C23 at its failing input.  A caller that presents no credential registers
a student of batch 1: the request is answered 201 and the user is stored. -/
theorem register_student_without_admin :
    (registerRoute Caller.anonymous Env.sample 99 (sampleRegistration 1) store1).1.status = 201 ∧
    (User.findById
      (registerRoute Caller.anonymous Env.sample 99 (sampleRegistration 1) store1).2 99).map
        (fun u => (u.role, u.batch)) = some (Role.student, some 1) ∧
    (registerRoute Caller.anonymous Env.sample 99 (sampleRegistration 1) store1).2.users.length
      = store1.users.length + 1 := by
  decide

/-! ## Listing the batches -/

theorem batchOrder_total (a b : Batch) : batchOrder a b ∨ batchOrder b a := by
  unfold batchOrder
  rcases lt_trichotomy a.year b.year with h | h | h
  · exact Or.inr (Or.inl h)
  · rcases le_total a.batchName b.batchName with h' | h'
    · exact Or.inl (Or.inr ⟨h, h'⟩)
    · exact Or.inr (Or.inr ⟨h.symm, h'⟩)
  · exact Or.inl (Or.inl h)

theorem batchOrder_trans (a b c : Batch) (hab : batchOrder a b) (hbc : batchOrder b c) :
    batchOrder a c := by
  unfold batchOrder at *
  rcases hab with h1 | ⟨h1, h1'⟩ <;> rcases hbc with h2 | ⟨h2, h2'⟩
  · exact Or.inl (lt_trans h2 h1)
  · exact Or.inl (h2 ▸ h1)
  · exact Or.inl (h1 ▸ h2)
  · exact Or.inr ⟨h1.trans h2, le_trans h1' h2'⟩

/-- C26: both `GET /batches` routes answer 200 with the same list, which holds
every stored batch exactly once (it is a permutation of the collection) and
in which every batch comes before the batches of a smaller year and, among
the batches of its year, before those of a greater or equal name. -/
theorem listBatches_sorted (s : Store) :
    ∃ bs : List Batch, listBatches s = ⟨200, .batches bs⟩ ∧
      listBatchesForStudents s = ⟨200, .batches bs⟩ ∧
      bs.Perm s.batches ∧
      bs.Pairwise (fun a b =>
        b.year < a.year ∨ (a.year = b.year ∧ a.batchName ≤ b.batchName)) := by
  haveI : IsTotal Batch batchOrder := ⟨batchOrder_total⟩
  haveI : IsTrans Batch batchOrder := ⟨batchOrder_trans⟩
  exact ⟨Batch.findSorted s, rfl, rfl, List.perm_insertionSort batchOrder s.batches,
    List.sorted_insertionSort batchOrder s.batches⟩

/-! ## The profile handler against the field policy -/

theorem policy_step_jobRole (body : ProfileBody) (user acc : User) :
    (if (ProfileField.jobRole.submitted body && authorizeFieldWrite user .jobRole) = true
      then ProfileField.jobRole.set body acc else acc)
      = { acc with jobRole := if user.isAlumni then assignS body.jobRole acc.jobRole else acc.jobRole } := by
  cases acc
  cases ha : user.isAlumni <;> cases hv : body.jobRole <;>
    simp [ProfileField.submitted, ProfileField.set, authorizeFieldWrite, ALWAYS_EDITABLE,
      ALUMNI_ONLY, ha, hv, truthyS, truthyN, assignS, assignOS, assignN, assignA]
  all_goals (split <;> simp_all)

theorem policy_step_company (body : ProfileBody) (user acc : User) :
    (if (ProfileField.company.submitted body && authorizeFieldWrite user .company) = true
      then ProfileField.company.set body acc else acc)
      = { acc with company := if user.isAlumni then assignS body.company acc.company else acc.company } := by
  cases acc
  cases ha : user.isAlumni <;> cases hv : body.company <;>
    simp [ProfileField.submitted, ProfileField.set, authorizeFieldWrite, ALWAYS_EDITABLE,
      ALUMNI_ONLY, ha, hv, truthyS, truthyN, assignS, assignOS, assignN, assignA]
  all_goals (split <;> simp_all)

theorem policy_step_workLocation (body : ProfileBody) (user acc : User) :
    (if (ProfileField.workLocation.submitted body && authorizeFieldWrite user .workLocation) = true
      then ProfileField.workLocation.set body acc else acc)
      = { acc with workLocation := if user.isAlumni then assignS body.workLocation acc.workLocation else acc.workLocation } := by
  cases acc
  cases ha : user.isAlumni <;> cases hv : body.workLocation <;>
    simp [ProfileField.submitted, ProfileField.set, authorizeFieldWrite, ALWAYS_EDITABLE,
      ALUMNI_ONLY, ha, hv, truthyS, truthyN, assignS, assignOS, assignN, assignA]
  all_goals (split <;> simp_all)

theorem policy_step_experience (body : ProfileBody) (user acc : User) :
    (if (ProfileField.experience.submitted body && authorizeFieldWrite user .experience) = true
      then ProfileField.experience.set body acc else acc)
      = { acc with experience := if user.isAlumni then assignS body.experience acc.experience else acc.experience } := by
  cases acc
  cases ha : user.isAlumni <;> cases hv : body.experience <;>
    simp [ProfileField.submitted, ProfileField.set, authorizeFieldWrite, ALWAYS_EDITABLE,
      ALUMNI_ONLY, ha, hv, truthyS, truthyN, assignS, assignOS, assignN, assignA]
  all_goals (split <;> simp_all)

theorem policy_step_currentStatus (body : ProfileBody) (user acc : User) :
    (if (ProfileField.currentStatus.submitted body && authorizeFieldWrite user .currentStatus) = true
      then ProfileField.currentStatus.set body acc else acc)
      = { acc with currentStatus := if user.isAlumni then assignS body.currentStatus acc.currentStatus else acc.currentStatus } := by
  cases acc
  cases ha : user.isAlumni <;> cases hv : body.currentStatus <;>
    simp [ProfileField.submitted, ProfileField.set, authorizeFieldWrite, ALWAYS_EDITABLE,
      ALUMNI_ONLY, ha, hv, truthyS, truthyN, assignS, assignOS, assignN, assignA]
  all_goals (split <;> simp_all)

theorem policy_step_salary (body : ProfileBody) (user acc : User) :
    (if (ProfileField.salary.submitted body && authorizeFieldWrite user .salary) = true
      then ProfileField.salary.set body acc else acc)
      = { acc with salary := if user.isAlumni then assignN body.salary acc.salary else acc.salary } := by
  cases acc
  cases ha : user.isAlumni <;> cases hv : body.salary <;>
    simp [ProfileField.submitted, ProfileField.set, authorizeFieldWrite, ALWAYS_EDITABLE,
      ALUMNI_ONLY, ha, hv, truthyS, truthyN, assignS, assignOS, assignN, assignA]
  all_goals (split <;> simp_all)

theorem policy_step_achievements (body : ProfileBody) (user acc : User) :
    (if (ProfileField.achievements.submitted body && authorizeFieldWrite user .achievements) = true
      then ProfileField.achievements.set body acc else acc)
      = { acc with achievements := if user.isAlumni then assignA body.achievements acc.achievements else acc.achievements } := by
  cases acc
  cases ha : user.isAlumni <;> cases hv : body.achievements <;>
    simp [ProfileField.submitted, ProfileField.set, authorizeFieldWrite, ALWAYS_EDITABLE,
      ALUMNI_ONLY, ha, hv, truthyS, truthyN, assignS, assignOS, assignN, assignA]

theorem policy_step_linkedinProfile (body : ProfileBody) (user acc : User) :
    (if (ProfileField.linkedinProfile.submitted body && authorizeFieldWrite user .linkedinProfile) = true
      then ProfileField.linkedinProfile.set body acc else acc)
      = { acc with linkedinProfile := assignS body.linkedinProfile acc.linkedinProfile } := by
  cases acc
  cases ha : user.isAlumni <;> cases hv : body.linkedinProfile <;>
    simp [ProfileField.submitted, ProfileField.set, authorizeFieldWrite, ALWAYS_EDITABLE,
      ALUMNI_ONLY, ha, hv, truthyS, truthyN, assignS, assignOS, assignN, assignA]
  all_goals (split <;> simp_all)

theorem policy_step_githubProfile (body : ProfileBody) (user acc : User) :
    (if (ProfileField.githubProfile.submitted body && authorizeFieldWrite user .githubProfile) = true
      then ProfileField.githubProfile.set body acc else acc)
      = { acc with githubProfile := assignS body.githubProfile acc.githubProfile } := by
  cases acc
  cases ha : user.isAlumni <;> cases hv : body.githubProfile <;>
    simp [ProfileField.submitted, ProfileField.set, authorizeFieldWrite, ALWAYS_EDITABLE,
      ALUMNI_ONLY, ha, hv, truthyS, truthyN, assignS, assignOS, assignN, assignA]
  all_goals (split <;> simp_all)

theorem policy_step_portfolioWebsite (body : ProfileBody) (user acc : User) :
    (if (ProfileField.portfolioWebsite.submitted body && authorizeFieldWrite user .portfolioWebsite) = true
      then ProfileField.portfolioWebsite.set body acc else acc)
      = { acc with portfolioWebsite := assignS body.portfolioWebsite acc.portfolioWebsite } := by
  cases acc
  cases ha : user.isAlumni <;> cases hv : body.portfolioWebsite <;>
    simp [ProfileField.submitted, ProfileField.set, authorizeFieldWrite, ALWAYS_EDITABLE,
      ALUMNI_ONLY, ha, hv, truthyS, truthyN, assignS, assignOS, assignN, assignA]
  all_goals (split <;> simp_all)

theorem policy_step_phone (body : ProfileBody) (user acc : User) :
    (if (ProfileField.phone.submitted body && authorizeFieldWrite user .phone) = true
      then ProfileField.phone.set body acc else acc)
      = { acc with phone := assignOS body.phone acc.phone } := by
  cases acc
  cases ha : user.isAlumni <;> cases hv : body.phone <;>
    simp [ProfileField.submitted, ProfileField.set, authorizeFieldWrite, ALWAYS_EDITABLE,
      ALUMNI_ONLY, ha, hv, truthyS, truthyN, assignS, assignOS, assignN, assignA]
  all_goals (split <;> simp_all)

theorem policy_step_skills (body : ProfileBody) (user acc : User) :
    (if (ProfileField.skills.submitted body && authorizeFieldWrite user .skills) = true
      then ProfileField.skills.set body acc else acc)
      = { acc with skills := assignA body.skills acc.skills } := by
  cases acc
  cases ha : user.isAlumni <;> cases hv : body.skills <;>
    simp [ProfileField.submitted, ProfileField.set, authorizeFieldWrite, ALWAYS_EDITABLE,
      ALUMNI_ONLY, ha, hv, truthyS, truthyN, assignS, assignOS, assignN, assignA]

/-- The assignments of the two-branch handler are those of the field policy,
for every body and user. -/
theorem applyProfile_eq_applyPolicy (body : ProfileBody) (u : User) :
    applyProfile body u = applyPolicy body u := by
  unfold applyPolicy
  simp only [List.foldl, policy_step_phone, policy_step_jobRole, policy_step_company,
    policy_step_workLocation, policy_step_salary, policy_step_experience, policy_step_skills,
    policy_step_achievements, policy_step_linkedinProfile, policy_step_githubProfile,
    policy_step_portfolioWebsite, policy_step_currentStatus]
  cases ha : u.isAlumni
  · rw [applyProfile_of_nonAlumni body u ha]
    simp [ha]
  · rw [applyProfile_of_alumni body u ha]
    simp [ha]

/-- C27, as stated, fails: for the alumnus 12 and the body `currentStatus =
retired` the policy sets the field, but the request is rejected by the enum
validator and the stored user is the old one. -/
theorem updateProfile_not_policy_when_rejected :
    (applyPolicy { ProfileBody.none with currentStatus := some "retired" }
      sampleAlumnus).currentStatus = "retired" ∧
    User.findById (updateProfile 12
      { ProfileBody.none with currentStatus := some "retired" } store5).2 12
      = some sampleAlumnus ∧
    User.findById (updateProfile 12
      { ProfileBody.none with currentStatus := some "retired" } store5).2 12
      ≠ some (applyPolicy { ProfileBody.none with currentStatus := some "retired" }
          sampleAlumnus) := by
  decide

/-- C27, amended: the assignments of the two-branch handler equal the field
policy of section 4.3 for every user and body; the user stored after
`PUT /profile` is the result of the policy whenever the user is not an alumni
or the submitted `currentStatus` is absent, empty or one of the enum values,
and is the old user when an alumni submits a non-empty `currentStatus`
outside the enum (the request is answered 500). -/
theorem updateProfile_refines_policy (uid : ObjectId) (body : ProfileBody) (s : Store)
    (u : User) (hu : User.findById s uid = some u) :
    applyProfile body u = applyPolicy body u ∧
    ((u.isAlumni = true → ∀ c, body.currentStatus = some c → c = "" ∨ c ∈ currentStatusEnum) →
      (updateProfile uid body s).1.status = 200 ∧
      User.findById (updateProfile uid body s).2 uid = some (applyPolicy body u)) ∧
    (u.isAlumni = true → ∀ c, body.currentStatus = some c → c ≠ "" → c ∉ currentStatusEnum →
      (updateProfile uid body s).1.status = 500 ∧
      User.findById (updateProfile uid body s).2 uid = some u) := by
  have hid : u._id = uid := (userFindById_some hu).2
  refine ⟨applyProfile_eq_applyPolicy body u, ?_, ?_⟩
  · intro hok
    rw [updateProfile_of_accepted hu hok, ← applyProfile_eq_applyPolicy body u]
    exact ⟨rfl, userFindById_save _ hu ((applyProfile_id body u).trans hid)⟩
  · intro ha c hc hne hnot
    rw [updateProfile_of_rejected hu ha hc hne hnot]
    exact ⟨rfl, hu⟩

theorem updateProfile_refines_policy_witness :
    User.findById store5 12 = some sampleAlumnus ∧
    User.findById (updateProfile 12
      { ProfileBody.none with jobRole := some "Lead", phone := some "555-1234" } store5).2 12
      = some (applyPolicy
          { ProfileBody.none with jobRole := some "Lead", phone := some "555-1234" }
          sampleAlumnus) :=
  ⟨by decide,
    ((updateProfile_refines_policy 12
      { ProfileBody.none with jobRole := some "Lead", phone := some "555-1234" }
      store5 sampleAlumnus (by decide)).2.1 (by decide)).2⟩

/-! ## Uniqueness of e-mail and student id -/

theorem distinct_symm {u v : User} (h : Distinct u v) : Distinct v u := by
  unfold Distinct at *
  refine ⟨fun he => h.1 he.symm, fun hv hvu => ?_⟩
  have hu : u.studentId.isSome = true := by rw [← hvu]; exact hv
  exact h.2 hu hvu.symm

/-- A document that `new User(data).save()` stores clashes with no stored
document on the two unique indexes. -/
theorem uniqueInv_create {env : Env} {s s1 : Store} {u : User} (h : UniqueInv s)
    (hc : User.create env s u = some s1) : UniqueInv s1 := by
  have hs := User.create_some hc
  have hno : User.indexConflict s u = false := by
    unfold User.create at hc
    split at hc
    · rename_i hcond
      simp only [Bool.and_eq_true, Bool.not_eq_true'] at hcond
      exact hcond.2
    · exact absurd hc (by simp)
  subst hs
  unfold UniqueInv User.insert
  simp only [List.pairwise_append, List.pairwise_singleton, List.mem_singleton, true_and]
  refine ⟨h, ?_⟩
  intro a ha b hb
  subst hb
  unfold User.indexConflict at hno
  simp only [List.any_eq_false, Bool.or_eq_true, Bool.and_eq_true, beq_iff_eq, not_or,
    not_and] at hno
  obtain ⟨h1, h2⟩ := hno a ha
  refine ⟨h1, fun hsome heq => ?_⟩
  have heq' : a.studentId = u.studentId := heq
  exact h2 (by rw [← heq']; exact hsome) heq'

theorem createStudent_created (env : Env) (newId : ObjectId) (body : StudentBody) (s : Store) :
    (createStudent env newId body s).2 = s ∨
    ∃ (u : User) (s1 : Store), User.create env s u = some s1 ∧
      (createStudent env newId body s).2.users = s1.users := by
  unfold createStudent
  split
  · exact Or.inl rfl
  · split
    · split
      · exact Or.inl rfl
      · split
        · exact Or.inl rfl
        · dsimp only
          split
          · exact Or.inl rfl
          · rename_i s1 hcreate
            exact Or.inr ⟨_, s1, hcreate, rfl⟩
    · exact Or.inl rfl

theorem register_created (env : Env) (newId : ObjectId) (body : StudentBody) (s : Store) :
    (register env newId body s).2 = s ∨
    ∃ (u : User) (s1 : Store), User.create env s u = some s1 ∧
      (register env newId body s).2.users = s1.users := by
  unfold register
  split
  · exact Or.inl rfl
  · split
    · split
      · exact Or.inl rfl
      · split
        · exact Or.inl rfl
        · dsimp only
          split
          · exact Or.inl rfl
          · rename_i s1 hcreate
            refine Or.inr ⟨_, s1, hcreate, ?_⟩
            dsimp only
            split
            · split
              · split <;> rfl
              · rfl
            · rfl
    · exact Or.inl rfl

theorem pairwise_map_replace {R : User → User → Prop} (id : ObjectId) (x' : User)
    (l : List User) (hids : (l.map (fun u => u._id)).Nodup) (h : l.Pairwise R)
    (hnew : ∀ u ∈ l, u._id ≠ id → R u x' ∧ R x' u) :
    (l.map (fun u => if u._id = id then x' else u)).Pairwise R := by
  induction l with
  | nil => exact List.Pairwise.nil
  | cons a t ih =>
    have hids' : (t.map (fun u => u._id)).Nodup := (List.nodup_cons.mp hids).2
    have hat : ∀ b ∈ t, b._id ≠ a._id := by
      intro b hb heq
      exact (List.nodup_cons.mp hids).1 (List.mem_map.mpr ⟨b, hb, heq⟩)
    obtain ⟨hab, ht⟩ := List.pairwise_cons.mp h
    have hnew' : ∀ u ∈ t, u._id ≠ id → R u x' ∧ R x' u :=
      fun u hu => hnew u (List.mem_cons_of_mem a hu)
    by_cases ha : a._id = id
    · have htne : ∀ b ∈ t, b._id ≠ id := fun b hb => ha ▸ hat b hb
      rw [List.map_cons, if_pos ha, map_ite_id_of_ne (fun u : User => u._id) id _ t htne]
      exact List.pairwise_cons.mpr ⟨fun b hb => (hnew' b hb (htne b hb)).2, ht⟩
    · rw [List.map_cons, if_neg ha]
      refine List.pairwise_cons.mpr ⟨?_, ih hids' ht hnew'⟩
      intro b hb
      obtain ⟨c, hc, hcb⟩ := List.mem_map.mp hb
      by_cases hcid : c._id = id
      · rw [if_pos hcid] at hcb
        subst hcb
        exact (hnew a (List.mem_cons_self a t) ha).1
      · rw [if_neg hcid] at hcb
        subst hcb
        exact hab c hc

/-- An admin update writes only after both duplicate checks found nothing. -/
theorem updateStudent_saved_of_found {id : ObjectId} {s : Store} {u : User} (body : StudentBody)
    (hu : User.findById s id = some u) :
    (updateStudent id body s).2 = s ∨
    ((truthyS body.email && body.email != some u.email &&
        s.users.any (fun w => some w.email == body.email && w._id != u._id)) = false ∧
      (truthyS body.studentId && body.studentId != u.studentId &&
        s.users.any (fun w => w.studentId == body.studentId && w._id != u._id)) = false ∧
      (updateStudent id body s).2 = User.save s
        { u with
          name := assignS body.name u.name
          email := assignS body.email u.email
          studentId := assignOS body.studentId u.studentId
          batch := assignOA body.batch u.batch
          course := assignOS body.course u.course
          department := assignOS body.department u.department
          year := assignON body.year u.year
          phone := assignOS body.phone u.phone }) := by
  simp only [updateStudent, hu]
  split
  · exact Or.inl rfl
  · split
    · exact Or.inl rfl
    · split
      · exact Or.inl rfl
      · rename_i h1 h2
        exact Or.inr ⟨by simpa using h1, by simpa using h2, rfl⟩

theorem assignS_cases (v : Option String) (old : String) :
    assignS v old = old ∨ (∃ e, v = some e ∧ e ≠ "" ∧ assignS v old = e) := by
  cases v with
  | none => exact Or.inl rfl
  | some e =>
    by_cases he : e = ""
    · left; simp [assignS, he]
    · right; exact ⟨e, rfl, he, by simp [assignS, he]⟩

theorem assignOS_cases (v old : Option String) :
    assignOS v old = old ∨ (∃ e, v = some e ∧ e ≠ "" ∧ assignOS v old = some e) := by
  cases v with
  | none => exact Or.inl rfl
  | some e =>
    by_cases he : e = ""
    · left; simp [assignOS, he]
    · right; exact ⟨e, rfl, he, by simp [assignOS, he]⟩

/-- On a store with unique user ids, an admin update keeps e-mails and
student ids unique. -/
theorem uniqueInv_updateStudent (id : ObjectId) (body : StudentBody) (s : Store)
    (hids : UserIdsUnique s) (h : UniqueInv s) : UniqueInv (updateStudent id body s).2 := by
  cases hu : User.findById s id with
  | none => simpa [updateStudent, hu] using h
  | some u =>
    obtain ⟨humem, huid⟩ := userFindById_some hu
    rcases updateStudent_saved_of_found body hu with hs | ⟨hc1, hc2, hs⟩
    · rw [hs]; exact h
    · rw [hs]
      unfold UniqueInv User.save
      apply pairwise_map_replace u._id _ s.users hids h
      intro w hw hwid
      have hwu : w ≠ u := fun heq => hwid (by rw [heq])
      have hd1 : Distinct w u := List.Pairwise.forall (fun _ _ => distinct_symm) h hw humem hwu
      have hd2 : Distinct u w := distinct_symm hd1
      have hemail : w.email ≠ assignS body.email u.email := by
        rcases assignS_cases body.email u.email with he | ⟨e, hbe, hne, he⟩
        · rw [he]; exact hd1.1
        · rw [he]
          by_cases heu : e = u.email
          · rw [heu]; exact hd1.1
          · intro hwe
            have : (s.users.any (fun w => some w.email == body.email && w._id != u._id))
                = false := by
              simpa [hbe, truthyS, hne, heu] using hc1
            simp only [List.any_eq_false, Bool.and_eq_true, beq_iff_eq, bne_iff_ne, not_and,
              not_not] at this
            exact hwid (this w hw (by rw [hbe, hwe]))
      have hsid : w.studentId ≠ assignOS body.studentId u.studentId ∨
          (w.studentId = none ∧ assignOS body.studentId u.studentId = none) := by
        rcases assignOS_cases body.studentId u.studentId with he | ⟨e, hbe, hne, he⟩
        · rw [he]
          by_cases hws : w.studentId.isSome = true
          · exact Or.inl (hd1.2 hws)
          · by_cases hus : u.studentId.isSome = true
            · exact Or.inl (fun heq => hd2.2 hus heq.symm)
            · right
              constructor
              · simpa using hws
              · simpa using hus
        · rw [he]
          left
          by_cases heu : some e = u.studentId
          · rw [heu]
            exact fun heq => hd2.2 (by rw [← heu]; rfl) heq.symm
          · intro hwe
            have : (s.users.any (fun w => w.studentId == body.studentId && w._id != u._id))
                = false := by
              simpa [hbe, truthyS, hne, heu] using hc2
            simp only [List.any_eq_false, Bool.and_eq_true, beq_iff_eq, bne_iff_ne, not_and,
              not_not] at this
            exact hwid (this w hw (by rw [hbe, hwe]))
      unfold Distinct
      refine ⟨⟨hemail, fun hsome heq => ?_⟩, ⟨fun heq => hemail heq.symm, fun hsome heq => ?_⟩⟩
      · rcases hsid with hne | ⟨hnone, _⟩
        · exact hne heq
        · rw [hnone] at hsome
          simp at hsome
      · rcases hsid with hne | ⟨_, hnone⟩
        · exact hne heq.symm
        · have hsome' : (assignOS body.studentId u.studentId).isSome = true := hsome
          rw [hnone] at hsome'
          simp at hsome'

theorem registerErrors_some (env : Env) (b : StudentBody) (h : registerErrors env b = []) :
    ∃ name email password role, b.name = some name ∧ b.email = some email ∧
      b.password = some password ∧ b.role = some role := by
  obtain ⟨name, email, password, role, studentId, batch, course, dept, year, phone⟩ := b
  cases name with
  | none => simp [registerErrors, truthyS] at h
  | some name =>
  cases email with
  | none => simp [registerErrors] at h
  | some email =>
  cases password with
  | none => simp [registerErrors] at h
  | some password =>
  cases role with
  | none => simp [registerErrors] at h
  | some role => exact ⟨name, email, password, role, rfl, rfl, rfl, rfl⟩

/-! ## The credential and the answers of the read routes -/

theorem batchFindById_erasePasswords (s : Store) (id : ObjectId) :
    Batch.findById s.erasePasswords id = Batch.findById s id := rfl

theorem view_erasePassword (s : Store) (u : User) :
    User.view s.erasePasswords u.erasePassword = User.view s u := rfl

theorem publicView_erasePassword (s : Store) (d : Bool) (u : User) :
    User.publicView s.erasePasswords d u.erasePassword = User.publicView s d u := rfl

theorem userFindById_erasePasswords (s : Store) (id : ObjectId) :
    User.findById s.erasePasswords id = (User.findById s id).map User.erasePassword := by
  simp only [User.findById, Store.erasePasswords, List.find?_map]
  rfl

theorem value_erasePassword (key : SortKey) (hk : key ≠ SortKey.password) (u : User) :
    key.value u.erasePassword = key.value u := by
  cases key <;> first | rfl | exact absurd rfl hk

theorem sort_erasePassword (key : SortKey) (desc : Bool) (hk : key ≠ SortKey.password)
    (us : List User) :
    User.sort key desc (us.map User.erasePassword) =
      (User.sort key desc us).map User.erasePassword := by
  unfold User.sort
  symm
  apply List.map_insertionSort
  intro a _ b _
  simp only [userOrder, value_erasePassword key hk]

theorem sortOptions_ne_password (sortBy : Option SortKey) (sortOrder : Option String)
    (h : sortBy ≠ some SortKey.password) : (sortOptions sortBy sortOrder).1 ≠ SortKey.password := by
  cases sortBy with
  | none => simp [sortOptions]
  | some k =>
    intro hk
    apply h
    simp only [sortOptions] at hk
    rw [hk]

/-- The users a listing answers with, on the store without credentials. -/
theorem listing_erasePasswords {β : Type} (key : SortKey) (desc : Bool)
    (hk : key ≠ SortKey.password) (query : User → Bool)
    (hq : ∀ u, query u.erasePassword = query u) (view view1 : User → β)
    (hv : ∀ u, view1 u.erasePassword = view u) (us : List User) :
    (User.sort key desc ((us.map User.erasePassword).filter query)).map view1 =
      (User.sort key desc (us.filter query)).map view := by
  have hq1 : query ∘ User.erasePassword = query := funext hq
  rw [List.filter_map, hq1, sort_erasePassword key desc hk, List.map_map]
  apply List.map_congr_left
  intro u _
  exact hv u

theorem me_erasePasswords (uid : ObjectId) (s : Store) :
    me uid s.erasePasswords = me uid s := by
  simp only [me, userFindById_erasePasswords, Option.map_map]
  rfl

theorem getProfile_erasePasswords (uid : ObjectId) (s : Store) :
    getProfile uid s.erasePasswords = getProfile uid s := by
  simp only [getProfile, userFindById_erasePasswords, Option.map_map]
  rfl

theorem getStudent_erasePasswords (id : ObjectId) (s : Store) :
    getStudent id s.erasePasswords = getStudent id s := by
  simp only [getStudent, userFindById_erasePasswords]
  cases User.findById s id <;> rfl

theorem getAlumni_erasePasswords (id : ObjectId) (s : Store) :
    getAlumni id s.erasePasswords = getAlumni id s := by
  simp only [getAlumni, userFindById_erasePasswords]
  cases User.findById s id <;> rfl

theorem listStudents_erasePasswords (regExp : RegExp) (q : StudentsQuery) (s : Store)
    (hk : q.sortBy ≠ some SortKey.password) :
    listStudents regExp q s.erasePasswords = listStudents regExp q s := by
  unfold listStudents
  split
  · dsimp only
    rw [show s.erasePasswords.users = s.users.map User.erasePassword from rfl]
    congr 2
    apply listing_erasePasswords _ _ (sortOptions_ne_password _ _ hk)
    · intro u; rfl
    · exact view_erasePassword s
  · rfl

theorem listAlumni_erasePasswords (regExp : RegExp) (q : AlumniQuery) (s : Store)
    (hk : q.sortBy ≠ some SortKey.password) :
    listAlumni regExp q s.erasePasswords = listAlumni regExp q s := by
  unfold listAlumni
  split
  · dsimp only
    rw [show s.erasePasswords.users = s.users.map User.erasePassword from rfl]
    congr 2
    apply listing_erasePasswords _ _ (sortOptions_ne_password _ _ hk)
    · intro u; rfl
    · exact publicView_erasePassword s true
  · rfl

theorem myBatch_erasePasswords (uid : ObjectId) (s : Store) :
    myBatch uid s.erasePasswords = myBatch uid s := by
  simp only [myBatch, userFindById_erasePasswords]
  cases User.findById s uid with
  | none => rfl
  | some student =>
    dsimp only [Option.map]
    rw [show s.erasePasswords.users = s.users.map User.erasePassword from rfl]
    congr 2
    apply listing_erasePasswords _ _ (by decide)
    · intro u; rfl
    · exact publicView_erasePassword s true

theorem batchMates_erasePasswords (regExp : RegExp) (uid : ObjectId) (q : MatesQuery)
    (s : Store) :
    batchMates regExp uid q s.erasePasswords = batchMates regExp uid q s := by
  simp only [batchMates, userFindById_erasePasswords]
  cases User.findById s uid with
  | none => rfl
  | some student =>
    dsimp only [Option.map]
    split
    · rw [show s.erasePasswords.users = s.users.map User.erasePassword from rfl]
      congr 2
      apply listing_erasePasswords _ _ (by decide)
      · intro u; rfl
      · intro u; rfl
    · rfl

theorem findOneByEmail_erasePasswords (s : Store) (email : String) :
    User.findOneByEmail s.erasePasswords email =
      (User.findOneByEmail s email).map User.erasePassword := by
  simp only [User.findOneByEmail, Store.erasePasswords, List.find?_map]
  rfl


theorem eq_of_erasePasswords {α : Type} (f : Store → α)
    (hf : ∀ s, f s.erasePasswords = f s) (s t : Store) (h : DifferOnlyInPasswords s t) :
    f s = f t :=
  (hf s).symm.trans ((congrArg f h).trans (hf t))

theorem login_eq_of_compare (env : Env) (compare : String → String → Bool) (body : LoginBody)
    (s t : Store) (h : DifferOnlyInPasswords s t)
    (hc : ∀ email password u v, body.email = some email → body.password = some password →
      User.findOneByEmail s (env.email email) = some u →
      User.findOneByEmail t (env.email email) = some v →
      compare password u.password = compare password v.password) :
    login env compare body s = login env compare body t := by
  have hf : ∀ email, (User.findOneByEmail s email).map User.erasePassword =
      (User.findOneByEmail t email).map User.erasePassword := by
    intro email
    rw [← findOneByEmail_erasePasswords, ← findOneByEmail_erasePasswords]
    exact congrArg (fun x => User.findOneByEmail x email) h
  have hb : ∀ id, Batch.findById s id = Batch.findById t id := by
    intro id
    have h1 : Batch.findById s.erasePasswords id = Batch.findById t.erasePasswords id :=
      congrArg (fun x => Batch.findById x id) h
    exact h1
  unfold login
  split
  · rfl
  · cases he : body.email with
    | none => rfl
    | some email =>
      cases hp : body.password with
      | none => rfl
      | some password =>
        dsimp only
        have hfe := hf (env.email email)
        cases hu : User.findOneByEmail s (env.email email) with
        | none =>
          cases hv : User.findOneByEmail t (env.email email) with
          | none => rfl
          | some v => rw [hu, hv] at hfe; simp at hfe
        | some u =>
          cases hv : User.findOneByEmail t (env.email email) with
          | none => rw [hu, hv] at hfe; simp at hfe
          | some v =>
            have hcmp := hc email password u v he hp hu hv
            rw [hu, hv] at hfe
            simp only [Option.map_some', Option.some.injEq] at hfe
            have h1 : u._id = v._id := by have h := congrArg User._id hfe; exact h
            have h2 : u.name = v.name := by have h := congrArg User.name hfe; exact h
            have h3 : u.email = v.email := by have h := congrArg User.email hfe; exact h
            have h4 : u.role = v.role := by have h := congrArg User.role hfe; exact h
            have h5 : u.studentId = v.studentId := by have h := congrArg User.studentId hfe; exact h
            have h6 : u.batch = v.batch := by have h := congrArg User.batch hfe; exact h
            have h7 : u.isAlumni = v.isAlumni := by have h := congrArg User.isAlumni hfe; exact h
            have h8 : u.profilePicture = v.profilePicture := by have h := congrArg User.profilePicture hfe; exact h
            dsimp only
            rw [hcmp, h1, h2, h3, h4, h5, h6, h7, h8]
            cases v.batch with
            | none => rfl
            | some b => simp only [Option.bind_some, hb]

/-- C24, counterexample: the stores `store9` and `store8` differ only in the
credential of user 10, and the same request is answered differently by the
two: the login of user 10 with the password of `store9` is answered 200 on
`store9` and 400 "Invalid credentials" on `store8`, and the listing of the
administrator with `sortBy=password` lists user 10 first on `store9` and
user 11 first on `store8`. -/
theorem password_changes_answers :
    DifferOnlyInPasswords store9 store8 ∧
    (login Env.sample sampleCompare ⟨some "s10@x.org", some "apple1"⟩ store9).status = 200 ∧
    login Env.sample sampleCompare ⟨some "s10@x.org", some "apple1"⟩ store8 =
      ⟨400, .message "Invalid credentials"⟩ ∧
    listStudents sampleRegExp { StudentsQuery.none with sortBy := some SortKey.password } store9 =
      ⟨200, .users [User.view store1 (sampleStudent 10 1 false),
                    User.view store1 (sampleStudent 11 1 false)]⟩ ∧
    listStudents sampleRegExp { StudentsQuery.none with sortBy := some SortKey.password } store8 =
      ⟨200, .users [User.view store1 (sampleStudent 11 1 false),
                    User.view store1 (sampleStudent 10 1 false)]⟩ := by
  decide

/-! ## Only students carry a batch reference -/

theorem batchRefs_of_users {s s1 : Store} (h : BatchRefsOfStudents s)
    (hu : ∀ v ∈ s1.users, v ∈ s.users ∨ (v.batch.isSome = true → v.role = Role.student)) :
    BatchRefsOfStudents s1 := by
  intro v hv
  rcases hu v hv with hmem | hok
  · exact h v hmem
  · exact hok

theorem batchRefs_save {s : Store} (h : BatchRefsOfStudents s) (x : User)
    (hx : x.batch.isSome = true → x.role = Role.student) :
    BatchRefsOfStudents (User.save s x) := by
  apply batchRefs_of_users h
  intro v hv
  simp only [User.save, List.mem_map] at hv
  obtain ⟨u, hu, hv⟩ := hv
  by_cases hid : u._id = x._id
  · rw [if_pos hid] at hv
    subst hv
    exact Or.inr hx
  · rw [if_neg hid] at hv
    subst hv
    exact Or.inl hu

theorem batchRefs_insert {s : Store} (h : BatchRefsOfStudents s) (n : User)
    (hn : n.batch.isSome = true → n.role = Role.student) :
    BatchRefsOfStudents (User.insert s n) := by
  apply batchRefs_of_users h
  intro v hv
  simp only [User.insert, List.mem_append, List.mem_singleton] at hv
  rcases hv with hv | hv
  · exact Or.inl hv
  · subst hv
    exact Or.inr hn

theorem batchRefs_of_users_eq {s s1 : Store} (h : BatchRefsOfStudents s)
    (hu : s1.users = s.users) : BatchRefsOfStudents s1 := by
  apply batchRefs_of_users h
  intro v hv
  rw [hu] at hv
  exact Or.inl hv

theorem batchRefs_create {env : Env} {s s1 : Store} {u : User} (h : BatchRefsOfStudents s)
    (hc : User.create env s u = some s1) (hu : u.batch.isSome = true → u.role = Role.student) :
    BatchRefsOfStudents s1 := by
  rw [User.create_some hc]
  exact batchRefs_insert h _ hu

/-- No document that `POST /register` stores carries a batch reference
unless its role is student. -/
theorem register_created_refs (env : Env) (newId : ObjectId) (body : StudentBody) (s : Store) :
    (register env newId body s).2 = s ∨
    ∃ (u : User) (s1 : Store), User.create env s u = some s1 ∧
      (u.batch.isSome = true → u.role = Role.student) ∧
      (register env newId body s).2.users = s1.users := by
  unfold register
  split
  · exact Or.inl rfl
  · split
    · split
      · exact Or.inl rfl
      · split
        · exact Or.inl rfl
        · dsimp only
          split
          · exact Or.inl rfl
          · rename_i s1 hcreate
            refine Or.inr ⟨_, s1, hcreate, ?_, ?_⟩
            · split
              · rename_i hr
                intro _
                exact hr
              · intro hb
                simp [User.defaults] at hb
            · dsimp only
              split
              · split
                · split <;> rfl
                · rfl
              · rfl
    · exact Or.inl rfl

/-- Every request leaves a store on which only students carry a batch
reference such a store: the two routes that store a new user give it a batch
only with the role student, the admin update and delete act on students
only, and no route changes the role of a stored user. -/
theorem batchRefsOfStudents_run (op : Op) (s : Store) (h : BatchRefsOfStudents s) :
    BatchRefsOfStudents (op.run s).2 := by
  cases op with
  | createBatch newId body =>
    show BatchRefsOfStudents (createBatch newId body s).2
    rcases createBatch_store newId body s with h1 | ⟨n, _, _, _, h1⟩ <;> rw [h1]
    · exact h
    · exact batchRefs_of_users_eq h rfl
  | completeBatch now id =>
    show BatchRefsOfStudents (completeBatch now id s).2
    cases hb : Batch.findById s id with
    | none => rw [completeBatch_of_none hb]; exact h
    | some b =>
      rw [completeBatch_of_some hb]
      intro v hv
      simp only [List.mem_map] at hv
      obtain ⟨u, hu, hv⟩ := hv
      by_cases hc : (u.batch == some id && u.role == Role.student) = true
      · rw [if_pos hc] at hv
        subst hv
        exact h u hu
      · rw [if_neg hc] at hv
        subst hv
        exact h u hu
  | createStudent env newId body =>
    show BatchRefsOfStudents (createStudent env newId body s).2
    rcases createStudent_store env newId body s with h1 | ⟨n, b, _, hrole, _, _, _, _, h1⟩
    · rw [h1]; exact h
    · rw [h1]
      exact batchRefs_of_users_eq (batchRefs_insert h n (fun _ => hrole)) rfl
  | updateStudent id body =>
    show BatchRefsOfStudents (updateStudent id body s).2
    cases hu : User.findById s id with
    | none => simpa [updateStudent, hu] using h
    | some u =>
      by_cases hrole : u.role = Role.student
      · rcases updateStudent_store_of_found body hu with h1 | h1 <;> rw [h1]
        · exact h
        · exact batchRefs_save h _ (fun _ => hrole)
      · simpa [updateStudent, hu, hrole] using h
  | deleteStudent id =>
    show BatchRefsOfStudents (deleteStudent id s).2
    have hdel : BatchRefsOfStudents (User.findByIdAndDelete s id) := by
      apply batchRefs_of_users h
      intro v hv
      exact Or.inl (List.mem_of_mem_eraseP hv)
    rcases deleteStudent_store id s with h1 | h1 | ⟨b, _, h1⟩ <;> rw [h1]
    · exact h
    · exact hdel
    · exact batchRefs_of_users_eq hdel rfl
  | createCompany env newId body =>
    show BatchRefsOfStudents (createCompany env newId body s).2
    rcases createCompany_store env newId body s with h1 | ⟨n, _, h1⟩ <;> rw [h1]
    · exact h
    · exact batchRefs_of_users_eq h rfl
  | shareStudents now companyId body =>
    show BatchRefsOfStudents (shareStudents now companyId body s).2
    rcases shareStudents_store now companyId body s with h1 | ⟨x, _, _, e, _, _, _, _, _, _, _, _, h1⟩
    · rw [h1]; exact h
    · rw [h1]
      exact batchRefs_of_users_eq h rfl
  | register env newId body =>
    show BatchRefsOfStudents (register env newId body s).2
    rcases register_created_refs env newId body s with h1 | ⟨u, s1, hc, hok, h1⟩
    · rw [h1]; exact h
    · exact batchRefs_of_users_eq (batchRefs_create h hc hok) h1
  | updateProfile uid body =>
    show BatchRefsOfStudents (updateProfile uid body s).2
    cases hu : User.findById s uid with
    | none => simpa [updateProfile, hu] using h
    | some u =>
      have hmem := (userFindById_some hu).1
      rcases updateProfile_store body hu with h1 | h1 <;> rw [h1]
      · exact h
      · apply batchRefs_save h
        rw [(applyProfile_frame body u).1, (applyProfile_frame body u).2.1]
        exact h u hmem
  | uploadProfilePicture d uid file =>
    show BatchRefsOfStudents (uploadProfilePicture d uid file s).2
    unfold uploadProfilePicture
    split
    · exact h
    · split
      · exact h
      · split
        · exact h
        · rename_i user hfind _
          exact batchRefs_save h _ (h user (userFindById_some hfind).1)
  | uploadResume d uid file =>
    show BatchRefsOfStudents (uploadResume d uid file s).2
    unfold uploadResume
    split
    · exact h
    · split
      · exact h
      · split
        · exact h
        · split
          · exact h
          · rename_i user hfind _ _
            exact batchRefs_save h _ (h user (userFindById_some hfind).1)
  | deleteProfilePicture d uid =>
    show BatchRefsOfStudents (deleteProfilePicture d uid s).2
    unfold deleteProfilePicture
    split
    · exact h
    · split
      · exact h
      · split
        · exact h
        · rename_i user hfind _ _
          exact batchRefs_save h _ (h user (userFindById_some hfind).1)
  | deleteResume d uid =>
    show BatchRefsOfStudents (deleteResume d uid s).2
    unfold deleteResume
    split
    · exact h
    · split
      · exact h
      · split
        · exact h
        · split
          · exact h
          · rename_i user hfind _ _ _
            exact batchRefs_save h _ (h user (userFindById_some hfind).1)

/-- Any sequence of requests leaves a store on which only students carry a
batch reference such a store. -/
theorem batchRefsOfStudents_runAll (ops : List Op) (s : Store) (h : BatchRefsOfStudents s) :
    BatchRefsOfStudents (Op.runAll ops s) := by
  induction ops generalizing s with
  | nil => exact h
  | cons op ops ih =>
    show BatchRefsOfStudents (Op.runAll ops (op.run s).2)
    exact ih _ (batchRefsOfStudents_run op s h)

/-- After any sequence of requests on the empty database only students carry
a batch reference. -/
theorem batchRefsOfStudents_reachable (ops : List Op) :
    BatchRefsOfStudents (Op.runAll ops { batches := [], users := [], companies := [] }) :=
  batchRefsOfStudents_runAll ops _ (by intro u hu; cases hu)


/-- C7: on a store where only students carry a batch reference (every store
the requests produce, `batchRefsOfStudents_runAll`, `batchRefsOfStudents_raw`)
and batch ids are a
primary key, `updateStudentCount` on a stored batch `B`, whatever value of
`totalStudents` it has cached, gives the old store with, in `B`, only
`totalStudents` rewritten, to the number of users whose batch is `B` and
whose role is student; every other field of `B`, the other batches, the
users and the companies are unchanged. -/
theorem updateStudentCount_exact (s : Store) (B : Batch)
    (hrefs : BatchRefsOfStudents s) (hb : BatchIdsUnique s)
    (hB : Batch.findById s B._id = some B) :
    Batch.updateStudentCount s B
      = { s with batches := s.batches.map (fun b =>
            if b._id = B._id then { b with totalStudents := studentCount s B._id } else b) } ∧
    Batch.findById (Batch.updateStudentCount s B) B._id
      = some { B with totalStudents := studentCount s B._id } ∧
    (Batch.updateStudentCount s B).users = s.users := by
  have hcnt : (s.users.filter (fun u => u.batch == some B._id)).length
      = studentCount s B._id :=
    countDocuments_eq_studentCount s B._id (fun u hu hub => hrefs u hu (by simp [hub]))
  refine ⟨?_, ?_, rfl⟩
  · simp only [Batch.updateStudentCount, Batch.save, User.countDocuments]
    congr 1
    apply List.map_congr_left
    intro x hx
    by_cases hxid : x._id = B._id
    · have hxB : x = B := Batch.eq_of_findById hb hB hx hxid
      simp [hxB, hcnt]
    · simp [hxid]
  · simp only [Batch.updateStudentCount, Batch.save, User.countDocuments, hcnt]
    exact batchFindById_save { B with totalStudents := studentCount s B._id } hB rfl _ _

theorem updateStudentCount_exact_witness :
    BatchRefsOfStudents store1 ∧ BatchIdsUnique store1 ∧
    Batch.findById (Batch.updateStudentCount store1 (sampleBatch 1 false 2))
        (sampleBatch 1 false 2)._id
      = some { sampleBatch 1 false 2 with
          totalStudents := studentCount store1 (sampleBatch 1 false 2)._id } :=
  ⟨by decide, by decide,
    (updateStudentCount_exact store1 (sampleBatch 1 false 2) (by decide) (by decide)
      (by decide)).2.1⟩


/-! ## Creating a student: the cached count -/

/-- C18: on a store where only students carry a batch reference (every store
the requests produce, `batchRefsOfStudents_runAll`, `batchRefsOfStudents_raw`)
and batch ids are a
primary key, a valid create-student request (name not empty after trimming,
valid e-mail, password of six characters or more, student id, course and
department not empty, numeric year) for the stored batch `B`, whose cached
count is exact, with an e-mail and a student id that no stored user holds, is
answered 201; the user list is the old one with one student of `B` appended,
the other batches and the other fields of `B` are unchanged, and
`B.totalStudents` is one more than before, which is the number of students of
`B`. -/
theorem createStudentRaw_exact (env : Env) (newId : ObjectId) (s : Store)
    (B : Batch) (name email password studentId course department : String)
    (year : NumberInput) (y : Int) (phone : Option String)
    (hb : BatchIdsUnique s) (hrefs : BatchRefsOfStudents s)
    (hname : name ≠ "") (htrim : env.trim name ≠ "") (hmail : env.isEmail email = true)
    (hemail : env.email email ≠ "") (hpw : 6 ≤ password.length) (hsid : studentId ≠ "")
    (hcourse : course ≠ "") (hdept : department ≠ "")
    (hnum : year.isNumeric env = true) (hyear : year.cast env = some (some y))
    (hfresh : ∀ u ∈ s.users, ¬ u.email = env.email email ∧ ¬ u.studentId = some studentId)
    (hB : Batch.findById s B._id = some B) (hcount : B.totalStudents = studentCount s B._id) :
    (createStudentRaw env newId
      { name := some name, email := some email, password := some password, role := none,
        studentId := some studentId, batch := some B._id, course := some course,
        department := some department, year := some year, phone := phone } s).1.status = 201 ∧
    (createStudentRaw env newId
      { name := some name, email := some email, password := some password, role := none,
        studentId := some studentId, batch := some B._id, course := some course,
        department := some department, year := some year, phone := phone } s).2
      = { batches := s.batches.map (fun b =>
            if b._id = B._id then { b with totalStudents := B.totalStudents + 1 } else b),
          users := s.users ++
            [{ User.defaults newId (env.trim name) (env.email email) (env.hash password)
                Role.student with
                studentId := some studentId, batch := some B._id, course := some course,
                department := some department, year := some y,
                phone := phone.map env.trim, isAlumni := B.isCompleted }],
          companies := s.companies } ∧
    studentCount (createStudentRaw env newId
      { name := some name, email := some email, password := some password, role := none,
        studentId := some studentId, batch := some B._id, course := some course,
        department := some department, year := some year, phone := phone } s).2 B._id
      = B.totalStudents + 1 := by
  have hfind : s.users.find?
      (fun u => u.email == env.email email || u.studentId == some studentId) = none := by
    rw [List.find?_eq_none]
    intro u hu
    simp [(hfresh u hu).1, (hfresh u hu).2]
  have hidx : ∀ x ∈ s.users, ¬ x.email = env.email email ∧ ¬ x.studentId = some studentId :=
    hfresh
  have hcnt : (s.users.filter (fun u => u.batch == some B._id)).length = B.totalStudents := by
    rw [hcount]
    exact countDocuments_eq_studentCount s B._id
      (fun u hu hub => hrefs u hu (by simp [hub]))
  have hfull : createStudentRaw env newId
      { name := some name, email := some email, password := some password, role := none,
        studentId := some studentId, batch := some B._id, course := some course,
        department := some department, year := some year, phone := phone } s
      = (⟨201, .user ((User.findById (Batch.updateStudentCount (User.insert s
            { User.defaults newId (env.trim name) (env.email email) (env.hash password)
                Role.student with
              studentId := some studentId, batch := some B._id, course := some course,
              department := some department, year := some y, phone := phone.map env.trim,
              isAlumni := B.isCompleted }) B) newId).map
          (User.view (Batch.updateStudentCount (User.insert s
            { User.defaults newId (env.trim name) (env.email email) (env.hash password)
                Role.student with
              studentId := some studentId, batch := some B._id, course := some course,
              department := some department, year := some y, phone := phone.map env.trim,
              isAlumni := B.isCompleted }) B)))⟩,
        Batch.updateStudentCount (User.insert s
          { User.defaults newId (env.trim name) (env.email email) (env.hash password)
              Role.student with
            studentId := some studentId, batch := some B._id, course := some course,
            department := some department, year := some y, phone := phone.map env.trim,
            isAlumni := B.isCompleted }) B) := by
    simp [createStudentRaw, createStudentErrorsRaw, truthyS_some, hname, hmail, hpw, hsid,
      hcourse, hdept, hnum, hfind, hB, hyear, User.create, User.validate, User.indexConflict,
      User.defaults, requiredS, currentStatusEnum, hemail, htrim]
    rw [if_pos hidx]
  have hres := congrArg Prod.snd hfull
  simp only at hres
  refine ⟨?_, ?_, ?_⟩
  · rw [hfull]
  · rw [hres]
    simp only [Batch.updateStudentCount, Batch.save, User.countDocuments, User.insert]
    congr 1
    apply List.map_congr_left
    intro x hx
    by_cases hxid : x._id = B._id
    · have hxB : x = B := Batch.eq_of_findById hb hB hx hxid
      simp [hxB, List.filter_append, hcnt, User.defaults]
    · simp [hxid]
  · rw [hres]
    simp only [studentCount, Batch.updateStudentCount, Batch.save, User.countDocuments,
      User.insert]
    rw [← hcnt]
    have := countDocuments_eq_studentCount s B._id
      (fun u hu hub => hrefs u hu (by simp [hub]))
    simp only [studentCount, User.countDocuments] at this
    simp [List.filter_append, User.defaults, this]

theorem createStudentRaw_exact_witness :
    BatchRefsOfStudents store1 ∧ CountInv store1 ∧
    (createStudentRaw Env.sample 99
      { name := some " Ann ", email := some "Ann@X.org", password := some "secret1",
        role := none, studentId := some "ID99", batch := some (sampleBatch 1 false 2)._id,
        course := some "BTech", department := some "CS", year := some (.str "2020"),
        phone := none } store1).1.status = 201 ∧
    studentCount (createStudentRaw Env.sample 99
      { name := some " Ann ", email := some "Ann@X.org", password := some "secret1",
        role := none, studentId := some "ID99", batch := some (sampleBatch 1 false 2)._id,
        course := some "BTech", department := some "CS", year := some (.str "2020"),
        phone := none } store1).2 (sampleBatch 1 false 2)._id = 2 + 1 :=
  ⟨by decide, by decide,
    (createStudentRaw_exact Env.sample 99 store1 (sampleBatch 1 false 2) " Ann " "Ann@X.org"
      "secret1" "ID99" "BTech" "CS" (.str "2020") 2020 none (by decide) (by decide)
      (by decide) (by decide) (by decide) (by decide) (by decide) (by decide) (by decide)
      (by decide) (by decide) (by decide) (by decide) (by decide) (by decide)).1,
    (createStudentRaw_exact Env.sample 99 store1 (sampleBatch 1 false 2) " Ann " "Ann@X.org"
      "secret1" "ID99" "BTech" "CS" (.str "2020") 2020 none (by decide) (by decide)
      (by decide) (by decide) (by decide) (by decide) (by decide) (by decide) (by decide)
      (by decide) (by decide) (by decide) (by decide) (by decide) (by decide)).2.2⟩


/-! ## Uniqueness of e-mail and student id: requests as sent -/

theorem createStudentErrorsRaw_some (env : Env) (b : RawStudentBody)
    (h : createStudentErrorsRaw env b = []) :
    ∃ name email password studentId batch year, b.name = some name ∧ b.email = some email ∧
      b.password = some password ∧ b.studentId = some studentId ∧ b.batch = some batch ∧
      b.year = some year := by
  obtain ⟨name, email, password, role, studentId, batch, course, dept, year, phone⟩ := b
  cases name with
  | none => simp [createStudentErrorsRaw, truthyS] at h
  | some name =>
  cases email with
  | none => simp [createStudentErrorsRaw] at h
  | some email =>
  cases password with
  | none => simp [createStudentErrorsRaw] at h
  | some password =>
  cases studentId with
  | none => simp [createStudentErrorsRaw, truthyS] at h
  | some studentId =>
  cases batch with
  | none => simp [createStudentErrorsRaw] at h
  | some batch =>
  cases year with
  | none => simp [createStudentErrorsRaw] at h
  | some year => exact ⟨name, email, password, studentId, batch, year, rfl, rfl, rfl, rfl, rfl, rfl⟩

theorem registerErrorsRaw_some (env : Env) (b : RawStudentBody)
    (h : registerErrorsRaw env b = []) :
    ∃ name email password role, b.name = some name ∧ b.email = some email ∧
      b.password = some password ∧ b.role = some role := by
  obtain ⟨name, email, password, role, studentId, batch, course, dept, year, phone⟩ := b
  cases name with
  | none => simp [registerErrorsRaw, truthyS] at h
  | some name =>
  cases email with
  | none => simp [registerErrorsRaw] at h
  | some email =>
  cases password with
  | none => simp [registerErrorsRaw] at h
  | some password =>
  cases role with
  | none => simp [registerErrorsRaw] at h
  | some role => exact ⟨name, email, password, role, rfl, rfl, rfl, rfl⟩

/-- The store after `POST /students` is the old one, or its users are those
after `new User(data).save()`; the new document has the role student. -/
theorem createStudentRaw_created (env : Env) (newId : ObjectId) (body : RawStudentBody)
    (s : Store) :
    (createStudentRaw env newId body s).2 = s ∨
    ∃ (u : User) (s1 : Store), User.create env s u = some s1 ∧ u.role = Role.student ∧
      (createStudentRaw env newId body s).2.users = s1.users := by
  unfold createStudentRaw
  split
  · exact Or.inl rfl
  · split
    · split
      · exact Or.inl rfl
      · split
        · exact Or.inl rfl
        · split
          · exact Or.inl rfl
          · dsimp only
            split
            · exact Or.inl rfl
            · rename_i s1 hcreate
              exact Or.inr ⟨_, s1, hcreate, rfl, rfl⟩
    · exact Or.inl rfl

/-- The store after `POST /register` is the old one, or its users are those
after `new User(data).save()`; the new document carries a batch reference
only with the role student. -/
theorem registerRaw_created (env : Env) (newId : ObjectId) (body : RawStudentBody)
    (s : Store) :
    (registerRaw env newId body s).2 = s ∨
    ∃ (u : User) (s1 : Store), User.create env s u = some s1 ∧
      (u.batch.isSome = true → u.role = Role.student) ∧
      (registerRaw env newId body s).2.users = s1.users := by
  unfold registerRaw
  split
  · exact Or.inl rfl
  · split
    · split
      · exact Or.inl rfl
      · split
        · exact Or.inl rfl
        · dsimp only
          split
          · rename_i hr
            split
            · exact Or.inl rfl
            · split
              · exact Or.inl rfl
              · rename_i s1 hcreate
                refine Or.inr ⟨_, s1, hcreate, fun _ => hr, ?_⟩
                dsimp only
                split
                · split <;> rfl
                · rfl
          · split
            · exact Or.inl rfl
            · rename_i s1 hcreate
              refine Or.inr ⟨_, s1, hcreate, ?_, rfl⟩
              intro hb
              simp [User.defaults] at hb
    · exact Or.inl rfl

/-- The store after `PUT /students/:id` is the old one, or the old one with
the assigned document, which clashes with no other document on the unique
indexes, saved under the `_id` and with the role of the student found. -/
theorem applyStudentRaw_some {env : Env} {body : RawStudentBody} {u x : User}
    (h : applyStudentRaw env body u = some x) :
    ∃ year, assignONumber env body.year u.year = some year ∧
      x = { u with
        name := assignSet env.trim body.name u.name
        email := assignSet env.email body.email u.email
        studentId := assignOS body.studentId u.studentId
        batch := assignOA body.batch u.batch
        course := assignOS body.course u.course
        department := assignOS body.department u.department
        year := year
        phone := assignOSet env.trim body.phone u.phone } := by
  unfold applyStudentRaw at h
  split at h
  · exact absurd h (by simp)
  · rename_i year hyear
    exact ⟨year, hyear, (Option.some.inj h).symm⟩

theorem updateStudentRaw_saved {env : Env} {id : ObjectId} {s : Store} {u : User}
    (body : RawStudentBody) (hu : User.findById s id = some u) :
    (updateStudentRaw env id body s).2 = s ∨
    ∃ x : User, x._id = u._id ∧ x.role = u.role ∧ u.role = Role.student ∧
      x.isAlumni = u.isAlumni ∧ x.password = u.password ∧
      User.indexConflictOnUpdate s u x = false ∧
      (updateStudentRaw env id body s).1 =
        ⟨200, .user ((User.findById (User.save s x) x._id).map (User.view (User.save s x)))⟩ ∧
      (updateStudentRaw env id body s).2 = User.save s x := by
  simp only [updateStudentRaw, hu]
  split
  · exact Or.inl rfl
  · rename_i hrole
    split
    · exact Or.inl rfl
    · split
      · exact Or.inl rfl
      · split
        · exact Or.inl rfl
        · rename_i x hx
          obtain ⟨year, _, hxe⟩ := applyStudentRaw_some hx
          split
          · exact Or.inl rfl
          · rename_i hc
            refine Or.inr ⟨x, ?_, ?_, ?_, ?_, ?_, ?_, rfl, rfl⟩
            · rw [hxe]
            · rw [hxe]
            · simpa using hrole
            · rw [hxe]
            · rw [hxe]
            · simp only [Bool.or_eq_true, not_or, Bool.not_eq_true] at hc
              exact hc.2

/-- A document saved over a stored one keeps e-mails and student ids unique
when it clashes with no other document on the unique indexes. -/
theorem uniqueInv_save {s : Store} {u x : User} (hids : UserIdsUnique s) (h : UniqueInv s)
    (hu : u ∈ s.users) (hid : x._id = u._id)
    (hc : User.indexConflictOnUpdate s u x = false) : UniqueInv (User.save s x) := by
  unfold UniqueInv User.save
  rw [hid]
  apply pairwise_map_replace u._id _ s.users hids h
  intro w hw hwid
  have hwu : w ≠ u := fun heq => hwid (by rw [heq])
  have hd1 : Distinct w u := List.Pairwise.forall (fun _ _ => distinct_symm) h hw hu hwu
  have hd2 : Distinct u w := distinct_symm hd1
  unfold User.indexConflictOnUpdate at hc
  simp only [Bool.or_eq_false_iff, Bool.and_eq_false_iff, bne_eq_false_iff_eq,
    List.any_eq_false, Bool.and_eq_true, bne_iff_ne, beq_iff_eq, not_and] at hc
  obtain ⟨hce, hcs⟩ := hc
  have hemail : w.email ≠ x.email := by
    rcases hce with he | he
    · rw [he]; exact hd1.1
    · exact he w hw hwid
  have hsid : w.studentId ≠ x.studentId ∨ (w.studentId = none ∧ x.studentId = none) := by
    rcases hcs with (he | he) | he
    · rw [he]
      by_cases hws : w.studentId.isSome = true
      · exact Or.inl (hd1.2 hws)
      · by_cases hus : u.studentId.isSome = true
        · exact Or.inl (fun heq => hd2.2 hus heq.symm)
        · right
          constructor
          · simpa using hws
          · simpa using hus
    · have hx : x.studentId = none := by
        cases hxs : x.studentId with
        | none => rfl
        | some _ => rw [hxs] at he; simp at he
      rw [hx]
      by_cases hws : w.studentId = none
      · exact Or.inr ⟨hws, rfl⟩
      · exact Or.inl hws
    · exact Or.inl (he w hw hwid)
  unfold Distinct
  refine ⟨⟨hemail, fun hsome heq => ?_⟩, ⟨fun heq => hemail heq.symm, fun hsome heq => ?_⟩⟩
  · rcases hsid with hne | ⟨hnone, _⟩
    · exact hne heq
    · rw [hnone] at hsome
      simp at hsome
  · rcases hsid with hne | ⟨_, hnone⟩
    · exact hne heq.symm
    · rw [hnone] at hsome
      simp at hsome

/-- C22, as stated, fails on the message: a registration whose e-mail is held
by student 10 is answered 400 `User already exists with this email`; and an
admin create-student request with an unused student id and the e-mail of
student 10 in capital letters, which the query finds after the `lowercase`
setter, is answered 400 `Student ID already exists` although only the e-mail
collides. -/
theorem conflict_message_differs :
    registerRaw Env.sample 99
      { (sampleRegistration 1).toRaw with email := some "s10@x.org" } store1
      = (⟨400, .message "User already exists with this email"⟩, store1) ∧
    createStudentRaw Env.sample 99
      { (sampleRegistration 1).toRaw with email := some "S10@X.ORG" } store1
      = (⟨400, .message "Student ID already exists"⟩, store1) := by
  decide


/-- C22, amended: on a store with unique user ids where no two users share an
e-mail or a student id, the same holds after admin create student, admin
update student and register, whatever the body.  A request whose e-mail
(after the setters of the schema) or student id is held by another user is
answered 400 and changes nothing.  Admin create student answers `Email
already exists` or `Student ID already exists`: the first when a stored user
holds the e-mail, which is sent in stored form, and none holds the student
id, the second when a stored user holds the student id and none holds the
e-mail.  Admin update answers `Email already exists` when the e-mail differs
from the student's own and another user holds it, else `Student ID already
exists` when another user holds the student id.  Register answers `User
already exists with this email` when the e-mail is held, else (for a student
with a non-empty student id that is held) `Student ID already exists`. -/
theorem uniqueness_preserved (s : Store) (hids : UserIdsUnique s) (h : UniqueInv s) :
    (∀ env newId body, UniqueInv (createStudentRaw env newId body s).2) ∧
    (∀ env id body, UniqueInv (updateStudentRaw env id body s).2) ∧
    (∀ env newId body, UniqueInv (registerRaw env newId body s).2) ∧
    (∀ (env : Env) (newId : ObjectId) (body : RawStudentBody) (email studentId : String),
      createStudentErrorsRaw env body = [] → body.email = some email →
      body.studentId = some studentId →
      (∃ w ∈ s.users, w.email = env.email email ∨ w.studentId = some studentId) →
      (createStudentRaw env newId body s).1.status = 400 ∧
      (createStudentRaw env newId body s).2 = s ∧
      ((createStudentRaw env newId body s).1.body = .message "Email already exists" ∨
        (createStudentRaw env newId body s).1.body = .message "Student ID already exists") ∧
      (env.email email = email → (∀ w ∈ s.users, w.studentId ≠ some studentId) →
        (createStudentRaw env newId body s).1.body = .message "Email already exists") ∧
      ((∀ w ∈ s.users, w.email ≠ email ∧ w.email ≠ env.email email) →
        (createStudentRaw env newId body s).1.body = .message "Student ID already exists")) ∧
    (∀ (env : Env) (id : ObjectId) (body : RawStudentBody) (u : User) (e : String),
      User.findById s id = some u → u.role = Role.student → body.email = some e → e ≠ "" →
      e ≠ u.email → (∃ w ∈ s.users, w.email = env.email e ∧ w._id ≠ u._id) →
      updateStudentRaw env id body s = (⟨400, .message "Email already exists"⟩, s)) ∧
    (∀ (env : Env) (id : ObjectId) (body : RawStudentBody) (u : User) (t : String),
      User.findById s id = some u → u.role = Role.student →
      (∀ w ∈ s.users, some w.email = body.email.map env.email → w._id = u._id) →
      body.studentId = some t → t ≠ "" →
      (∃ w ∈ s.users, w.studentId = some t ∧ w._id ≠ u._id) →
      updateStudentRaw env id body s = (⟨400, .message "Student ID already exists"⟩, s)) ∧
    (∀ (env : Env) (newId : ObjectId) (body : RawStudentBody) (e : String),
      registerErrorsRaw env body = [] → body.email = some e →
      (∃ w ∈ s.users, w.email = env.email e) →
      registerRaw env newId body s
        = (⟨400, .message "User already exists with this email"⟩, s)) ∧
    (∀ (env : Env) (newId : ObjectId) (body : RawStudentBody) (t : String),
      registerErrorsRaw env body = [] →
      (∀ w ∈ s.users, some w.email ≠ body.email.map env.email) →
      body.role = some Role.student → body.studentId = some t → t ≠ "" →
      (∃ w ∈ s.users, w.studentId = some t) →
      registerRaw env newId body s = (⟨400, .message "Student ID already exists"⟩, s)) := by
  refine ⟨?_, ?_, ?_, ?_, ?_, ?_, ?_, ?_⟩
  · intro env newId body
    rcases createStudentRaw_created env newId body s with hs | ⟨u, s1, hc, _, hs⟩
    · rw [hs]; exact h
    · unfold UniqueInv
      rw [hs]
      exact uniqueInv_create h hc
  · intro env id body
    cases hu : User.findById s id with
    | none => simpa [updateStudentRaw, hu] using h
    | some u =>
      rcases updateStudentRaw_saved body hu with hs | ⟨x, hid, _, _, _, _, hc, _, hs⟩
      · rw [hs]; exact h
      · rw [hs]
        exact uniqueInv_save hids h (userFindById_some hu).1 hid hc
  · intro env newId body
    rcases registerRaw_created env newId body s with hs | ⟨u, s1, hc, _, hs⟩
    · rw [hs]; exact h
    · unfold UniqueInv
      rw [hs]
      exact uniqueInv_create h hc
  · intro env newId body email studentId herr he hsid ⟨w, hw, hwm⟩
    obtain ⟨name, email', password, studentId', batch, year, hn, he', hp, hsid', hb, hy⟩ :=
      createStudentErrorsRaw_some env body herr
    have h1 : email' = email := Option.some.inj (he'.symm.trans he)
    have h2 : studentId' = studentId := Option.some.inj (hsid'.symm.trans hsid)
    subst h1 h2
    have hsome : (s.users.find?
        (fun u => u.email == env.email email' || u.studentId == some studentId')).isSome
          = true := by
      rw [List.find?_isSome]
      refine ⟨w, hw, ?_⟩
      rcases hwm with hwm | hwm <;> simp [hwm]
    obtain ⟨found, hfind⟩ := Option.isSome_iff_exists.mp hsome
    have hmem : found ∈ s.users := List.mem_of_find?_eq_some hfind
    have hmatch : found.email = env.email email' ∨ found.studentId = some studentId' := by
      simpa using List.find?_some hfind
    have hres : createStudentRaw env newId body s
        = (⟨400, .message (if found.email = email' then "Email already exists"
            else "Student ID already exists")⟩, s) := by
      simp [createStudentRaw, herr, hn, he, hp, hsid, hb, hy, hfind]
    rw [hres]
    refine ⟨rfl, rfl, ?_, ?_, ?_⟩
    · by_cases hfe : found.email = email'
      · left; simp [hfe]
      · right; simp [hfe]
    · intro hstored hnosid
      have hfe : found.email = email' := by
        rcases hmatch with hm | hm
        · rw [hm, hstored]
        · exact absurd hm (hnosid found hmem)
      simp [hfe]
    · intro hnomail
      have hfe : ¬ found.email = email' := (hnomail found hmem).1
      simp [hfe]
  · intro env id body u e hu hrole he hne heu ⟨w, hw, hwe, hwid⟩
    have hany : s.users.any (fun x => some x.email == body.email.map env.email &&
        x._id != u._id) = true := by
      simp only [List.any_eq_true, Bool.and_eq_true, beq_iff_eq, bne_iff_ne]
      exact ⟨w, hw, by rw [he, hwe]; rfl, hwid⟩
    have hcond : (truthyS body.email && body.email != some u.email &&
        s.users.any (fun x => some x.email == body.email.map env.email &&
          x._id != u._id)) = true := by
      rw [hany]
      simp [he, truthyS, hne, heu]
    simp only [updateStudentRaw, hu]
    rw [if_neg (by simp [hrole]), if_pos hcond]
  · intro env id body u t hu hrole hemail hsid hne ⟨w, hw, hwt, hwid⟩
    have hwu : w ≠ u := fun heq => hwid (by rw [heq])
    have hd : Distinct w u :=
      List.Pairwise.forall (fun _ _ => distinct_symm) h hw (userFindById_some hu).1 hwu
    have htu : some t ≠ u.studentId := fun heq => hd.2 (by rw [hwt]; rfl) (hwt.trans heq)
    have hany1 : s.users.any (fun x => some x.email == body.email.map env.email &&
        x._id != u._id) = false := by
      simp only [List.any_eq_false, Bool.and_eq_true, beq_iff_eq, bne_iff_ne, not_and, not_not]
      exact hemail
    have hany2 : s.users.any (fun x => x.studentId == body.studentId && x._id != u._id)
        = true := by
      simp only [List.any_eq_true, Bool.and_eq_true, beq_iff_eq, bne_iff_ne]
      exact ⟨w, hw, by rw [hsid, hwt], hwid⟩
    have hcond1 : ¬ (truthyS body.email && body.email != some u.email &&
        s.users.any (fun x => some x.email == body.email.map env.email &&
          x._id != u._id)) = true := by
      rw [hany1]
      simp
    have hcond2 : (truthyS body.studentId && body.studentId != u.studentId &&
        s.users.any (fun x => x.studentId == body.studentId && x._id != u._id)) = true := by
      rw [hany2]
      simp [hsid, truthyS, hne, htu]
    simp only [updateStudentRaw, hu]
    rw [if_neg (by simp [hrole]), if_neg hcond1, if_pos hcond2]
  · intro env newId body e herr he ⟨w, hw, hwe⟩
    obtain ⟨name, email, password, role, hn, he', hp, hr⟩ :=
      registerErrorsRaw_some env body herr
    have h1 : email = e := Option.some.inj (he'.symm.trans he)
    subst h1
    have hany : s.users.any (fun u => u.email == env.email email) = true := by
      simp only [List.any_eq_true, beq_iff_eq]
      exact ⟨w, hw, hwe⟩
    simp [registerRaw, herr, hn, he, hp, hr, hany]
  · intro env newId body t herr hemail hrole hsid hne ⟨w, hw, hwt⟩
    obtain ⟨name, email, password, role, hn, he, hp, hr⟩ :=
      registerErrorsRaw_some env body herr
    have h1 : role = Role.student := Option.some.inj (hr.symm.trans hrole)
    subst h1
    have hany1 : s.users.any (fun u => u.email == env.email email) = false := by
      simp only [List.any_eq_false, beq_iff_eq]
      intro u hu heq
      exact hemail u hu (by rw [he, heq]; rfl)
    have hany2 : s.users.any (fun u => u.studentId == body.studentId) = true := by
      simp only [List.any_eq_true, beq_iff_eq]
      exact ⟨w, hw, by rw [hsid, hwt]⟩
    have hcond : (Role.student == Role.student && truthyS body.studentId &&
        s.users.any (fun u => u.studentId == body.studentId)) = true := by
      rw [hany2]
      simp [hsid, truthyS, hne]
    simp only [registerRaw, herr, hn, he, hp, hr]
    simp only [ne_eq, not_true_eq_false, ↓reduceIte, hany1, Bool.false_eq_true]
    rw [if_pos hcond]

theorem uniqueness_preserved_witness :
    UserIdsUnique store1 ∧ UniqueInv store1 ∧
    UniqueInv (registerRaw Env.sample 99 (sampleRegistration 1).toRaw store1).2 ∧
    UniqueInv (updateStudentRaw Env.sample 10
      { StudentBody.none.toRaw with email := some " S10@X.ORG " } store1).2 :=
  ⟨by decide, by decide,
    (uniqueness_preserved store1 (by decide) (by decide)).2.2.1 Env.sample 99
      (sampleRegistration 1).toRaw,
    (uniqueness_preserved store1 (by decide) (by decide)).2.1 Env.sample 10
      { StudentBody.none.toRaw with email := some " S10@X.ORG " }⟩


/-! ## Partial updates keyed on truthiness: requests as sent -/

theorem assignSet_of_falsy {v : Option String} (set : String → String) (old : String)
    (h : truthyS v = false) : assignSet set v old = old := by
  cases v with
  | none => rfl
  | some x =>
    have hx : x = "" := by simpa [truthyS] using h
    simp [assignSet, hx]

theorem assignOSet_of_falsy {v : Option String} (set : String → String) (old : Option String)
    (h : truthyS v = false) : assignOSet set v old = old := by
  cases v with
  | none => rfl
  | some x =>
    have hx : x = "" := by simpa [truthyS] using h
    simp [assignOSet, hx]

theorem assignSet_of_truthy {v : Option String} (set : String → String) (old : String)
    (h : truthyS v = true) : ∃ x, v = some x ∧ x ≠ "" ∧ assignSet set v old = set x := by
  cases v with
  | none => simp [truthyS] at h
  | some x =>
    have hx : x ≠ "" := by simpa [truthyS] using h
    exact ⟨x, rfl, hx, by simp [assignSet, hx]⟩

theorem assignOSet_eq_some_empty {set : String → String} {v old : Option String}
    (h : assignOSet set v old = some "") :
    old = some "" ∨ ∃ p, v = some p ∧ p ≠ "" ∧ set p = "" := by
  cases v with
  | none => exact Or.inl h
  | some x =>
    by_cases hx : x = ""
    · left
      simpa [assignOSet, hx] using h
    · right
      refine ⟨x, rfl, hx, ?_⟩
      simpa [assignOSet, hx] using h

theorem assignNumber_of_falsy {env : Env} {v : Option NumberInput} {old n : Int}
    (h : assignNumber env v old = some n) (hf : truthyNumber v = false) : n = old := by
  cases v with
  | none => exact (Option.some.inj h).symm
  | some x =>
    have hx : x.truthy = false := by simpa [truthyNumber] using hf
    simp only [assignNumber, hx] at h
    exact (Option.some.inj h).symm

theorem assignNumber_eq_zero {env : Env} {v : Option NumberInput} {old : Int}
    (h : assignNumber env v old = some 0) :
    old = 0 ∨ ∃ x, v = some (NumberInput.str x) ∧ x ≠ "" ∧ env.toNumber x = some 0 := by
  cases v with
  | none => exact Or.inl (Option.some.inj h)
  | some x =>
    cases x with
    | num n =>
      by_cases hn : n = 0
      · left
        simpa [assignNumber, NumberInput.truthy, hn] using h
      · simp [assignNumber, NumberInput.truthy, NumberInput.cast, hn] at h
    | str x =>
      by_cases hx : x = ""
      · left
        simpa [assignNumber, NumberInput.truthy, hx] using h
      · right
        refine ⟨x, rfl, hx, ?_⟩
        cases hn : env.toNumber x with
        | none => simp [assignNumber, NumberInput.truthy, NumberInput.cast, hx, hn] at h
        | some n =>
          simp [assignNumber, NumberInput.truthy, NumberInput.cast, hx, hn] at h
          rw [h]

theorem assignONumber_of_falsy {env : Env} {v : Option NumberInput} {old y : Option Int}
    (h : assignONumber env v old = some y) (hf : truthyNumber v = false) : y = old := by
  cases v with
  | none => exact (Option.some.inj h).symm
  | some x =>
    have hx : x.truthy = false := by simpa [truthyNumber] using hf
    simp only [assignONumber, hx] at h
    exact (Option.some.inj h).symm

theorem assignONumber_eq_some_zero {env : Env} {v : Option NumberInput} {old : Option Int}
    (h : assignONumber env v old = some (some 0)) :
    old = some 0 ∨ ∃ x, v = some (NumberInput.str x) ∧ x ≠ "" ∧ env.toNumber x = some 0 := by
  cases v with
  | none => exact Or.inl (Option.some.inj h)
  | some x =>
    cases x with
    | num n =>
      by_cases hn : n = 0
      · left
        simpa [assignONumber, NumberInput.truthy, hn] using h
      · simp [assignONumber, NumberInput.truthy, NumberInput.cast, hn] at h
    | str x =>
      by_cases hx : x = ""
      · left
        simpa [assignONumber, NumberInput.truthy, hx] using h
      · right
        refine ⟨x, rfl, hx, ?_⟩
        cases hn : env.toNumber x with
        | none => simp [assignONumber, NumberInput.truthy, NumberInput.cast, hx, hn] at h
        | some n =>
          simp [assignONumber, NumberInput.truthy, NumberInput.cast, hx, hn] at h
          rw [h]

theorem applyProfileRaw_id {env : Env} {body : RawProfileBody} {u x : User}
    (h : applyProfileRaw env body u = some x) :
    x._id = u._id ∧ x.isAlumni = u.isAlumni ∧ x.role = u.role ∧ x.batch = u.batch ∧
    x.password = u.password := by
  unfold applyProfileRaw at h
  split at h
  · cases h
    exact ⟨rfl, rfl, rfl, rfl, rfl⟩
  · split at h
    · exact absurd h (by simp)
    · cases h
      exact ⟨rfl, rfl, rfl, rfl, rfl⟩

/-- The assignments of `PUT /profile` on a body as sent. -/
theorem applyProfileRaw_partial {env : Env} {body : RawProfileBody} {u x : User}
    (h : applyProfileRaw env body u = some x) : ProfileKeeps env body u x := by
  unfold ProfileKeeps
  unfold applyProfileRaw at h
  split at h
  · cases h
    refine ⟨assignOSet_of_falsy _ _, fun _ => rfl, fun _ => rfl, fun _ => rfl, fun _ => rfl,
      fun _ => rfl, ?_, fun _ => rfl, assignS_of_falsy _, assignS_of_falsy _,
      assignS_of_falsy _, fun _ => rfl, fun h => h, fun h => h, fun h => h, fun h => h,
      assignS_eq_empty, assignS_eq_empty, assignS_eq_empty, fun h => h,
      assignOSet_eq_some_empty, fun h => Or.inl h⟩
    intro h
    simp [h, assignA]
  · split at h
    · exact absurd h (by simp)
    · rename_i salary hsal
      cases h
      refine ⟨assignOSet_of_falsy _ _, assignS_of_falsy _, assignS_of_falsy _,
        assignS_of_falsy _, assignNumber_of_falsy hsal, assignS_of_falsy _, ?_, ?_,
        assignS_of_falsy _, assignS_of_falsy _, assignS_of_falsy _, assignS_of_falsy _,
        assignS_eq_empty, assignS_eq_empty, assignS_eq_empty, assignS_eq_empty,
        assignS_eq_empty, assignS_eq_empty, assignS_eq_empty, assignS_eq_empty,
        assignOSet_eq_some_empty, ?_⟩
      · intro h
        simp [h, assignA]
      · intro h
        simp [h, assignA]
      · intro h0
        have h0' : salary = 0 := h0
        rw [h0'] at hsal
        exact assignNumber_eq_zero hsal

theorem profileKeeps_refl (env : Env) (body : RawProfileBody) (u : User) :
    ProfileKeeps env body u u := by
  unfold ProfileKeeps
  exact ⟨fun _ => rfl, fun _ => rfl, fun _ => rfl, fun _ => rfl, fun _ => rfl, fun _ => rfl,
    fun _ => rfl, fun _ => rfl, fun _ => rfl, fun _ => rfl, fun _ => rfl, fun _ => rfl,
    fun h => h, fun h => h, fun h => h, fun h => h, fun h => h, fun h => h, fun h => h,
    fun h => h, fun h => Or.inl h, fun h => Or.inl h⟩

theorem studentKeeps_refl (env : Env) (body : RawStudentBody) (u : User) :
    StudentKeeps env body u u := by
  unfold StudentKeeps
  exact ⟨fun _ => rfl, fun _ => rfl, fun _ => rfl, fun _ => rfl, fun _ => rfl, fun _ => rfl,
    fun _ => rfl, fun _ => rfl, fun h => h, fun h => h, fun h => h, fun h => h, fun h => h,
    fun h => Or.inl h, fun h => Or.inl h⟩

/-- The store after a profile update as sent is the old store or the old
store with the assigned document saved. -/
theorem updateProfileRaw_store {env : Env} {uid : ObjectId} {s : Store} {u : User}
    (body : RawProfileBody) (hu : User.findById s uid = some u) :
    (updateProfileRaw env uid body s).2 = s ∨
    ∃ x, applyProfileRaw env body u = some x ∧
      (updateProfileRaw env uid body s).1 =
        ⟨200, .user ((User.findById (User.save s x) x._id).map (User.view (User.save s x)))⟩ ∧
      (updateProfileRaw env uid body s).2 = User.save s x := by
  simp only [updateProfileRaw, hu]
  split
  · exact Or.inl rfl
  · rename_i x hx
    split
    · exact Or.inl rfl
    · exact Or.inr ⟨x, hx, rfl, rfl⟩

/-- The store after an admin update as sent is the old store or the old store
with the assigned document saved; a name or an e-mail that was assigned is
not empty. -/
theorem updateStudentRaw_assigned {env : Env} {id : ObjectId} {s : Store} {u : User}
    (body : RawStudentBody) (hu : User.findById s id = some u) :
    (updateStudentRaw env id body s).2 = s ∨
    ∃ year, assignONumber env body.year u.year = some year ∧
      (truthyS body.name = true → assignSet env.trim body.name u.name ≠ "") ∧
      (truthyS body.email = true → assignSet env.email body.email u.email ≠ "") ∧
      (updateStudentRaw env id body s).2 = User.save s
        { u with
          name := assignSet env.trim body.name u.name
          email := assignSet env.email body.email u.email
          studentId := assignOS body.studentId u.studentId
          batch := assignOA body.batch u.batch
          course := assignOS body.course u.course
          department := assignOS body.department u.department
          year := year
          phone := assignOSet env.trim body.phone u.phone } := by
  simp only [updateStudentRaw, hu]
  split
  · exact Or.inl rfl
  · split
    · exact Or.inl rfl
    · split
      · exact Or.inl rfl
      · split
        · exact Or.inl rfl
        · rename_i x hx
          obtain ⟨year, hyear, hxe⟩ := applyStudentRaw_some hx
          subst hxe
          split
          · exact Or.inl rfl
          · rename_i hc
            simp only [Bool.or_eq_true, Bool.and_eq_true, beq_iff_eq, not_or, not_and] at hc
            exact Or.inr ⟨year, hyear, hc.1.1, hc.1.2, rfl⟩

/-- C29, as stated, fails: the alumnus 12 has the phone `555-1234`, the
salary 50000 and the year 2020.  A profile update with a phone of one space
is answered 200 and stores the empty phone; a profile update with the salary
sent as the string `0` is answered 200 and stores the salary 0; an admin
update with the year sent as the string `0` is answered 200 and stores the
year 0.  The three values are truthy as sent and are emptied by the `trim`
setter and the Number cast of the schema. -/
theorem partial_update_clears_fields :
    (User.findById store10 12).map (fun v => (v.phone, v.salary, v.year))
      = some (some "555-1234", 50000, some 2020) ∧
    (updateProfileRaw Env.sample 12
      { ProfileBody.none.toRaw with phone := some " " } store10).1.status = 200 ∧
    (User.findById (updateProfileRaw Env.sample 12
      { ProfileBody.none.toRaw with phone := some " " } store10).2 12).map (fun v => v.phone)
      = some (some "") ∧
    (updateProfileRaw Env.sample 12
      { ProfileBody.none.toRaw with salary := some (.str "0") } store10).1.status = 200 ∧
    (User.findById (updateProfileRaw Env.sample 12
      { ProfileBody.none.toRaw with salary := some (.str "0") } store10).2 12).map
        (fun v => v.salary) = some 0 ∧
    (updateStudentRaw Env.sample 12
      { StudentBody.none.toRaw with year := some (.str "0") } store10).1.status = 200 ∧
    (User.findById (updateStudentRaw Env.sample 12
      { StudentBody.none.toRaw with year := some (.str "0") } store10).2 12).map
        (fun v => v.year) = some (some 0) := by
  decide

/-- C29, amended: for every stored user and request body as sent, the user
stored after a profile self-update, and after an admin student update, has
every writable field whose submitted value is absent or falsy (no key, empty
string, 0) as it was before.  A string field without a setter, and the name
and the e-mail, are not empty afterwards unless they were so before.  The
phone is empty afterwards, when it was not before, only if a non-empty phone
that the `trim` setter empties was submitted; the salary and the year are 0
afterwards, when they were not before, only if a non-empty string that casts
to 0 was submitted. -/
theorem partial_update_keeps_falsy (env : Env) (s : Store) (id : ObjectId) (u : User)
    (hu : User.findById s id = some u) :
    (∀ body : RawProfileBody,
      ∃ v, User.findById (updateProfileRaw env id body s).2 id = some v ∧
        ProfileKeeps env body u v) ∧
    (∀ body : RawStudentBody,
      ∃ v, User.findById (updateStudentRaw env id body s).2 id = some v ∧
        StudentKeeps env body u v) := by
  have hid : u._id = id := (userFindById_some hu).2
  constructor
  · intro body
    rcases updateProfileRaw_store body hu with h | ⟨x, hx, _, h⟩
    · rw [h]
      exact ⟨u, hu, profileKeeps_refl env body u⟩
    · rw [h]
      exact ⟨x, userFindById_save _ hu ((applyProfileRaw_id hx).1.trans hid),
        applyProfileRaw_partial hx⟩
  · intro body
    rcases updateStudentRaw_assigned body hu with h | ⟨year, hyear, hname, hemail, h⟩
    · rw [h]
      exact ⟨u, hu, studentKeeps_refl env body u⟩
    · rw [h]
      refine ⟨_, userFindById_save _ hu hid, ?_⟩
      unfold StudentKeeps
      refine ⟨assignSet_of_falsy _ _, assignSet_of_falsy _ _, assignOS_of_falsy _, ?_,
        assignOS_of_falsy _, assignOS_of_falsy _, assignONumber_of_falsy hyear,
        assignOSet_of_falsy _ _, ?_, ?_, assignOS_eq_some_empty, assignOS_eq_some_empty,
        assignOS_eq_some_empty, assignOSet_eq_some_empty, ?_⟩
      · intro h
        simp [h, assignOA]
      · intro hv
        have hv' : assignSet env.trim body.name u.name = "" := hv
        cases ht : truthyS body.name with
        | true => exact absurd hv' (hname ht)
        | false => rw [assignSet_of_falsy _ _ ht] at hv'; exact hv'
      · intro hv
        have hv' : assignSet env.email body.email u.email = "" := hv
        cases ht : truthyS body.email with
        | true => exact absurd hv' (hemail ht)
        | false => rw [assignSet_of_falsy _ _ ht] at hv'; exact hv'
      · intro hv
        have hv' : year = some 0 := hv
        rw [hv'] at hyear
        exact assignONumber_eq_some_zero hyear

theorem partial_update_keeps_falsy_witness :
    User.findById store5 12 = some sampleAlumnus ∧
    ∃ v, User.findById (updateProfileRaw Env.sample 12
        { ProfileBody.none.toRaw with jobRole := some "", salary := some (.num 0) }
        store5).2 12 = some v ∧
      v.jobRole = "Engineer" ∧ v.salary = 50000 :=
  ⟨by decide, by
    obtain ⟨v, hv, hk⟩ :=
      (partial_update_keeps_falsy Env.sample store5 12 sampleAlumnus (by decide)).1
        { ProfileBody.none.toRaw with jobRole := some "", salary := some (.num 0) }
    unfold ProfileKeeps at hk
    exact ⟨v, hv, hk.2.1 rfl, hk.2.2.2.2.1 rfl⟩⟩


/-! ## The credential and the answers of the writing routes -/

theorem find?_map_erase (p : User → Bool) (hp : ∀ u, p u.erasePassword = p u)
    (l : List User) :
    (l.map User.erasePassword).find? p = (l.find? p).map User.erasePassword := by
  have hc : p ∘ User.erasePassword = p := funext hp
  rw [List.find?_map, hc]

theorem any_map_erase (p : User → Bool) (hp : ∀ u, p u.erasePassword = p u)
    (l : List User) : (l.map User.erasePassword).any p = l.any p := by
  have hc : p ∘ User.erasePassword = p := funext hp
  rw [List.any_map, hc]

theorem length_filter_map_erase (p : User → Bool) (hp : ∀ u, p u.erasePassword = p u)
    (l : List User) : ((l.map User.erasePassword).filter p).length = (l.filter p).length := by
  have hc : p ∘ User.erasePassword = p := funext hp
  rw [List.filter_map, List.length_map, hc]

theorem save_erasePasswords (s : Store) (x : User) :
    User.save s.erasePasswords x.erasePassword = (User.save s x).erasePasswords := by
  simp only [User.save, Store.erasePasswords, List.map_map]
  congr 1
  apply List.map_congr_left
  intro u _
  by_cases h : u._id = x._id
  · have h1 : u.erasePassword._id = x.erasePassword._id := h
    simp [h, h1]
  · have h1 : ¬ u.erasePassword._id = x.erasePassword._id := h
    simp [h, h1]

theorem viewById_erasePasswords (s : Store) (id : ObjectId) :
    (User.findById s.erasePasswords id).map (User.view s.erasePasswords)
      = (User.findById s id).map (User.view s) := by
  simp only [userFindById_erasePasswords, Option.map_map]
  rfl

theorem viewById_congr {s t : Store} (h : s.erasePasswords = t.erasePasswords)
    (id : ObjectId) :
    (User.findById s id).map (User.view s) = (User.findById t id).map (User.view t) := by
  rw [← viewById_erasePasswords s, ← viewById_erasePasswords t, h]

theorem applyProfileRaw_erasePassword (env : Env) (body : RawProfileBody) (u : User) :
    applyProfileRaw env body u.erasePassword
      = (applyProfileRaw env body u).map User.erasePassword := by
  cases ha : u.isAlumni with
  | false =>
    have ha1 : u.erasePassword.isAlumni = false := ha
    simp only [applyProfileRaw, ha, ha1]
    rfl
  | true =>
    have ha1 : u.erasePassword.isAlumni = true := ha
    have hs : u.erasePassword.salary = u.salary := rfl
    simp only [applyProfileRaw, ha, ha1, hs]
    cases assignNumber env body.salary u.salary <;> rfl

theorem updateProfileRaw_erasePasswords (env : Env) (uid : ObjectId) (body : RawProfileBody)
    (s : Store) :
    (updateProfileRaw env uid body s.erasePasswords).1 = (updateProfileRaw env uid body s).1 := by
  simp only [updateProfileRaw, userFindById_erasePasswords]
  cases hu : User.findById s uid with
  | none => rfl
  | some u =>
    simp only [Option.map_some', applyProfileRaw_erasePassword]
    cases hx : applyProfileRaw env body u with
    | none => rfl
    | some x =>
      simp only [Option.map_some']
      have h1 : x.erasePassword.isAlumni = x.isAlumni := rfl
      have h2 : x.erasePassword.currentStatus = x.currentStatus := rfl
      have h3 : x.erasePassword._id = x._id := rfl
      rw [h1, h2, h3, save_erasePasswords]
      split
      · rfl
      · exact congrArg (fun v => (⟨200, .user v⟩ : Response))
          (viewById_erasePasswords (User.save s x) x._id)


theorem indexConflictOnUpdate_erase (s : Store) (u x : User) :
    User.indexConflictOnUpdate s.erasePasswords u.erasePassword x.erasePassword
      = User.indexConflictOnUpdate s u x := by
  unfold User.indexConflictOnUpdate
  have h1 : s.erasePasswords.users.any
      (fun v => v._id != u.erasePassword._id && v.email == x.erasePassword.email)
        = s.users.any (fun v => v._id != u._id && v.email == x.email) :=
    any_map_erase _ (by intro w; rfl) _
  have h2 : s.erasePasswords.users.any
      (fun v => v._id != u.erasePassword._id && v.studentId == x.erasePassword.studentId)
        = s.users.any (fun v => v._id != u._id && v.studentId == x.studentId) :=
    any_map_erase _ (by intro w; rfl) _
  rw [h1, h2]
  rfl

theorem applyStudentRaw_erasePassword (env : Env) (body : RawStudentBody) (u : User) :
    applyStudentRaw env body u.erasePassword
      = (applyStudentRaw env body u).map User.erasePassword := by
  have hy : u.erasePassword.year = u.year := rfl
  simp only [applyStudentRaw, hy]
  cases assignONumber env body.year u.year <;> rfl

theorem updateStudentRaw_erasePasswords (env : Env) (id : ObjectId) (body : RawStudentBody)
    (s : Store) :
    (updateStudentRaw env id body s.erasePasswords).1 = (updateStudentRaw env id body s).1 := by
  simp only [updateStudentRaw, userFindById_erasePasswords]
  cases hu : User.findById s id with
  | none => rfl
  | some u =>
    simp only [Option.map_some', applyStudentRaw_erasePassword]
    have hr : u.erasePassword.role = u.role := rfl
    have he : u.erasePassword.email = u.email := rfl
    have hs : u.erasePassword.studentId = u.studentId := rfl
    have hi : u.erasePassword._id = u._id := rfl
    have h1 : s.erasePasswords.users.any
        (fun w => some w.email == body.email.map env.email && w._id != u._id)
          = s.users.any (fun w => some w.email == body.email.map env.email && w._id != u._id) :=
      any_map_erase _ (by intro w; rfl) _
    have h2 : s.erasePasswords.users.any
        (fun w => w.studentId == body.studentId && w._id != u._id)
          = s.users.any (fun w => w.studentId == body.studentId && w._id != u._id) :=
      any_map_erase _ (by intro w; rfl) _
    rw [hr, he, hs, hi, h1, h2]
    split
    · rfl
    · split
      · rfl
      · split
        · rfl
        · cases hx : applyStudentRaw env body u with
          | none => rfl
          | some x =>
            simp only [Option.map_some']
            have hn : x.erasePassword.name = x.name := rfl
            have hm : x.erasePassword.email = x.email := rfl
            have hxi : x.erasePassword._id = x._id := rfl
            rw [hn, hm, hxi, indexConflictOnUpdate_erase, save_erasePasswords]
            split
            · rfl
            · exact congrArg (fun v => (⟨200, .user v⟩ : Response))
                (viewById_erasePasswords _ _)


theorem indexConflict_erase (s : Store) (u : User) :
    User.indexConflict s.erasePasswords u = User.indexConflict s u :=
  any_map_erase _ (by intro w; rfl) _

theorem create_erasePasswords (env : Env) (s : Store) (u : User) :
    User.create env s.erasePasswords u
      = (User.create env s u).map
          (fun _ => User.insert s.erasePasswords { u with password := env.hash u.password }) := by
  unfold User.create
  rw [indexConflict_erase]
  split <;> rfl

theorem insert_count_erasePasswords (s : Store) (n : User) (b : Batch) :
    (Batch.updateStudentCount (User.insert s.erasePasswords n) b).erasePasswords
      = (Batch.updateStudentCount (User.insert s n) b).erasePasswords := by
  have hc : ((s.users.map User.erasePassword).filter (fun u => u.batch == some b._id)).length
      = (s.users.filter (fun u => u.batch == some b._id)).length :=
    length_filter_map_erase _ (by intro w; rfl) _
  have hm : (s.users.map User.erasePassword).map User.erasePassword
      = s.users.map User.erasePassword := by
    rw [List.map_map]
    rfl
  simp only [Store.erasePasswords, Batch.updateStudentCount, Batch.save, User.insert,
    User.countDocuments, List.filter_append, List.length_append, List.map_append, hc, hm]

theorem insert_erasePasswords (s : Store) (n : User) :
    (User.insert s.erasePasswords n).erasePasswords = (User.insert s n).erasePasswords := by
  have hm : (s.users.map User.erasePassword).map User.erasePassword
      = s.users.map User.erasePassword := by
    rw [List.map_map]
    rfl
  simp only [Store.erasePasswords, User.insert, List.map_append, hm]

theorem createStudentRaw_erasePasswords (env : Env) (newId : ObjectId) (body : RawStudentBody)
    (s : Store) :
    (createStudentRaw env newId body s.erasePasswords).1
      = (createStudentRaw env newId body s).1 := by
  unfold createStudentRaw
  split
  · rfl
  · split
    · rename_i name email password studentId batch year _ _ _ _ _ _
      have hf : s.erasePasswords.users.find?
          (fun u => u.email == env.email email || u.studentId == some studentId)
            = (s.users.find?
                (fun u => u.email == env.email email || u.studentId == some studentId)).map
                  User.erasePassword :=
        find?_map_erase _ (by intro w; rfl) _
      rw [hf, batchFindById_erasePasswords]
      cases hfind : s.users.find?
          (fun u => u.email == env.email email || u.studentId == some studentId) with
      | some existing => rfl
      | none =>
        simp only [Option.map_none']
        cases hb : Batch.findById s batch with
        | none => rfl
        | some batchDoc =>
          cases hy : year.cast env with
          | none => rfl
          | some y =>
            simp only [create_erasePasswords]
            cases hc : User.create env s
                { User.defaults newId (env.trim name) (env.email email) password
                    Role.student with
                  studentId := some studentId, batch := some batch, course := body.course,
                  department := body.department, year := y,
                  phone := body.phone.map env.trim, isAlumni := batchDoc.isCompleted } with
            | none => rfl
            | some s1 =>
              have hs1 := User.create_some hc
              subst hs1
              simp only [Option.map_some']
              exact congrArg (fun v => (⟨201, .user v⟩ : Response))
                (viewById_congr (insert_count_erasePasswords s _ batchDoc) newId)
    · rfl


theorem registerRaw_erasePasswords (env : Env) (newId : ObjectId) (body : RawStudentBody)
    (s : Store) :
    (registerRaw env newId body s.erasePasswords).1 = (registerRaw env newId body s).1 := by
  unfold registerRaw
  split
  · rfl
  · split
    · rename_i name email password role _ _ _ _
      have h1 : s.erasePasswords.users.any (fun u => u.email == env.email email)
          = s.users.any (fun u => u.email == env.email email) :=
        any_map_erase _ (by intro w; rfl) _
      have h2 : s.erasePasswords.users.any (fun u => u.studentId == body.studentId)
          = s.users.any (fun u => u.studentId == body.studentId) :=
        any_map_erase _ (by intro w; rfl) _
      rw [h1, h2]
      split
      · rfl
      · split
        · rfl
        · dsimp only
          split
          · cases hy : (match body.year with
                | some year => year.cast env
                | none => some none) with
            | none => rfl
            | some year =>
              simp only [create_erasePasswords]
              cases hc : User.create env s
                  { User.defaults newId (env.trim name) (env.email email) password role with
                    phone := body.phone.map env.trim, studentId := body.studentId,
                    batch := body.batch, course := body.course,
                    department := body.department, year := year } with
              | none => rfl
              | some s1 => rfl
          · simp only [create_erasePasswords]
            cases hc : User.create env s
                { User.defaults newId (env.trim name) (env.email email) password role with
                  phone := body.phone.map env.trim } with
            | none => rfl
            | some s1 => rfl
    · rfl


/-- C24, amended: two stores that differ only in the `password` values of
their users give the same answer to `GET /me`, `GET /profile`, the
administrator's `GET /students/:id`, `GET /alumni/:id`, `GET /my-batch` and
`GET /batch-mates`; to the two listings `GET /students` and `GET /alumni`
when the sort key is not `password`; to `POST /login` when the password
comparison has the same outcome for the user found by e-mail in either
store; and to the four writing routes that answer with a user,
`POST /register`, `POST /students`, `PUT /students/:id` and `PUT /profile`,
on any body as sent. -/
theorem answers_independent_of_passwords (env : Env) (compare : String → String → Bool)
    (regExp : RegExp) (uid id newId : ObjectId) (body : LoginBody) (sq : StudentsQuery)
    (aq : AlumniQuery) (mq : MatesQuery) (sb : RawStudentBody) (pb : RawProfileBody)
    (s t : Store) (h : DifferOnlyInPasswords s t)
    (hsq : sq.sortBy ≠ some SortKey.password) (haq : aq.sortBy ≠ some SortKey.password)
    (hc : ∀ email password u v, body.email = some email → body.password = some password →
      User.findOneByEmail s (env.email email) = some u →
      User.findOneByEmail t (env.email email) = some v →
      compare password u.password = compare password v.password) :
    me uid s = me uid t ∧
    getProfile uid s = getProfile uid t ∧
    getStudent id s = getStudent id t ∧
    getAlumni id s = getAlumni id t ∧
    myBatch uid s = myBatch uid t ∧
    batchMates regExp uid mq s = batchMates regExp uid mq t ∧
    listStudents regExp sq s = listStudents regExp sq t ∧
    listAlumni regExp aq s = listAlumni regExp aq t ∧
    login env compare body s = login env compare body t ∧
    (registerRaw env newId sb s).1 = (registerRaw env newId sb t).1 ∧
    (createStudentRaw env newId sb s).1 = (createStudentRaw env newId sb t).1 ∧
    (updateStudentRaw env id sb s).1 = (updateStudentRaw env id sb t).1 ∧
    (updateProfileRaw env uid pb s).1 = (updateProfileRaw env uid pb t).1 :=
  ⟨eq_of_erasePasswords _ (me_erasePasswords uid) s t h,
   eq_of_erasePasswords _ (getProfile_erasePasswords uid) s t h,
   eq_of_erasePasswords _ (getStudent_erasePasswords id) s t h,
   eq_of_erasePasswords _ (getAlumni_erasePasswords id) s t h,
   eq_of_erasePasswords _ (myBatch_erasePasswords uid) s t h,
   eq_of_erasePasswords _ (batchMates_erasePasswords regExp uid mq) s t h,
   eq_of_erasePasswords _ (fun x => listStudents_erasePasswords regExp sq x hsq) s t h,
   eq_of_erasePasswords _ (fun x => listAlumni_erasePasswords regExp aq x haq) s t h,
   login_eq_of_compare env compare body s t h hc,
   eq_of_erasePasswords (fun x => (registerRaw env newId sb x).1)
     (registerRaw_erasePasswords env newId sb) s t h,
   eq_of_erasePasswords (fun x => (createStudentRaw env newId sb x).1)
     (createStudentRaw_erasePasswords env newId sb) s t h,
   eq_of_erasePasswords (fun x => (updateStudentRaw env id sb x).1)
     (updateStudentRaw_erasePasswords env id sb) s t h,
   eq_of_erasePasswords (fun x => (updateProfileRaw env uid pb x).1)
     (updateProfileRaw_erasePasswords env uid pb) s t h⟩

theorem answers_independent_of_passwords_witness :
    DifferOnlyInPasswords store1 store8 ∧
    (me 10 store1 = me 10 store8 ∧
     getProfile 10 store1 = getProfile 10 store8 ∧
     getStudent 10 store1 = getStudent 10 store8 ∧
     getAlumni 10 store1 = getAlumni 10 store8 ∧
     myBatch 10 store1 = myBatch 10 store8 ∧
     batchMates sampleRegExp 10 ⟨none, some "BT", none⟩ store1 =
       batchMates sampleRegExp 10 ⟨none, some "BT", none⟩ store8 ∧
     listStudents sampleRegExp
         { StudentsQuery.none with sortBy := some SortKey.name, sortOrder := some "desc" } store1 =
       listStudents sampleRegExp
         { StudentsQuery.none with sortBy := some SortKey.name, sortOrder := some "desc" } store8 ∧
     listAlumni sampleRegExp ⟨none, none, none, none, none, some SortKey.salary, none⟩ store1 =
       listAlumni sampleRegExp ⟨none, none, none, none, none, some SortKey.salary, none⟩ store8 ∧
     login Env.sample sampleCompare ⟨some "S11@x.org", some "secret"⟩ store1 =
       login Env.sample sampleCompare ⟨some "S11@x.org", some "secret"⟩ store8 ∧
     (registerRaw Env.sample 99 (sampleRegistration 1).toRaw store1).1 =
       (registerRaw Env.sample 99 (sampleRegistration 1).toRaw store8).1 ∧
     (createStudentRaw Env.sample 99 (sampleRegistration 1).toRaw store1).1 =
       (createStudentRaw Env.sample 99 (sampleRegistration 1).toRaw store8).1 ∧
     (updateStudentRaw Env.sample 10 (sampleRegistration 1).toRaw store1).1 =
       (updateStudentRaw Env.sample 10 (sampleRegistration 1).toRaw store8).1 ∧
     (updateProfileRaw Env.sample 10
         { ProfileBody.none.toRaw with phone := some " 555 " } store1).1 =
       (updateProfileRaw Env.sample 10
         { ProfileBody.none.toRaw with phone := some " 555 " } store8).1) :=
  ⟨by decide,
   answers_independent_of_passwords Env.sample sampleCompare sampleRegExp 10 10 99
     ⟨some "S11@x.org", some "secret"⟩
     { StudentsQuery.none with sortBy := some SortKey.name, sortOrder := some "desc" }
     ⟨none, none, none, none, none, some SortKey.salary, none⟩ ⟨none, some "BT", none⟩
     (sampleRegistration 1).toRaw { ProfileBody.none.toRaw with phone := some " 555 " }
     store1 store8 (by decide) (by decide) (by decide) (by
       intro email password u v he hp hu hv
       cases he
       cases hp
       have h1 : User.findOneByEmail store1 (Env.sample.email "S11@x.org")
           = some (sampleStudent 11 1 false) := by
         decide
       have h8 : User.findOneByEmail store8 (Env.sample.email "S11@x.org")
           = some (sampleStudent 11 1 false) := by
         decide
       rw [h1] at hu
       rw [h8] at hv
       cases hu
       cases hv
       rfl)⟩


/-! ## Only students carry a batch reference: requests as sent -/

theorem createBatchRaw_users (env : Env) (newId : ObjectId) (body : CreateBatchBody)
    (s : Store) : (createBatchRaw env newId body s).2.users = s.users := by
  unfold createBatchRaw
  split
  · rfl
  · split
    · split
      · rfl
      · dsimp only
        split <;> rfl
    · rfl

/-- The requests as sent, too, leave a store on which only students carry a
batch reference such a store. -/
theorem batchRefsOfStudents_raw (env : Env) (s : Store) (h : BatchRefsOfStudents s) :
    (∀ newId body, BatchRefsOfStudents (createBatchRaw env newId body s).2) ∧
    (∀ newId body, BatchRefsOfStudents (createStudentRaw env newId body s).2) ∧
    (∀ id body, BatchRefsOfStudents (updateStudentRaw env id body s).2) ∧
    (∀ newId body, BatchRefsOfStudents (registerRaw env newId body s).2) ∧
    (∀ uid body, BatchRefsOfStudents (updateProfileRaw env uid body s).2) := by
  refine ⟨?_, ?_, ?_, ?_, ?_⟩
  · intro newId body
    exact batchRefs_of_users_eq h (createBatchRaw_users env newId body s)
  · intro newId body
    rcases createStudentRaw_created env newId body s with h1 | ⟨u, s1, hc, hrole, h1⟩
    · rw [h1]; exact h
    · exact batchRefs_of_users_eq (batchRefs_create h hc (fun _ => hrole)) h1
  · intro id body
    cases hu : User.findById s id with
    | none => simpa [updateStudentRaw, hu] using h
    | some u =>
      rcases updateStudentRaw_saved body hu with h1 | ⟨x, _, hxr, hur, _, _, _, _, h1⟩
      · rw [h1]; exact h
      · rw [h1]
        exact batchRefs_save h x (fun _ => hxr.trans hur)
  · intro newId body
    rcases registerRaw_created env newId body s with h1 | ⟨u, s1, hc, hok, h1⟩
    · rw [h1]; exact h
    · exact batchRefs_of_users_eq (batchRefs_create h hc hok) h1
  · intro uid body
    cases hu : User.findById s uid with
    | none => simpa [updateProfileRaw, hu] using h
    | some u =>
      rcases updateProfileRaw_store body hu with h1 | ⟨x, hx, _, h1⟩
      · rw [h1]; exact h
      · rw [h1]
        apply batchRefs_save h
        rw [(applyProfileRaw_id hx).2.2.1, (applyProfileRaw_id hx).2.2.2.1]
        exact h u (userFindById_some hu).1


/-! ## Bodies in stored form -/

theorem assignSet_stored (set : String → String) (v : Option String) (old : String)
    (h : ∀ x, v = some x → set x = x) : assignSet set v old = assignS v old := by
  cases v with
  | none => rfl
  | some x => simp [assignSet, assignS, h x rfl]

theorem assignOSet_stored (set : String → String) (v old : Option String)
    (h : ∀ x, v = some x → set x = x) : assignOSet set v old = assignOS v old := by
  cases v with
  | none => rfl
  | some x => simp [assignOSet, assignOS, h x rfl]

theorem assignNumber_num (env : Env) (v : Option Int) (old : Int) :
    assignNumber env (v.map NumberInput.num) old = some (assignN v old) := by
  cases v with
  | none => rfl
  | some n =>
    by_cases hn : n = 0
    · simp [assignNumber, assignN, NumberInput.truthy, hn]
    · simp [assignNumber, assignN, NumberInput.truthy, NumberInput.cast, hn]

theorem assignONumber_num (env : Env) (v old : Option Int) :
    assignONumber env (v.map NumberInput.num) old = some (assignON v old) := by
  cases v with
  | none => rfl
  | some n =>
    by_cases hn : n = 0
    · simp [assignONumber, assignON, NumberInput.truthy, hn]
    · simp [assignONumber, assignON, NumberInput.truthy, NumberInput.cast, hn]

theorem applyProfileRaw_of_stored_form (env : Env) (body : ProfileBody) (u : User)
    (hp : ∀ x, body.phone = some x → env.trim x = x) :
    applyProfileRaw env body.toRaw u = some (applyProfile body u) := by
  have h1 : assignOSet env.trim body.phone u.phone = assignOS body.phone u.phone :=
    assignOSet_stored _ _ _ hp
  cases ha : u.isAlumni with
  | false =>
    simp only [applyProfileRaw, applyProfile, ha, ProfileBody.toRaw, h1]
    rfl
  | true =>
    simp only [applyProfileRaw, applyProfile, ha, ProfileBody.toRaw, h1, assignNumber_num]
    rfl

/-- On a body in stored form the handler of `PUT /profile` on the body as
sent is the handler `updateProfile`. -/
theorem updateProfileRaw_of_stored_form (env : Env) (uid : ObjectId) (body : ProfileBody)
    (s : Store) (hp : ∀ x, body.phone = some x → env.trim x = x) :
    updateProfileRaw env uid body.toRaw s = updateProfile uid body s := by
  simp only [updateProfileRaw, updateProfile]
  cases hu : User.findById s uid with
  | none => rfl
  | some u =>
    simp only [applyProfileRaw_of_stored_form env body u hp]
    rfl


theorem createStudentErrorsRaw_toRaw (env : Env) (b : StudentBody) :
    createStudentErrorsRaw env b.toRaw = createStudentErrors env b := by
  cases hy : b.year <;>
    simp [createStudentErrorsRaw, createStudentErrors, StudentBody.toRaw, hy,
      NumberInput.isNumeric]

/-- On a body in stored form the handler of `POST /students` on the body as
sent is the handler `createStudent`. -/
theorem createStudentRaw_of_stored_form (env : Env) (newId : ObjectId) (body : StudentBody)
    (s : Store) (hn : ∀ x, body.name = some x → env.trim x = x)
    (he : ∀ x, body.email = some x → env.email x = x)
    (hp : ∀ x, body.phone = some x → env.trim x = x) :
    createStudentRaw env newId body.toRaw s = createStudent env newId body s := by
  have herrs := createStudentErrorsRaw_toRaw env body
  by_cases herr : createStudentErrors env body = []
  · obtain ⟨name, email, password, role, studentId, batch, course, dept, year, phone⟩ := body
    have hph : phone.map env.trim = phone := by
      cases phone with
      | none => rfl
      | some x => simp [hp x rfl]
    cases name with
    | none => simp [createStudentErrors, truthyS] at herr
    | some name =>
    cases email with
    | none => simp [createStudentErrors] at herr
    | some email =>
    cases password with
    | none => simp [createStudentErrors] at herr
    | some password =>
    cases studentId with
    | none => simp [createStudentErrors, truthyS] at herr
    | some studentId =>
    cases batch with
    | none => simp [createStudentErrors] at herr
    | some batch =>
    cases year with
    | none => simp [createStudentErrors] at herr
    | some year =>
      have hn1 : env.trim name = name := hn name rfl
      have he1 : env.email email = email := he email rfl
      simp only [createStudentRaw, createStudent, herrs, herr]
      simp only [StudentBody.toRaw, Option.map_some', NumberInput.cast, hn1, he1, hph]
  · simp only [createStudentRaw, createStudent, herrs]
    rw [if_pos herr, if_pos herr]

/-- On a body in stored form the handler of `POST /register` on the body as
sent is the handler `register`. -/
theorem registerRaw_of_stored_form (env : Env) (newId : ObjectId) (body : StudentBody)
    (s : Store) (hn : ∀ x, body.name = some x → env.trim x = x)
    (he : ∀ x, body.email = some x → env.email x = x)
    (hp : ∀ x, body.phone = some x → env.trim x = x) :
    registerRaw env newId body.toRaw s = register env newId body s := by
  have herrs : registerErrorsRaw env body.toRaw = registerErrors env body := rfl
  by_cases herr : registerErrors env body = []
  · obtain ⟨name, email, password, role, studentId, batch, course, dept, year, phone⟩ := body
    have hph : phone.map env.trim = phone := by
      cases phone with
      | none => rfl
      | some x => simp [hp x rfl]
    cases name with
    | none => simp [registerErrors, truthyS] at herr
    | some name =>
    cases email with
    | none => simp [registerErrors] at herr
    | some email =>
    cases password with
    | none => simp [registerErrors] at herr
    | some password =>
    cases role with
    | none => simp [registerErrors] at herr
    | some role =>
      have hn1 : env.trim name = name := hn name rfl
      have he1 : env.email email = email := he email rfl
      simp only [registerRaw, register, herrs, herr]
      simp only [StudentBody.toRaw, hn1, he1, hph]
      cases role <;> cases year <;> simp [NumberInput.cast] <;> split_ifs <;> rfl
  · simp only [registerRaw, register, herrs]
    rw [if_pos herr, if_pos herr]


theorem applyStudentRaw_of_stored_form (env : Env) (body : StudentBody) (u : User)
    (hn : ∀ x, body.name = some x → env.trim x = x)
    (he : ∀ x, body.email = some x → env.email x = x)
    (hp : ∀ x, body.phone = some x → env.trim x = x) :
    applyStudentRaw env body.toRaw u = some
      { u with
        name := assignS body.name u.name
        email := assignS body.email u.email
        studentId := assignOS body.studentId u.studentId
        batch := assignOA body.batch u.batch
        course := assignOS body.course u.course
        department := assignOS body.department u.department
        year := assignON body.year u.year
        phone := assignOS body.phone u.phone } := by
  simp only [applyStudentRaw, StudentBody.toRaw, assignONumber_num,
    assignSet_stored _ _ _ hn, assignSet_stored _ _ _ he, assignOSet_stored _ _ _ hp]

/-- On a body in stored form the handler of `PUT /students/:id` on the body
as sent is the handler `updateStudent`: the `required` validators and the
unique indexes accept what the two duplicate checks let through. -/
theorem updateStudentRaw_of_stored_form (env : Env) (id : ObjectId) (body : StudentBody)
    (s : Store) (hn : ∀ x, body.name = some x → env.trim x = x)
    (he : ∀ x, body.email = some x → env.email x = x)
    (hp : ∀ x, body.phone = some x → env.trim x = x) :
    updateStudentRaw env id body.toRaw s = updateStudent id body s := by
  have hmap : body.email.map env.email = body.email := by
    cases hb : body.email with
    | none => rfl
    | some x => simp [he x hb]
  have h1 : body.toRaw.email = body.email := rfl
  have h2 : body.toRaw.studentId = body.studentId := rfl
  have h3 : body.toRaw.name = body.name := rfl
  simp only [updateStudentRaw, updateStudent, hmap, h1, h2, h3]
  cases hu : User.findById s id with
  | none => rfl
  | some u =>
    simp only [applyStudentRaw_of_stored_form env body u hn he hp]
    by_cases hrole : u.role ≠ Role.student
    · simp only [if_pos hrole]
    · simp only [if_neg hrole]
      by_cases hc1 : (truthyS body.email && body.email != some u.email &&
          s.users.any (fun w => some w.email == body.email && w._id != u._id)) = true
      · simp only [if_pos hc1]
      · simp only [if_neg hc1]
        by_cases hc2 : (truthyS body.studentId && body.studentId != u.studentId &&
            s.users.any (fun w => w.studentId == body.studentId && w._id != u._id)) = true
        · simp only [if_pos hc2]
        · simp only [if_neg hc2]
          have hname : (truthyS body.name && assignS body.name u.name == "") = false := by
            cases hb : body.name with
            | none => rfl
            | some x =>
              by_cases hx : x = ""
              · simp [truthyS, hx]
              · simp [truthyS, assignS, hx]
          have hemail : (truthyS body.email && assignS body.email u.email == "") = false := by
            cases hb : body.email with
            | none => rfl
            | some x =>
              by_cases hx : x = ""
              · simp [truthyS, hx]
              · simp [truthyS, assignS, hx]
          have hidx : User.indexConflictOnUpdate s u
              { u with
                name := assignS body.name u.name
                email := assignS body.email u.email
                studentId := assignOS body.studentId u.studentId
                batch := assignOA body.batch u.batch
                course := assignOS body.course u.course
                department := assignOS body.department u.department
                year := assignON body.year u.year
                phone := assignOS body.phone u.phone } = false := by
            simp only [User.indexConflictOnUpdate, Bool.or_eq_false_iff]
            constructor
            · cases hb : body.email with
              | none => simp [assignS]
              | some x =>
                by_cases hx : x = ""
                · simp [assignS, hx]
                · by_cases hxu : x = u.email
                  · simp [assignS, hx, hxu]
                  · have hany : ∀ w ∈ s.users, w.email = x → w._id = u._id := by
                      simpa [hb, truthyS, hx, hxu] using hc1
                    simp only [assignS, bne_iff_ne, ne_eq, hx, not_false_eq_true, if_true,
                      Bool.and_eq_false_iff]
                    right
                    rw [Bool.eq_false_iff]
                    intro hex
                    obtain ⟨w, hw, hwc⟩ := List.any_eq_true.mp hex
                    simp only [Bool.and_eq_true, bne_iff_ne, ne_eq, beq_iff_eq] at hwc
                    exact hwc.1 (hany w hw hwc.2)
            · cases hb : body.studentId with
              | none => simp [assignOS]
              | some x =>
                by_cases hx : x = ""
                · simp [assignOS, hx]
                · by_cases hxu : some x = u.studentId
                  · simp [assignOS, hx, hxu]
                  · have hxu2 : ¬ u.studentId = some x := fun h => hxu h.symm
                    have hany : ∀ w ∈ s.users, w.studentId = some x → w._id = u._id := by
                      simpa [hb, truthyS, hx, hxu, hxu2] using hc2
                    simp only [assignOS, bne_iff_ne, ne_eq, hx, not_false_eq_true, if_true,
                      Bool.and_eq_false_iff]
                    right
                    rw [Bool.eq_false_iff]
                    intro hex
                    obtain ⟨w, hw, hwc⟩ := List.any_eq_true.mp hex
                    simp only [Bool.and_eq_true, bne_iff_ne, ne_eq, beq_iff_eq] at hwc
                    exact hwc.1 (hany w hw hwc.2)
          simp only [hname, hemail, hidx, Bool.or_self, Bool.false_eq_true, if_false]

end Arjun
